import Mathlib

/-!
Synergy hook engine (`lib/platform/CSynergyHook.cpp`).

A shallow embedding of the Windows input-interception DLL of synergy.

* The shared data segment (`g_*` globals) is the record `Globals`.
* Every Win32 entry point the file calls is a field of the record `Win32 σ`,
  where `σ` is the (arbitrary) state of the operating system.  Calls that
  only query the system return a value; calls with an effect on the system
  return the next system state.
* `World σ` is the globals, the system state, the messages posted with
  `PostThreadMessage` (oldest first) and the other effectful system calls
  made so far (oldest first).
* 32-bit integers: `WPARAM`, `LPARAM`, `UINT`, `DWORD`, handles are `Nat`
  bit patterns; `SInt32` values are `Int`, and `SInt32` arithmetic wraps
  (`wrapS32`) as the two's complement target does.
* The file is modelled as built: `NO_GRAB_KEYBOARD = 0`,
  `NO_LOWLEVEL_HOOKS = 0`; `_WIN32_WINNT` is a parameter of `install`.
  `assert`s are entry conditions and have no effect on the state.
-/

namespace CSynergyHook

/-! ## Types of `CSynergyHook.h` and of the top of the file -/

/-- The enum `EWheelSupport`. -/
inductive EWheelSupport where
  | kWheelNone
  | kWheelOld
  | kWheelWin2000
  | kWheelModern
  deriving DecidableEq, Repr

/-- The enum `EHookMode` of `CSynergyHook.h`. -/
inductive EHookMode where
  | kHOOK_DISABLE
  | kHOOK_WATCH_JUMP_ZONE
  | kHOOK_RELAY_EVENTS
  deriving DecidableEq, Repr

/-- The enum `EHookResult` of `CSynergyHook.h`. -/
inductive EHookResult where
  | kHOOK_FAILED
  | kHOOK_OKAY
  | kHOOK_OKAY_LL
  deriving DecidableEq, Repr

/-- The message identifiers `SYNERGY_MSG_*` of `CSynergyHook.h` that the
file posts to the owning thread. -/
inductive SynergyMsg where
  | SYNERGY_MSG_KEY
  | SYNERGY_MSG_MOUSE_BUTTON
  | SYNERGY_MSG_MOUSE_WHEEL
  | SYNERGY_MSG_MOUSE_MOVE
  | SYNERGY_MSG_SCREEN_SAVER
  deriving DecidableEq, Repr

/-- The direction masks `kLeftMask`, `kRightMask`, `kTopMask`, `kBottomMask`
of `ProtocolTypes.h`, which the file only uses by name. -/
structure DirectionMasks where
  kLeftMask : Nat
  kRightMask : Nat
  kTopMask : Nat
  kBottomMask : Nat
  deriving DecidableEq, Repr

/-- One `PostThreadMessage(idThread, Msg, wParam, lParam)` call. -/
structure PostedMsg where
  idThread : Nat
  msg : SynergyMsg
  wParam : Nat
  lParam : Nat
  deriving DecidableEq, Repr

/-- The effectful system calls other than `PostThreadMessage`. -/
inductive SysCall where
  | AttachThreadInput (idAttach idAttachTo : Nat) (fAttach : Bool)
  | SetWindowsHookEx (idHook : Nat) (hmod : Nat) (result : Nat)
  | UnhookWindowsHookEx (hhk : Nat)
  | CloseHandle (h : Nat)
  deriving DecidableEq, Repr

/-! ## Windows constants -/

def WM_MOUSEMOVE : Nat := 0x0200
def WM_LBUTTONDOWN : Nat := 0x0201
def WM_LBUTTONUP : Nat := 0x0202
def WM_LBUTTONDBLCLK : Nat := 0x0203
def WM_RBUTTONDOWN : Nat := 0x0204
def WM_RBUTTONUP : Nat := 0x0205
def WM_RBUTTONDBLCLK : Nat := 0x0206
def WM_MBUTTONDOWN : Nat := 0x0207
def WM_MBUTTONUP : Nat := 0x0208
def WM_MBUTTONDBLCLK : Nat := 0x0209
def WM_MOUSEWHEEL : Nat := 0x020A
def WM_XBUTTONDOWN : Nat := 0x020B
def WM_XBUTTONUP : Nat := 0x020C
def WM_XBUTTONDBLCLK : Nat := 0x020D
def WM_NCMOUSEMOVE : Nat := 0x00A0
def WM_NCLBUTTONDOWN : Nat := 0x00A1
def WM_NCLBUTTONUP : Nat := 0x00A2
def WM_NCLBUTTONDBLCLK : Nat := 0x00A3
def WM_NCRBUTTONDOWN : Nat := 0x00A4
def WM_NCRBUTTONUP : Nat := 0x00A5
def WM_NCRBUTTONDBLCLK : Nat := 0x00A6
def WM_NCMBUTTONDOWN : Nat := 0x00A7
def WM_NCMBUTTONUP : Nat := 0x00A8
def WM_NCMBUTTONDBLCLK : Nat := 0x00A9
def WM_NCXBUTTONDOWN : Nat := 0x00AB
def WM_NCXBUTTONUP : Nat := 0x00AC
def WM_NCXBUTTONDBLCLK : Nat := 0x00AD
def WM_SYSCOMMAND : Nat := 0x0112
def SC_SCREENSAVE : Nat := 0xF140

def VK_SHIFT : Nat := 0x10
def VK_CONTROL : Nat := 0x11
def VK_MENU : Nat := 0x12
def VK_CAPITAL : Nat := 0x14
def VK_HANGUL : Nat := 0x15
def VK_NUMLOCK : Nat := 0x90
def VK_SCROLL : Nat := 0x91
def VK_LSHIFT : Nat := 0xA0
def VK_RSHIFT : Nat := 0xA1
def VK_LCONTROL : Nat := 0xA2
def VK_RCONTROL : Nat := 0xA3
def VK_LMENU : Nat := 0xA4
def VK_RMENU : Nat := 0xA5

def WH_KEYBOARD : Nat := 2
def WH_GETMESSAGE : Nat := 3
def WH_MOUSE : Nat := 7
def WH_KEYBOARD_LL : Nat := 13
def WH_MOUSE_LL : Nat := 14

def SM_MOUSEWHEELPRESENT : Nat := 75
def VER_PLATFORM_WIN32_NT : Nat := 2
def STANDARD_RIGHTS_REQUIRED : Nat := 0x000F0000

def MSH_MOUSEWHEEL : String := "MSWHEEL_ROLLMSG"
def MSH_WHEELMODULE_CLASS : String := "MouseZ"
def MSH_WHEELMODULE_TITLE : String := "Magellan MSWHEEL"
def MSH_WHEELSUPPORT : String := "MSH_WHEELSUPPORT_MSG"

/-! ## The shared data segment -/

/-- The globals of the `shared` data segment, with their initial values. -/
structure Globals where
  g_hinstance : Nat := 0
  g_processID : Nat := 0
  g_wheelSupport : EWheelSupport := EWheelSupport.kWheelNone
  g_wmMouseWheel : Nat := 0
  g_threadID : Nat := 0
  g_keyboard : Nat := 0
  g_mouse : Nat := 0
  g_getMessage : Nat := 0
  g_keyboardLL : Nat := 0
  g_mouseLL : Nat := 0
  g_screenSaver : Bool := false
  g_mode : EHookMode := EHookMode.kHOOK_DISABLE
  g_zoneSides : Nat := 0
  g_zoneSize : Int := 0
  g_xScreen : Int := 0
  g_yScreen : Int := 0
  g_wScreen : Int := 0
  g_hScreen : Int := 0
  g_deadVirtKey : Nat := 0
  g_deadLParam : Nat := 0
  g_deadKeyState : List Nat := List.replicate 256 0
  g_hookThread : Nat := 0
  g_attachedThread : Nat := 0
  deriving DecidableEq, Repr

/-! ## The operating system -/

/-- The fields `dwPlatformId`, `dwMajorVersion`, `dwMinorVersion` of
`OSVERSIONINFO`. -/
structure OSVERSIONINFO where
  dwPlatformId : Nat
  dwMajorVersion : Nat
  dwMinorVersion : Nat
  deriving DecidableEq, Repr

/-- What `ToAscii` hands back: its return value, the content of the
character buffer after the call, and the next system state (the call
changes the keyboard layout's dead-key buffer). -/
structure ToAsciiResult (σ : Type) where
  n : Int
  c : Nat
  sys : σ

/-- The Win32 calls of the file, over a system state `σ`.  A `NULL` handle
is `0`. -/
structure Win32 (σ : Type) where
  /-- `GetForegroundWindow()`. -/
  GetForegroundWindow : σ → Nat
  /-- `GetWindowThreadProcessId(window, NULL)`. -/
  GetWindowThreadProcessId : σ → Nat → Nat
  /-- `AttachThreadInput(idAttach, idAttachTo, fAttach)`. -/
  AttachThreadInput : σ → Nat → Nat → Bool → σ
  /-- `MapVirtualKey(uCode, uMapType)`. -/
  MapVirtualKey : σ → Nat → Nat → Nat
  /-- Entry `i` of the table filled by `GetKeyboardState`. -/
  GetKeyboardState : σ → Nat → Nat
  /-- `GetAsyncKeyState(vKey)`, a `SHORT`. -/
  GetAsyncKeyState : σ → Nat → Int
  /-- `GetKeyState(nVirtKey)`, a `SHORT`. -/
  GetKeyState : σ → Nat → Int
  /-- `ToAscii(uVirtKey, uScanCode, lpKeyState, lpChar, uFlags)`; the fourth
  argument is the content of `*lpChar` before the call. -/
  ToAscii : σ → Nat → Nat → List Nat → Nat → Nat → ToAsciiResult σ
  /-- `SetWindowsHookEx(idHook, proc, hmod, 0)`; the procedure is the one
  the file installs for `idHook`. -/
  SetWindowsHookEx : σ → Nat → Nat → Nat × σ
  /-- `UnhookWindowsHookEx(hhk)`. -/
  UnhookWindowsHookEx : σ → Nat → σ
  /-- `GetCurrentProcessId()`. -/
  GetCurrentProcessId : σ → Nat
  /-- `GetCurrentThreadId()`. -/
  GetCurrentThreadId : σ → Nat
  /-- `OpenProcess(dwDesiredAccess, FALSE, dwProcessId)`. -/
  OpenProcess : σ → Nat → Nat → Nat
  /-- `CloseHandle(h)`. -/
  CloseHandle : σ → Nat → σ
  /-- `GetModuleHandle(name)`. -/
  GetModuleHandle : σ → String → Nat
  /-- `GetVersionEx(&info)`: `none` when the call fails. -/
  GetVersionEx : σ → Option OSVERSIONINFO
  /-- `GetSystemMetrics(nIndex)`. -/
  GetSystemMetrics : σ → Nat → Int
  /-- `RegisterWindowMessage(name)`. -/
  RegisterWindowMessage : σ → String → Nat
  /-- `FindWindow(className, windowName)`. -/
  FindWindow : σ → String → String → Nat
  /-- `SendMessage(hwnd, msg, wParam, lParam)`. -/
  SendMessage : σ → Nat → Nat → Nat → Nat → Int

/-- The state the functions of the file run in. -/
structure World (σ : Type) where
  g : Globals
  sys : σ
  posted : List PostedMsg := []
  calls : List SysCall := []

variable {σ : Type}

/-! ## Machine integers -/

/-- A 32-bit two's complement result of `SInt32` arithmetic. -/
def wrapS32 (i : Int) : Int := (i + 2147483648) % 4294967296 - 2147483648

/-- The 32-bit pattern of an `SInt32` passed where a `WPARAM` or `LPARAM`
is expected. -/
def toU32 (i : Int) : Nat := (i % 4294967296).toNat

/-! ## System calls on the world -/

/-- The call `PostThreadMessage(g_threadID, msg, wParam, lParam)`. -/
def PostThreadMessage (w : World σ) (msg : SynergyMsg) (wParam lParam : Nat) : World σ :=
  { w with posted := w.posted ++ [⟨w.g.g_threadID, msg, wParam, lParam⟩] }

/-- The call `AttachThreadInput(idAttach, idAttachTo, fAttach)`. -/
def AttachThreadInput (os : Win32 σ) (w : World σ) (idAttach idAttachTo : Nat)
    (fAttach : Bool) : World σ :=
  { w with
    sys := os.AttachThreadInput w.sys idAttach idAttachTo fAttach
    calls := w.calls ++ [SysCall.AttachThreadInput idAttach idAttachTo fAttach] }

/-! ## Internal functions -/

/-- The function `attachThreadToForeground` (lines 115-141). -/
def attachThreadToForeground (os : Win32 σ) (w : World σ) : World σ :=
  if w.g.g_hookThread ≠ 0 then
    let window := os.GetForegroundWindow w.sys
    let threadID := os.GetWindowThreadProcessId w.sys window
    if w.g.g_attachedThread ≠ threadID then
      let w1 :=
        if w.g.g_attachedThread ≠ 0 ∧ w.g.g_attachedThread ≠ w.g.g_hookThread then
          AttachThreadInput os w w.g.g_hookThread w.g.g_attachedThread false
        else w
      let w2 : World σ := { w1 with g := { w1.g with g_attachedThread := threadID } }
      if w2.g.g_attachedThread ≠ 0 ∧ w2.g.g_attachedThread ≠ w2.g.g_hookThread then
        AttachThreadInput os w2 w2.g.g_hookThread w2.g.g_attachedThread true
      else w2
    else w
  else w

/-- The function `detachThread` (lines 143-151). -/
def detachThread (os : Win32 σ) (w : World σ) : World σ :=
  if w.g.g_attachedThread ≠ 0 then
    let w1 := AttachThreadInput os w w.g.g_hookThread w.g.g_attachedThread false
    { w1 with g := { w1.g with g_attachedThread := 0 } }
  else w

/-- The case labels of the first group of the `switch` of
`mouseHookHandler` (lines 370-393), in source order. -/
def buttonEvents : List Nat :=
  [WM_LBUTTONDOWN, WM_MBUTTONDOWN, WM_RBUTTONDOWN, WM_XBUTTONDOWN,
   WM_LBUTTONDBLCLK, WM_MBUTTONDBLCLK, WM_RBUTTONDBLCLK, WM_XBUTTONDBLCLK,
   WM_LBUTTONUP, WM_MBUTTONUP, WM_RBUTTONUP, WM_XBUTTONUP,
   WM_NCLBUTTONDOWN, WM_NCMBUTTONDOWN, WM_NCRBUTTONDOWN, WM_NCXBUTTONDOWN,
   WM_NCLBUTTONDBLCLK, WM_NCMBUTTONDBLCLK, WM_NCRBUTTONDBLCLK, WM_NCXBUTTONDBLCLK,
   WM_NCLBUTTONUP, WM_NCMBUTTONUP, WM_NCRBUTTONUP, WM_NCXBUTTONUP]

/-- The jump zone test of `mouseHookHandler` (lines 414-426): the value of
`inside` after the four guarded assignments. -/
def jumpZoneInside (pt : DirectionMasks) (g : Globals) (x y : Int) : Bool :=
  let inside := false
  let inside :=
    if !inside && decide (g.g_zoneSides &&& pt.kLeftMask ≠ 0) then
      decide (x < wrapS32 (g.g_xScreen + g.g_zoneSize))
    else inside
  let inside :=
    if !inside && decide (g.g_zoneSides &&& pt.kRightMask ≠ 0) then
      decide (x ≥ wrapS32 (wrapS32 (g.g_xScreen + g.g_wScreen) - g.g_zoneSize))
    else inside
  let inside :=
    if !inside && decide (g.g_zoneSides &&& pt.kTopMask ≠ 0) then
      decide (y < wrapS32 (g.g_yScreen + g.g_zoneSize))
    else inside
  let inside :=
    if !inside && decide (g.g_zoneSides &&& pt.kBottomMask ≠ 0) then
      decide (y ≥ wrapS32 (wrapS32 (g.g_yScreen + g.g_hScreen) - g.g_zoneSize))
    else inside
  inside

/-- The function `mouseHookHandler` (lines 363-438): the returned flag
(`true`: eat the event) and the world after the call. -/
def mouseHookHandler (pt : DirectionMasks) (os : Win32 σ) (w0 : World σ)
    (wParam : Nat) (x y data : Int) : Bool × World σ :=
  let w := attachThreadToForeground os w0
  if wParam ∈ buttonEvents then
    -- always relay the event.  eat it if relaying.
    (decide (w.g.g_mode = EHookMode.kHOOK_RELAY_EVENTS),
      PostThreadMessage w SynergyMsg.SYNERGY_MSG_MOUSE_BUTTON wParam (toU32 data))
  else if wParam = WM_MOUSEWHEEL then
    if w.g.g_mode = EHookMode.kHOOK_RELAY_EVENTS then
      (true, PostThreadMessage w SynergyMsg.SYNERGY_MSG_MOUSE_WHEEL (toU32 data) 0)
    else (false, w)
  else if wParam = WM_NCMOUSEMOVE ∨ wParam = WM_MOUSEMOVE then
    if w.g.g_mode = EHookMode.kHOOK_RELAY_EVENTS then
      (true, PostThreadMessage w SynergyMsg.SYNERGY_MSG_MOUSE_MOVE (toU32 x) (toU32 y))
    else if w.g.g_mode = EHookMode.kHOOK_WATCH_JUMP_ZONE then
      (jumpZoneInside pt w.g x y,
        PostThreadMessage w SynergyMsg.SYNERGY_MSG_MOUSE_MOVE (toU32 x) (toU32 y))
    else (false, w)
  else (false, w)

/-- The function `setSides` (lines 892-896). -/
def setSides (w : World σ) (sides : Nat) : World σ :=
  { w with g := { w.g with g_zoneSides := sides } }

/-- The function `setZone` (lines 898-906). -/
def setZone (w : World σ) (x y width height jumpZoneSize : Int) : World σ :=
  { w with g := { w.g with
      g_zoneSize := jumpZoneSize
      g_xScreen := x
      g_yScreen := y
      g_wScreen := width
      g_hScreen := height } }

/-- The function `setMode` (lines 908-916). -/
def setMode (w : World σ) (mode : EHookMode) : World σ :=
  if mode = w.g.g_mode then w
  else { w with g := { w.g with g_mode := mode } }

/-! ## The keyboard -/

/-- The macro `LOBYTE`. -/
def LOBYTE (w : Nat) : Nat := w % 256

/-- The macro `HIBYTE`. -/
def HIBYTE (w : Nat) : Nat := (w >>> 8) % 256

/-- The macro `MAKEWORD`. -/
def MAKEWORD (a b : Nat) : Nat := ((a % 256) ||| ((b % 256) <<< 8)) % 65536

/-- The macro `MAKEWPARAM`. -/
def MAKEWPARAM (l h : Nat) : Nat := ((l % 65536) ||| ((h % 65536) <<< 16)) % 4294967296

/-- The function `makeKeyMsg` (lines 153-159); `c` is the bit pattern of the
`char`. -/
def makeKeyMsg (virtKey : Nat) (c : Nat) : Nat :=
  MAKEWPARAM (MAKEWORD (virtKey &&& 0xff) (c % 256)) 0

/-- The function `keyboardGetState` (lines 161-177): the 256 entries it
writes to its argument. -/
def keyboardGetState (os : Win32 σ) (w : World σ) : List Nat :=
  if w.g.g_hookThread ≠ 0 then
    (List.range 256).map (fun i => os.GetKeyboardState w.sys i % 256)
  else
    let keys := (List.range 256).map
      (fun i => if os.GetAsyncKeyState w.sys i < 0 then 0x80 else 0)
    let key := os.GetKeyState w.sys VK_CAPITAL
    keys.set VK_CAPITAL (((if key < 0 then 0x80 else 0) ||| (key % 2).toNat) % 256)

/-- Lines 213-268 of `keyboardHookHandler`: the key state table is read and
adjusted for ctrl and alt, and the key is mapped to characters with
`ToAscii`, a second time with ctrl and alt cleared when the first mapping
gave nothing while both were down.  It returns the result of the last
mapping (`n`, `c` and the system state) and `flags`. -/
def keyboardMapKey (os : Win32 σ) (w : World σ) (wParam lParam : Nat) :
    ToAsciiResult σ × Nat :=
  -- we need the keyboard state for ToAscii()
  let keys0 := keyboardGetState os w
  let control := keys0.getD VK_CONTROL 0
  let menu := keys0.getD VK_MENU 0
  let keys1 :=
    if control &&& 0x80 = 0 ∨ menu &&& 0x80 = 0 then
      ((keys0.set VK_LCONTROL 0).set VK_RCONTROL 0).set VK_CONTROL 0
    else
      (((keys0.set VK_LCONTROL 0x80).set VK_CONTROL 0x80).set VK_LMENU 0x80).set VK_MENU 0x80
  let flags : Nat := if menu &&& 0x80 ≠ 0 then 0 ||| 1 else 0
  -- map the key event to a character
  let scanCode := (lParam &&& 0x00ff0000) >>> 16
  let r1 := os.ToAscii w.sys wParam scanCode keys1 0 flags
  -- if mapping failed and ctrl and alt are pressed then try again
  if r1.n = 0 ∧ control &&& 0x80 ≠ 0 ∧ menu &&& 0x80 ≠ 0 then
    let rd :=
      if w.g.g_deadVirtKey ≠ 0 then
        os.ToAscii r1.sys w.g.g_deadVirtKey ((w.g.g_deadLParam &&& 0x00ff0000) >>> 16)
          w.g.g_deadKeyState r1.c flags
      else r1
    let keys2 :=
      (((((keys1.set VK_LCONTROL 0).set VK_RCONTROL 0).set VK_CONTROL 0).set
        VK_LMENU 0).set VK_RMENU 0).set VK_MENU 0
    (os.ToAscii rd.sys wParam scanCode keys2 rd.c flags, flags)
  else (r1, flags)

/-- Lines 213-313 of `keyboardHookHandler`: the block run when the key maps
to a character (`c != 0`).  It returns `charAndVirtKey` and the world. -/
def keyboardToChar (os : Win32 σ) (w : World σ) (wParam lParam : Nat) : Nat × World σ :=
  let m := keyboardMapKey os w wParam lParam
  let n := m.1.n
  let c := m.1.c
  let flags := m.2
  let w1 : World σ := { w with sys := m.1.sys }
  let s : Nat × World σ :=
    if n = 0 then
      -- key doesn't map to a character
      (wParam &&& 0xff, w1)
    else if n = 1 then
      -- key maps to a character composed with dead key
      (makeKeyMsg wParam (LOBYTE c), w1)
    else if n = 2 then
      -- previous dead key not composed.  send a fake key press and release
      let deadCharAndVirtKey := makeKeyMsg w1.g.g_deadVirtKey (LOBYTE c)
      let w2 := PostThreadMessage w1 SynergyMsg.SYNERGY_MSG_KEY deadCharAndVirtKey
        (w1.g.g_deadLParam &&& 0x7fffffff)
      let w3 := PostThreadMessage w2 SynergyMsg.SYNERGY_MSG_KEY deadCharAndVirtKey
        (w2.g.g_deadLParam ||| 0x80000000)
      (makeKeyMsg wParam (HIBYTE c), w3)
    else
      -- default: key is a dead key
      (wParam &&& 0xff,
        { w1 with g := { w1.g with g_deadVirtKey := wParam, g_deadLParam := lParam } })
  -- put back the dead key, if any, for the application to use
  let w4 := s.2
  let w5 : World σ :=
    if w4.g.g_deadVirtKey ≠ 0 then
      { w4 with sys := (os.ToAscii w4.sys w4.g.g_deadVirtKey
          ((w4.g.g_deadLParam &&& 0x00ff0000) >>> 16) w4.g.g_deadKeyState c flags).sys }
    else w4
  -- clear out old dead key state
  (s.1, { w5 with g := { w5.g with g_deadVirtKey := 0, g_deadLParam := 0 } })

/-- The keys of the first group of the pass-through `switch` (lines 332-334). -/
def lockKeys : List Nat := [VK_CAPITAL, VK_NUMLOCK, VK_SCROLL]

/-- The keys of the second group of the pass-through `switch`
(lines 340-349). -/
def shiftKeys : List Nat :=
  [VK_SHIFT, VK_LSHIFT, VK_RSHIFT, VK_CONTROL, VK_LCONTROL, VK_RCONTROL,
   VK_MENU, VK_LMENU, VK_RMENU, VK_HANGUL]

/-- Lines 207-359 of `keyboardHookHandler`: what the function does once the
dead key check at its top has not returned; `c` is the result of
`MapVirtualKey(wParam, 2)`. -/
def keyboardForward (os : Win32 σ) (w : World σ) (wParam lParam c : Nat) : Bool × World σ :=
  let s : Nat × World σ :=
    if c ≠ 0 then keyboardToChar os w wParam lParam else (wParam &&& 0xff, w)
  let charAndVirtKey := s.1
  -- forward message to our window
  let w1 := PostThreadMessage s.2 SynergyMsg.SYNERGY_MSG_KEY charAndVirtKey lParam
  -- send fake key release if the user just pressed two dead keys in a row
  let w2 :=
    if c &&& 0x80000000 ≠ 0 then
      PostThreadMessage w1 SynergyMsg.SYNERGY_MSG_KEY charAndVirtKey (lParam ||| 0x80000000)
    else w1
  if w2.g.g_mode = EHookMode.kHOOK_RELAY_EVENTS then
    if wParam ∈ lockKeys then (false, w2)
    else if wParam ∈ shiftKeys then (false, w2)
    else (true, w2)
  else (false, w2)

/-- The function `keyboardHookHandler` (lines 179-360): the returned flag
(`true`: discard the event) and the world after the call. -/
def keyboardHookHandler (os : Win32 σ) (w0 : World σ) (wParam lParam : Nat) :
    Bool × World σ :=
  let w := attachThreadToForeground os w0
  let c := os.MapVirtualKey w.sys wParam 2
  if c &&& 0x80000000 ≠ 0 then
    if lParam &&& 0x80000000 = 0 then
      if w.g.g_deadVirtKey = 0 then
        -- dead key press, no dead key in the buffer
        (false, { w with g := { w.g with
            g_deadVirtKey := wParam
            g_deadLParam := lParam
            g_deadKeyState := keyboardGetState os w } })
      else
        -- second dead key press in a row so let it pass
        keyboardForward os w wParam lParam c
    else
      -- dead key release
      (false, w)
  else keyboardForward os w wParam lParam c

/-- What a hook procedure returns: `1`, or the result of
`CallNextHookEx(hhk, code, wParam, lParam)`. -/
inductive HookReturn where
  | one
  | CallNextHookEx (hhk : Nat) (code : Int) (wParam lParam : Nat)
  deriving DecidableEq, Repr

/-- The function `keyboardHook` (lines 440-454). -/
def keyboardHook (os : Win32 σ) (w : World σ) (code : Int) (wParam lParam : Nat) :
    HookReturn × World σ :=
  if code ≥ 0 then
    let r := keyboardHookHandler os w wParam lParam
    if r.1 then (HookReturn.one, r.2)
    else (HookReturn.CallNextHookEx r.2.g.g_keyboard code wParam lParam, r.2)
  else (HookReturn.CallNextHookEx w.g.g_keyboard code wParam lParam, w)

/-! ## Installing and removing the hooks -/

/-- The call `SetWindowsHookEx(idHook, proc, g_hinstance, 0)`: the handle it
returns and the world after it. -/
def SetWindowsHookEx (os : Win32 σ) (w : World σ) (idHook : Nat) : Nat × World σ :=
  let r := os.SetWindowsHookEx w.sys idHook w.g.g_hinstance
  (r.1, { w with
    sys := r.2
    calls := w.calls ++ [SysCall.SetWindowsHookEx idHook w.g.g_hinstance r.1] })

/-- The call `UnhookWindowsHookEx(hhk)`. -/
def UnhookWindowsHookEx (os : Win32 σ) (w : World σ) (hhk : Nat) : World σ :=
  { w with
    sys := os.UnhookWindowsHookEx w.sys hhk
    calls := w.calls ++ [SysCall.UnhookWindowsHookEx hhk] }

/-- The function `getWheelSupport` (lines 598-639): its result and the
world after it (it may write `g_wmMouseWheel`). -/
def getWheelSupport (os : Win32 σ) (w : World σ) : EWheelSupport × World σ :=
  match os.GetVersionEx w.sys with
  | none => (EWheelSupport.kWheelNone, w)
  | some info =>
    -- see if modern wheel is present
    if os.GetSystemMetrics w.sys SM_MOUSEWHEELPRESENT ≠ 0 then
      if info.dwPlatformId = VER_PLATFORM_WIN32_NT ∧ info.dwMajorVersion = 5 ∧
          info.dwMinorVersion = 0 then
        (EWheelSupport.kWheelWin2000, w)
      else (EWheelSupport.kWheelModern, w)
    else
      -- not modern.  see if we've got old-style support.
      let wheelSupportMsg := os.RegisterWindowMessage w.sys MSH_WHEELSUPPORT
      let wheelSupportWindow := os.FindWindow w.sys MSH_WHEELMODULE_CLASS MSH_WHEELMODULE_TITLE
      if wheelSupportWindow ≠ 0 ∧ wheelSupportMsg ≠ 0 then
        if os.SendMessage w.sys wheelSupportWindow wheelSupportMsg 0 0 ≠ 0 then
          let w1 : World σ :=
            { w with g := { w.g with
                g_wmMouseWheel := os.RegisterWindowMessage w.sys MSH_MOUSEWHEEL } }
          if w1.g.g_wmMouseWheel ≠ 0 then (EWheelSupport.kWheelOld, w1)
          else (EWheelSupport.kWheelModern, w1)
        else (EWheelSupport.kWheelModern, w)
      else (EWheelSupport.kWheelModern, w)

/-- The statement `if (g_keyboardLL != NULL) { UnhookWindowsHookEx(g_keyboardLL);
g_keyboardLL = NULL; }` (lines 769-772 and 826-829). -/
def unhookKeyboardLL (os : Win32 σ) (w : World σ) : World σ :=
  if w.g.g_keyboardLL ≠ 0 then
    let u := UnhookWindowsHookEx os w w.g.g_keyboardLL
    { u with g := { u.g with g_keyboardLL := 0 } }
  else w

/-- The statement `if (g_mouseLL != NULL) { UnhookWindowsHookEx(g_mouseLL);
g_mouseLL = NULL; }` (lines 773-776 and 830-833). -/
def unhookMouseLL (os : Win32 σ) (w : World σ) : World σ :=
  if w.g.g_mouseLL ≠ 0 then
    let u := UnhookWindowsHookEx os w w.g.g_mouseLL
    { u with g := { u.g with g_mouseLL := 0 } }
  else w

/-- The statement `if (g_keyboard != NULL) { UnhookWindowsHookEx(g_keyboard);
g_keyboard = NULL; }` (lines 834-837). -/
def unhookKeyboard (os : Win32 σ) (w : World σ) : World σ :=
  if w.g.g_keyboard ≠ 0 then
    let u := UnhookWindowsHookEx os w w.g.g_keyboard
    { u with g := { u.g with g_keyboard := 0 } }
  else w

/-- The statement `if (g_mouse != NULL) { UnhookWindowsHookEx(g_mouse);
g_mouse = NULL; }` (lines 838-841). -/
def unhookMouse (os : Win32 σ) (w : World σ) : World σ :=
  if w.g.g_mouse ≠ 0 then
    let u := UnhookWindowsHookEx os w w.g.g_mouse
    { u with g := { u.g with g_mouse := 0 } }
  else w

/-- The statement `if (g_getMessage != NULL && !g_screenSaver) {
UnhookWindowsHookEx(g_getMessage); g_getMessage = NULL; }` of `uninstall`
(lines 842-845). -/
def unhookGetMessage (os : Win32 σ) (w : World σ) : World σ :=
  if w.g.g_getMessage ≠ 0 ∧ ¬ (w.g.g_screenSaver = true) then
    let u := UnhookWindowsHookEx os w w.g.g_getMessage
    { u with g := { u.g with g_getMessage := 0 } }
  else w

/-- The function `uninstall` (lines 813-849); it returns `1`. -/
def uninstall (os : Win32 σ) (w : World σ) : Nat × World σ :=
  -- discard old dead keys
  let w1 : World σ := { w with g := { w.g with g_deadVirtKey := 0, g_deadLParam := 0 } }
  -- detach from thread
  let w2 := detachThread os w1
  -- uninstall hooks
  let w3 := unhookKeyboardLL os w2
  let w4 := unhookMouseLL os w3
  let w5 := unhookKeyboard os w4
  let w6 := unhookMouse os w5
  let w7 := unhookGetMessage os w6
  (1, { w7 with g := { w7.g with g_wheelSupport := EWheelSupport.kWheelNone } })

/-- Lines 749-755 of `install`: install the GetMessage hook (unless already
installed). -/
def installGetMessage (os : Win32 σ) (w : World σ) : World σ :=
  if w.g.g_wheelSupport = EWheelSupport.kWheelOld ∧ w.g.g_getMessage = 0 then
    let h := SetWindowsHookEx os w WH_GETMESSAGE
    { h.2 with g := { h.2.g with g_getMessage := h.1 } }
  else w

/-- Lines 757-779 of `install`: install the low-level hooks, both or none.
`WIN32_WINNT` is the value of the build macro `_WIN32_WINNT`; below `0x0400`
the block is compiled out. -/
def installLowLevel (WIN32_WINNT : Nat) (os : Win32 σ) (w : World σ) : World σ :=
  if WIN32_WINNT ≥ 0x0400 then
    let hm := SetWindowsHookEx os w WH_MOUSE_LL
    let w1 : World σ := { hm.2 with g := { hm.2.g with g_mouseLL := hm.1 } }
    let hk := SetWindowsHookEx os w1 WH_KEYBOARD_LL
    let w2 : World σ := { hk.2 with g := { hk.2.g with g_keyboardLL := hk.1 } }
    if w2.g.g_mouseLL = 0 ∨ w2.g.g_keyboardLL = 0 then
      unhookMouseLL os (unhookKeyboardLL os w2)
    else w2
  else w

/-- Lines 781-793 of `install`: install the regular hooks. -/
def installRegular (os : Win32 σ) (w : World σ) : World σ :=
  let w1 : World σ :=
    if w.g.g_mouseLL = 0 then
      let h := SetWindowsHookEx os w WH_MOUSE
      { h.2 with g := { h.2.g with g_mouse := h.1 } }
    else w
  if w1.g.g_keyboardLL = 0 then
    let h := SetWindowsHookEx os w1 WH_KEYBOARD
    { h.2 with g := { h.2.g with g_keyboard := h.1 } }
  else w1

/-- The function `install` (lines 729-811).  `WIN32_WINNT` is the value of
the build macro `_WIN32_WINNT`, which decides whether the low-level hooks
are compiled in. -/
def install (WIN32_WINNT : Nat) (os : Win32 σ) (w : World σ) : EHookResult × World σ :=
  -- must be initialized
  if w.g.g_threadID = 0 then (EHookResult.kHOOK_FAILED, w)
  else
    -- discard old dead keys
    let w1 : World σ := { w with g := { w.g with g_deadVirtKey := 0, g_deadLParam := 0 } }
    -- check for mouse wheel support
    let ws := getWheelSupport os w1
    let w2 : World σ := { ws.2 with g := { ws.2.g with g_wheelSupport := ws.1 } }
    -- install GetMessage hook (unless already installed)
    let w3 := installGetMessage os w2
    -- install low-level hooks.  we require that they both get installed.
    let w4 := installLowLevel WIN32_WINNT os w3
    -- install regular hooks
    let w5 := installRegular os w4
    -- check that we got all the hooks we wanted
    if (w5.g.g_getMessage = 0 ∧ w5.g.g_wheelSupport = EWheelSupport.kWheelOld) ∨
        (w5.g.g_keyboardLL = 0 ∧ w5.g.g_keyboard = 0) ∨
        (w5.g.g_mouseLL = 0 ∧ w5.g.g_mouse = 0) then
      (EHookResult.kHOOK_FAILED, (uninstall os w5).2)
    else if w5.g.g_keyboardLL ≠ 0 ∨ w5.g.g_mouseLL ≠ 0 then
      (EHookResult.kHOOK_OKAY_LL,
        { w5 with g := { w5.g with g_hookThread := os.GetCurrentThreadId w5.sys } })
    else (EHookResult.kHOOK_OKAY, w5)

/-- The function `installScreenSaver` (lines 851-873). -/
def installScreenSaver (os : Win32 σ) (w : World σ) : Nat × World σ :=
  -- must be initialized
  if w.g.g_threadID = 0 then (0, w)
  else
    -- generate screen saver messages
    let w1 : World σ := { w with g := { w.g with g_screenSaver := true } }
    -- install hook unless it's already installed
    let w2 : World σ :=
      if w1.g.g_getMessage = 0 then
        let h := SetWindowsHookEx os w1 WH_GETMESSAGE
        { h.2 with g := { h.2.g with g_getMessage := h.1 } }
      else w1
    (if w2.g.g_getMessage ≠ 0 then 1 else 0, w2)

/-- The function `uninstallScreenSaver` (lines 875-890); it returns `1`. -/
def uninstallScreenSaver (os : Win32 σ) (w : World σ) : Nat × World σ :=
  -- uninstall hook unless the mouse wheel hook is installed
  let w1 : World σ :=
    if w.g.g_getMessage ≠ 0 ∧ w.g.g_wheelSupport ≠ EWheelSupport.kWheelOld then
      let u := UnhookWindowsHookEx os w w.g.g_getMessage
      { u with g := { u.g with g_getMessage := 0 } }
    else w
  -- screen saver hook is no longer installed
  (1, { w1 with g := { w1.g with g_screenSaver := false } })

/-! ## The lifecycle -/

/-- The function `init` (lines 669-715): `0` when the library is refused to
the caller, `1` otherwise. -/
def init (os : Win32 σ) (w : World σ) (threadID : Nat) : Nat × World σ :=
  -- set the defaults (lines 701-714)
  let finish : World σ → Nat × World σ := fun v =>
    (1, { v with g := { v.g with
      g_threadID := threadID
      g_mode := EHookMode.kHOOK_DISABLE
      g_zoneSides := 0
      g_zoneSize := 0
      g_xScreen := 0
      g_yScreen := 0
      g_wScreen := 0
      g_hScreen := 0 } })
  -- try to open process that last called init()
  if w.g.g_processID ≠ 0 ∧ w.g.g_processID ≠ os.GetCurrentProcessId w.sys then
    let process := os.OpenProcess w.sys STANDARD_RIGHTS_REQUIRED w.g.g_processID
    if process ≠ 0 then
      -- old process (probably) still exists so refuse to reinitialize
      (0, { w with
        sys := os.CloseHandle w.sys process
        calls := w.calls ++ [SysCall.CloseHandle process] })
    else
      -- clean up after old process
      finish { w with g := { w.g with
        g_hinstance := os.GetModuleHandle w.sys "synrgyhk"
        g_processID := os.GetCurrentProcessId w.sys
        g_wheelSupport := EWheelSupport.kWheelNone
        g_threadID := 0
        g_keyboard := 0
        g_mouse := 0
        g_getMessage := 0
        g_keyboardLL := 0
        g_mouseLL := 0
        g_screenSaver := false } }
  else finish w

/-- The function `cleanup` (lines 717-727); it returns `1`. -/
def cleanup (os : Win32 σ) (w : World σ) : Nat × World σ :=
  if w.g.g_processID = os.GetCurrentProcessId w.sys then
    (1, { w with g := { w.g with g_threadID := 0 } })
  else (1, w)

/-! ## The hook procedures -/

/-- The fields of `MSG` that `getMessageHook` reads and writes. -/
structure MSG where
  message : Nat
  wParam : Nat
  deriving DecidableEq, Repr

/-- The function `getMessageHook` (lines 498-527): what it returns, the
observed message after the call, and the world. -/
def getMessageHook (w : World σ) (code : Int) (wParam lParam : Nat)
    (msg : MSG) : HookReturn × MSG × World σ :=
  let r : MSG × World σ :=
    if code ≥ 0 then
      let w1 : World σ :=
        if w.g.g_screenSaver = true then
          if msg.message = WM_SYSCOMMAND ∧ msg.wParam = SC_SCREENSAVE then
            -- broadcast screen saver started message
            PostThreadMessage w SynergyMsg.SYNERGY_MSG_SCREEN_SAVER 1 0
          else w
        else w
      if w1.g.g_mode = EHookMode.kHOOK_RELAY_EVENTS then
        if msg.message = w1.g.g_wmMouseWheel then
          -- post message to our window and zero out the delta
          (({ msg with wParam := 0 } : MSG),
            PostThreadMessage w1 SynergyMsg.SYNERGY_MSG_MOUSE_WHEEL msg.wParam 0)
        else (msg, w1)
      else (msg, w1)
    else (msg, w)
  (HookReturn.CallNextHookEx r.2.g.g_getMessage code wParam lParam, r.1, r.2)

/-- The fields of `MOUSEHOOKSTRUCT` that `mouseHook` reads, with the
`mouseData` field of `MOUSEHOOKSTRUCTWin2000`. -/
structure MOUSEHOOKSTRUCT where
  x : Int
  y : Int
  dwExtraInfo : Nat
  mouseData : Nat
  deriving DecidableEq, Repr

/-- The macro `LOWORD`. -/
def LOWORD (l : Nat) : Nat := l % 65536

/-- The macro `HIWORD`. -/
def HIWORD (l : Nat) : Nat := (l >>> 16) % 65536

/-- The function `mouseHook` (lines 456-496); `info` is the structure
`lParam` points to. -/
def mouseHook (pt : DirectionMasks) (os : Win32 σ) (w : World σ) (code : Int)
    (wParam lParam : Nat) (info : MOUSEHOOKSTRUCT) : HookReturn × World σ :=
  if code ≥ 0 then
    -- decode message
    let x := info.x
    let y := info.y
    let wheel : Int :=
      if wParam = WM_MOUSEWHEEL then
        match w.g.g_wheelSupport with
        | EWheelSupport.kWheelModern => (LOWORD info.dwExtraInfo : Nat)
        | EWheelSupport.kWheelWin2000 => (HIWORD info.mouseData : Nat)
        | _ => 0
      else 0
    -- handle the message
    let r := mouseHookHandler pt os w wParam x y wheel
    if r.1 then (HookReturn.one, r.2)
    else (HookReturn.CallNextHookEx r.2.g.g_mouse code wParam lParam, r.2)
  else (HookReturn.CallNextHookEx w.g.g_mouse code wParam lParam, w)

def LLKHF_EXTENDED : Nat := 0x01
def LLKHF_ALTDOWN : Nat := 0x20
def LLKHF_UP : Nat := 0x80

/-- The fields of `KBDLLHOOKSTRUCT` that `keyboardLLHook` reads. -/
structure KBDLLHOOKSTRUCT where
  vkCode : Nat
  scanCode : Nat
  flags : Nat
  deriving DecidableEq, Repr

/-- The function `keyboardLLHook` (lines 537-569); `info` is the structure
`lParam` points to. -/
def keyboardLLHook (os : Win32 σ) (w : World σ) (code : Int) (wParam lParam : Nat)
    (info : KBDLLHOOKSTRUCT) : HookReturn × World σ :=
  if code ≥ 0 then
    -- decode the message
    let wParam1 := info.vkCode
    let lParam1 : Nat := 1
    let lParam2 := lParam1 ||| ((info.scanCode <<< 16) % 4294967296)
    let lParam3 := if info.flags &&& LLKHF_EXTENDED ≠ 0 then lParam2 ||| (1 <<< 24) else lParam2
    let lParam4 := if info.flags &&& LLKHF_ALTDOWN ≠ 0 then lParam3 ||| (1 <<< 29) else lParam3
    let lParam5 := if info.flags &&& LLKHF_UP ≠ 0 then lParam4 ||| (1 <<< 31) else lParam4
    -- handle the message
    let r := keyboardHookHandler os w wParam1 lParam5
    if r.1 then (HookReturn.one, r.2)
    else (HookReturn.CallNextHookEx r.2.g.g_keyboardLL code wParam lParam, r.2)
  else (HookReturn.CallNextHookEx w.g.g_keyboardLL code wParam lParam, w)

/-- The fields of `MSLLHOOKSTRUCT` that `mouseLLHook` reads. -/
structure MSLLHOOKSTRUCT where
  x : Int
  y : Int
  mouseData : Nat
  deriving DecidableEq, Repr

/-- The function `mouseLLHook` (lines 576-594); `info` is the structure
`lParam` points to. -/
def mouseLLHook (pt : DirectionMasks) (os : Win32 σ) (w : World σ) (code : Int)
    (wParam lParam : Nat) (info : MSLLHOOKSTRUCT) : HookReturn × World σ :=
  if code ≥ 0 then
    -- decode the message
    let x := info.x
    let y := info.y
    let wheel : Int := (HIWORD info.mouseData : Nat)
    -- handle the message
    let r := mouseHookHandler pt os w wParam x y wheel
    if r.1 then (HookReturn.one, r.2)
    else (HookReturn.CallNextHookEx r.2.g.g_mouseLL code wParam lParam, r.2)
  else (HookReturn.CallNextHookEx w.g.g_mouseLL code wParam lParam, w)

/-! ## A small concrete system

Used to run the functions on concrete inputs. -/

/-- A system whose answers are read off a few fields. -/
structure DemoSys where
  /-- The thread of the foreground window. -/
  foregroundThread : Nat
  /-- The virtual keys whose character mapping has the dead-key bit. -/
  deadKeys : List Nat
  /-- The return value of `ToAscii`. -/
  asciiN : Int
  /-- The characters `ToAscii` writes. -/
  asciiC : Nat
  /-- The hook types that `SetWindowsHookEx` installs; the handle of hook
  type `k` is `100 + k`. -/
  hooks : List Nat
  deriving DecidableEq, Repr

/-- The Win32 calls over `DemoSys`. -/
def demoWin32 : Win32 DemoSys where
  GetForegroundWindow := fun _ => 1
  GetWindowThreadProcessId := fun s _ => s.foregroundThread
  AttachThreadInput := fun s _ _ _ => s
  MapVirtualKey := fun s code _ => if code ∈ s.deadKeys then 0x80000000 ||| code else code
  GetKeyboardState := fun _ _ => 0
  GetAsyncKeyState := fun _ _ => 0
  GetKeyState := fun _ _ => 0
  ToAscii := fun s _ _ _ _ _ => ⟨s.asciiN, s.asciiC, s⟩
  SetWindowsHookEx := fun s idHook _ => (if idHook ∈ s.hooks then 100 + idHook else 0, s)
  UnhookWindowsHookEx := fun s _ => s
  GetCurrentProcessId := fun _ => 7
  GetCurrentThreadId := fun _ => 9
  OpenProcess := fun _ _ _ => 0
  CloseHandle := fun s _ => s
  GetModuleHandle := fun _ _ => 1
  GetVersionEx := fun _ => some ⟨VER_PLATFORM_WIN32_NT, 5, 1⟩
  GetSystemMetrics := fun _ _ => 1
  RegisterWindowMessage := fun _ _ => 0
  FindWindow := fun _ _ _ => 0
  SendMessage := fun _ _ _ _ _ => 0

/-- A system state with no dead key, on which every hook installs. -/
def demoSys : DemoSys :=
  { foregroundThread := 0, deadKeys := [], asciiN := 1, asciiC := 0x61,
    hooks := [WH_KEYBOARD, WH_GETMESSAGE, WH_MOUSE, WH_KEYBOARD_LL, WH_MOUSE_LL] }

/-- The direction masks as `1 << kLeft`, ..., `1 << kBottom` with
`kLeft = 1`, ..., `kBottom = 4`. -/
def demoMasks : DirectionMasks :=
  { kLeftMask := 2, kRightMask := 4, kTopMask := 8, kBottomMask := 16 }

/-- The world right after the library is loaded, over `demoSys`. -/
def demoWorld : World DemoSys := { g := {}, sys := demoSys }

/-- A system state with the dead keys `0xDE` and `0xDD`, in which `ToAscii`
returns `n`. -/
def demoDeadSys (n : Int) : DemoSys :=
  { foregroundThread := 0, deadKeys := [0xDE, 0xDD], asciiN := n, asciiC := 0x5EB4,
    hooks := [WH_KEYBOARD, WH_GETMESSAGE, WH_MOUSE, WH_KEYBOARD_LL, WH_MOUSE_LL] }

/-- A world in relay mode with message thread `42` over `demoDeadSys n`. -/
def demoDeadWorld (n : Int) : World DemoSys :=
  { g := { g_threadID := 42, g_mode := EHookMode.kHOOK_RELAY_EVENTS }, sys := demoDeadSys n }

/-- A world with message thread `42` over a system on which the low-level
mouse hook installs and the low-level keyboard hook does not. -/
def demoPartialWorld : World DemoSys :=
  { g := { g_hinstance := 1, g_threadID := 42 }
    sys := { foregroundThread := 0, deadKeys := [], asciiN := 1, asciiC := 0x61,
             hooks := [WH_KEYBOARD, WH_MOUSE, WH_MOUSE_LL] } }

/-- A system state that keeps a budget of low-level hooks, the identifier
of the calling process, the processes that are alive and the result of the
version query. -/
structure BudgetSys where
  /-- The thread of the foreground window. -/
  foregroundThread : Nat
  /-- How many low-level hooks the system still grants. -/
  lowLevelLeft : Nat
  /-- The process that makes the calls. -/
  currentProcess : Nat
  /-- The processes of which a handle can be opened. -/
  alive : List Nat
  /-- The result of the version query. -/
  version : Option OSVERSIONINFO
  deriving DecidableEq, Repr

/-- The Win32 calls over `BudgetSys`: `SetWindowsHookEx` grants a low-level
hook (types 13 and 14) only while the budget lasts, and `OpenProcess` opens
the processes listed as alive. -/
def budgetWin32 : Win32 BudgetSys where
  GetForegroundWindow := fun _ => 1
  GetWindowThreadProcessId := fun s _ => s.foregroundThread
  AttachThreadInput := fun s _ _ _ => s
  MapVirtualKey := fun _ code _ => code
  GetKeyboardState := fun _ _ => 0
  GetAsyncKeyState := fun _ _ => 0
  GetKeyState := fun _ _ => 0
  ToAscii := fun s _ _ _ _ _ => ⟨1, 0x61, s⟩
  SetWindowsHookEx := fun s idHook _ =>
    if idHook = WH_KEYBOARD_LL ∨ idHook = WH_MOUSE_LL then
      if s.lowLevelLeft = 0 then (0, s)
      else (100 + idHook, { s with lowLevelLeft := s.lowLevelLeft - 1 })
    else (100 + idHook, s)
  UnhookWindowsHookEx := fun s _ => s
  GetCurrentProcessId := fun s => s.currentProcess
  GetCurrentThreadId := fun _ => 9
  OpenProcess := fun s _ pid => if pid ∈ s.alive then 77 else 0
  CloseHandle := fun s _ => s
  GetModuleHandle := fun _ _ => 1
  GetVersionEx := fun s => s.version
  GetSystemMetrics := fun _ _ => 1
  RegisterWindowMessage := fun _ _ => 0
  FindWindow := fun _ _ _ => 0
  SendMessage := fun _ _ _ _ _ => 0

/-- A world in which process `7` owns the library with message thread `42`,
over a system that grants two low-level hooks; process `7` is the caller. -/
def budgetWorld : World BudgetSys :=
  { g := { g_hinstance := 1, g_processID := 7, g_threadID := 42 }
    sys := { foregroundThread := 5, lowLevelLeft := 2, currentProcess := 7, alive := [7],
             version := some ⟨VER_PLATFORM_WIN32_NT, 5, 1⟩ } }

/-! ## Derived notions used in the statements -/

/-- An integer that an `SInt32` holds. -/
def inS32 (i : Int) : Prop := -2147483648 ≤ i ∧ i < 2147483648

instance (i : Int) : Decidable (inS32 i) := by unfold inS32; infer_instance

/-- The test of the left edge (line 415-416). -/
def leftTest (pt : DirectionMasks) (g : Globals) (x : Int) : Prop :=
  g.g_zoneSides &&& pt.kLeftMask ≠ 0 ∧ x < wrapS32 (g.g_xScreen + g.g_zoneSize)

/-- The test of the right edge (line 418-419). -/
def rightTest (pt : DirectionMasks) (g : Globals) (x : Int) : Prop :=
  g.g_zoneSides &&& pt.kRightMask ≠ 0 ∧
    x ≥ wrapS32 (wrapS32 (g.g_xScreen + g.g_wScreen) - g.g_zoneSize)

/-- The test of the top edge (line 421-422). -/
def topTest (pt : DirectionMasks) (g : Globals) (y : Int) : Prop :=
  g.g_zoneSides &&& pt.kTopMask ≠ 0 ∧ y < wrapS32 (g.g_yScreen + g.g_zoneSize)

/-- The test of the bottom edge (line 424-425). -/
def bottomTest (pt : DirectionMasks) (g : Globals) (y : Int) : Prop :=
  g.g_zoneSides &&& pt.kBottomMask ≠ 0 ∧
    y ≥ wrapS32 (wrapS32 (g.g_yScreen + g.g_hScreen) - g.g_zoneSize)

instance (pt : DirectionMasks) (g : Globals) (x : Int) : Decidable (leftTest pt g x) := by
  unfold leftTest; infer_instance

instance (pt : DirectionMasks) (g : Globals) (x : Int) : Decidable (rightTest pt g x) := by
  unfold rightTest; infer_instance

instance (pt : DirectionMasks) (g : Globals) (y : Int) : Decidable (topTest pt g y) := by
  unfold topTest; infer_instance

instance (pt : DirectionMasks) (g : Globals) (y : Int) : Decidable (bottomTest pt g y) := by
  unfold bottomTest; infer_instance

/-- The dead key check of `keyboardHookHandler` (lines 189-190): the
character mapping of the key has the dead-key bit. -/
def keyIsDead (os : Win32 σ) (w : World σ) (wParam : Nat) : Prop :=
  os.MapVirtualKey (attachThreadToForeground os w).sys wParam 2 &&& 0x80000000 ≠ 0

instance (os : Win32 σ) (w : World σ) (wParam : Nat) : Decidable (keyIsDead os w wParam) := by
  unfold keyIsDead; infer_instance

/-- The world with `g_mode` replaced. -/
def withMode (w : World σ) (mode : EHookMode) : World σ :=
  { w with g := { w.g with g_mode := mode } }

/-- The key event is not one of those for which `keyboardHookHandler`
returns at its top (lines 190-205): it is not a dead key release and not a
dead key press that finds the dead key buffer empty. -/
def keyForwarded (os : Win32 σ) (w : World σ) (wParam lParam : Nat) : Prop :=
  ¬ (keyIsDead os w wParam ∧ (lParam &&& 0x80000000 ≠ 0 ∨ w.g.g_deadVirtKey = 0))

instance (os : Win32 σ) (w : World σ) (wParam lParam : Nat) :
    Decidable (keyForwarded os w wParam lParam) := by
  unfold keyForwarded; infer_instance

/-- Lines 742-793 of `install`: the world when the hooks have been
attempted, at the check of line 796. -/
def installAttempts (WIN32_WINNT : Nat) (os : Win32 σ) (w : World σ) : World σ :=
  let w1 : World σ := { w with g := { w.g with g_deadVirtKey := 0, g_deadLParam := 0 } }
  let ws := getWheelSupport os w1
  let w2 : World σ := { ws.2 with g := { ws.2.g with g_wheelSupport := ws.1 } }
  installRegular os (installLowLevel WIN32_WINNT os (installGetMessage os w2))

/-- The calls of the control surface that set and release hooks. -/
inductive ControlCall where
  | callInstall
  | callUninstall
  | callInstallScreenSaver
  | callUninstallScreenSaver
  deriving DecidableEq, Repr

/-- The world after one control call. -/
def runCall (WIN32_WINNT : Nat) (os : Win32 σ) (w : World σ) : ControlCall → World σ
  | ControlCall.callInstall => (install WIN32_WINNT os w).2
  | ControlCall.callUninstall => (uninstall os w).2
  | ControlCall.callInstallScreenSaver => (installScreenSaver os w).2
  | ControlCall.callUninstallScreenSaver => (uninstallScreenSaver os w).2

/-- The entry condition of a control call on the GetMessage hook: `install`
asserts `g_getMessage == NULL || g_screenSaver` (line 735); the other calls
assert nothing on it. -/
def callEntry (w : World σ) : ControlCall → Prop
  | ControlCall.callInstall => w.g.g_getMessage = 0 ∨ w.g.g_screenSaver = true
  | _ => True

/-- The world after a sequence of control calls, first call first. -/
def runCalls (WIN32_WINNT : Nat) (os : Win32 σ) : List ControlCall → World σ → World σ
  | [], w => w
  | c :: cs, w => runCalls WIN32_WINNT os cs (runCall WIN32_WINNT os w c)

/-- Every call of the sequence is entered with its entry condition. -/
def entriesHold (WIN32_WINNT : Nat) (os : Win32 σ) : List ControlCall → World σ → Prop
  | [], _ => True
  | c :: cs, w => callEntry w c ∧ entriesHold WIN32_WINNT os cs (runCall WIN32_WINNT os w c)

/-- A set GetMessage hook has a consumer: the screen saver flag is on or
the wheel support is the old one. -/
def observerHasConsumer (w : World σ) : Prop :=
  w.g.g_getMessage ≠ 0 →
    w.g.g_screenSaver = true ∨ w.g.g_wheelSupport = EWheelSupport.kWheelOld

/-! ## The requests of `install` to the system

The notions of this section are written with the calls of `Win32` alone,
not with the functions `installGetMessage`, `installLowLevel`,
`installRegular` and `uninstall` above.  For `install` entered in a world
`w` they name each hook request of lines 749-793, what the system answers to
it, and the calls that release hooks.  Every request carries the module
handle `g_hinstance` and is made on the system state left by the call
before it. -/

/-- The condition of line 750 at the entry of `install`: the probe of the
wheel support finds the old support and no GetMessage hook is set. -/
def getMessageRequested (os : Win32 σ) (w : World σ) : Prop :=
  (getWheelSupport os w).1 = EWheelSupport.kWheelOld ∧ w.g.g_getMessage = 0

instance (os : Win32 σ) (w : World σ) : Decidable (getMessageRequested os w) := by
  unfold getMessageRequested; infer_instance

/-- The handle in `g_getMessage` after lines 749-755 and the system state
then: the answer of the system to `SetWindowsHookEx(WH_GETMESSAGE, ...)`
when the hook is requested, the handle and the state of the entry
otherwise. -/
def grantGetMessage (os : Win32 σ) (w : World σ) : Nat × σ :=
  if getMessageRequested os w then os.SetWindowsHookEx w.sys WH_GETMESSAGE w.g.g_hinstance
  else (w.g.g_getMessage, w.sys)

/-- The call of lines 749-755. -/
def getMessageCalls (os : Win32 σ) (w : World σ) : List SysCall :=
  if getMessageRequested os w then
    [SysCall.SetWindowsHookEx WH_GETMESSAGE w.g.g_hinstance (grantGetMessage os w).1]
  else []

/-- The answer of the system to `SetWindowsHookEx(WH_MOUSE_LL, ...)` of
line 759: the handle and the next system state. -/
def grantMouseLL (os : Win32 σ) (w : World σ) : Nat × σ :=
  os.SetWindowsHookEx (grantGetMessage os w).2 WH_MOUSE_LL w.g.g_hinstance

/-- The answer of the system to `SetWindowsHookEx(WH_KEYBOARD_LL, ...)` of
line 763, made after the request of the low-level mouse hook. -/
def grantKeyboardLL (os : Win32 σ) (w : World σ) : Nat × σ :=
  os.SetWindowsHookEx (grantMouseLL os w).2 WH_KEYBOARD_LL w.g.g_hinstance

/-- The calls of lines 757-779: the two requests and, unless both were
granted, the release of the one that was (the keyboard hook first). -/
def lowLevelCalls (WIN32_WINNT : Nat) (os : Win32 σ) (w : World σ) : List SysCall :=
  if 0x0400 ≤ WIN32_WINNT then
    [SysCall.SetWindowsHookEx WH_MOUSE_LL w.g.g_hinstance (grantMouseLL os w).1,
     SysCall.SetWindowsHookEx WH_KEYBOARD_LL w.g.g_hinstance (grantKeyboardLL os w).1] ++
    (if (grantMouseLL os w).1 ≠ 0 ∧ (grantKeyboardLL os w).1 ≠ 0 then []
     else
      (if (grantKeyboardLL os w).1 ≠ 0 then
        [SysCall.UnhookWindowsHookEx (grantKeyboardLL os w).1] else []) ++
      (if (grantMouseLL os w).1 ≠ 0 then
        [SysCall.UnhookWindowsHookEx (grantMouseLL os w).1] else []))
  else []

/-- The handle in `g_mouseLL` after lines 757-779: the granted handle when
both low-level hooks were granted, `NULL` when not; the handle of the entry
in a build without the low-level hooks. -/
def lowLevelMouse (WIN32_WINNT : Nat) (os : Win32 σ) (w : World σ) : Nat :=
  if 0x0400 ≤ WIN32_WINNT then
    if (grantMouseLL os w).1 ≠ 0 ∧ (grantKeyboardLL os w).1 ≠ 0 then (grantMouseLL os w).1
    else 0
  else w.g.g_mouseLL

/-- The handle in `g_keyboardLL` after lines 757-779. -/
def lowLevelKeyboard (WIN32_WINNT : Nat) (os : Win32 σ) (w : World σ) : Nat :=
  if 0x0400 ≤ WIN32_WINNT then
    if (grantMouseLL os w).1 ≠ 0 ∧ (grantKeyboardLL os w).1 ≠ 0 then (grantKeyboardLL os w).1
    else 0
  else w.g.g_keyboardLL

/-- The system state after lines 757-779. -/
def lowLevelSys (WIN32_WINNT : Nat) (os : Win32 σ) (w : World σ) : σ :=
  if 0x0400 ≤ WIN32_WINNT then
    if (grantMouseLL os w).1 ≠ 0 ∧ (grantKeyboardLL os w).1 ≠ 0 then (grantKeyboardLL os w).2
    else
      let s :=
        if (grantKeyboardLL os w).1 ≠ 0 then
          os.UnhookWindowsHookEx (grantKeyboardLL os w).2 (grantKeyboardLL os w).1
        else (grantKeyboardLL os w).2
      if (grantMouseLL os w).1 ≠ 0 then os.UnhookWindowsHookEx s (grantMouseLL os w).1
      else s
  else (grantGetMessage os w).2

/-- The handle in `g_mouse` after lines 781-786 and the system state then:
the answer of the system to `SetWindowsHookEx(WH_MOUSE, ...)` when no
low-level mouse hook is set, the handle of the entry otherwise. -/
def grantMouse (WIN32_WINNT : Nat) (os : Win32 σ) (w : World σ) : Nat × σ :=
  if lowLevelMouse WIN32_WINNT os w = 0 then
    os.SetWindowsHookEx (lowLevelSys WIN32_WINNT os w) WH_MOUSE w.g.g_hinstance
  else (w.g.g_mouse, lowLevelSys WIN32_WINNT os w)

/-- The handle in `g_keyboard` after lines 787-793 and the system state
then: the answer of the system to `SetWindowsHookEx(WH_KEYBOARD, ...)` when
no low-level keyboard hook is set, the handle of the entry otherwise. -/
def grantKeyboard (WIN32_WINNT : Nat) (os : Win32 σ) (w : World σ) : Nat × σ :=
  if lowLevelKeyboard WIN32_WINNT os w = 0 then
    os.SetWindowsHookEx (grantMouse WIN32_WINNT os w).2 WH_KEYBOARD w.g.g_hinstance
  else (w.g.g_keyboard, (grantMouse WIN32_WINNT os w).2)

/-- The calls of lines 781-793: the request of the regular mouse hook, then
of the regular keyboard hook, each made only when the low-level hook of the
device is not set. -/
def regularCalls (WIN32_WINNT : Nat) (os : Win32 σ) (w : World σ) : List SysCall :=
  (if lowLevelMouse WIN32_WINNT os w = 0 then
    [SysCall.SetWindowsHookEx WH_MOUSE w.g.g_hinstance (grantMouse WIN32_WINNT os w).1]
   else []) ++
  (if lowLevelKeyboard WIN32_WINNT os w = 0 then
    [SysCall.SetWindowsHookEx WH_KEYBOARD w.g.g_hinstance (grantKeyboard WIN32_WINNT os w).1]
   else [])

/-- The check of lines 796-798 on the answers of the system: the GetMessage
hook is missing although the wheel support is the old one, or no keyboard
hook was obtained, or no mouse hook was obtained. -/
def installFails (WIN32_WINNT : Nat) (os : Win32 σ) (w : World σ) : Prop :=
  ((grantGetMessage os w).1 = 0 ∧ (getWheelSupport os w).1 = EWheelSupport.kWheelOld) ∨
  (lowLevelKeyboard WIN32_WINNT os w = 0 ∧ (grantKeyboard WIN32_WINNT os w).1 = 0) ∨
  (lowLevelMouse WIN32_WINNT os w = 0 ∧ (grantMouse WIN32_WINNT os w).1 = 0)

instance (WIN32_WINNT : Nat) (os : Win32 σ) (w : World σ) :
    Decidable (installFails WIN32_WINNT os w) := by
  unfold installFails; infer_instance

/-- The calls of `uninstall` (lines 813-849) when the check of `install`
fails: the thread of the entry is detached and every handle held at the
check is released, in the order low-level keyboard, low-level mouse,
keyboard, mouse, and the GetMessage hook unless the screen saver flag is
on. -/
def rollbackCalls (WIN32_WINNT : Nat) (os : Win32 σ) (w : World σ) : List SysCall :=
  (if w.g.g_attachedThread ≠ 0 then
    [SysCall.AttachThreadInput w.g.g_hookThread w.g.g_attachedThread false] else []) ++
  (if lowLevelKeyboard WIN32_WINNT os w ≠ 0 then
    [SysCall.UnhookWindowsHookEx (lowLevelKeyboard WIN32_WINNT os w)] else []) ++
  (if lowLevelMouse WIN32_WINNT os w ≠ 0 then
    [SysCall.UnhookWindowsHookEx (lowLevelMouse WIN32_WINNT os w)] else []) ++
  (if (grantKeyboard WIN32_WINNT os w).1 ≠ 0 then
    [SysCall.UnhookWindowsHookEx (grantKeyboard WIN32_WINNT os w).1] else []) ++
  (if (grantMouse WIN32_WINNT os w).1 ≠ 0 then
    [SysCall.UnhookWindowsHookEx (grantMouse WIN32_WINNT os w).1] else []) ++
  (if (grantGetMessage os w).1 ≠ 0 ∧ ¬ (w.g.g_screenSaver = true) then
    [SysCall.UnhookWindowsHookEx (grantGetMessage os w).1] else [])

/-- All system calls of `install` entered with a message thread recorded,
in order: the hook requests of lines 749-793 with the release of a lone
low-level hook, and the calls of `uninstall` when the check fails. -/
def installCalls (WIN32_WINNT : Nat) (os : Win32 σ) (w : World σ) : List SysCall :=
  getMessageCalls os w ++ lowLevelCalls WIN32_WINNT os w ++ regularCalls WIN32_WINNT os w ++
    (if installFails WIN32_WINNT os w then rollbackCalls WIN32_WINNT os w else [])

/-- How many hooks with the handle `h` a list of system calls adds to the
hooks installed in the system: each `SetWindowsHookEx` that returned `h`
installs one, each `UnhookWindowsHookEx(h)` removes one. -/
def hookBalance (h : Nat) : List SysCall → Int
  | [] => 0
  | SysCall.SetWindowsHookEx _ _ result :: cs =>
      (if result = h then 1 else 0) + hookBalance h cs
  | SysCall.UnhookWindowsHookEx hhk :: cs => (if hhk = h then -1 else 0) + hookBalance h cs
  | _ :: cs => hookBalance h cs

/-! # Theorems -/

/-! ## Machine integers: facts -/

theorem wrapS32_of_inS32 {i : Int} (h : inS32 i) : wrapS32 i = i := by
  unfold inS32 at h
  unfold wrapS32
  omega

/-! ## The mouse -/

theorem attachThreadToForeground_posted (os : Win32 σ) (w : World σ) :
    (attachThreadToForeground os w).posted = w.posted := by
  unfold attachThreadToForeground AttachThreadInput
  dsimp only
  split_ifs <;> rfl

theorem attachThreadToForeground_frame (os : Win32 σ) (w : World σ) :
    (attachThreadToForeground os w).g =
      { w.g with g_attachedThread := (attachThreadToForeground os w).g.g_attachedThread } := by
  unfold attachThreadToForeground AttachThreadInput
  dsimp only
  split_ifs <;> rfl

theorem jumpZoneInside_iff (pt : DirectionMasks) (g : Globals) (x y : Int) :
    jumpZoneInside pt g x y = true ↔
      ((g.g_zoneSides &&& pt.kLeftMask ≠ 0 ∧ x < wrapS32 (g.g_xScreen + g.g_zoneSize)) ∨
       (g.g_zoneSides &&& pt.kRightMask ≠ 0 ∧
          x ≥ wrapS32 (wrapS32 (g.g_xScreen + g.g_wScreen) - g.g_zoneSize)) ∨
       (g.g_zoneSides &&& pt.kTopMask ≠ 0 ∧ y < wrapS32 (g.g_yScreen + g.g_zoneSize)) ∨
       (g.g_zoneSides &&& pt.kBottomMask ≠ 0 ∧
          y ≥ wrapS32 (wrapS32 (g.g_yScreen + g.g_hScreen) - g.g_zoneSize))) := by
  unfold jumpZoneInside
  by_cases hl : g.g_zoneSides &&& pt.kLeftMask ≠ 0 <;>
  by_cases hr : g.g_zoneSides &&& pt.kRightMask ≠ 0 <;>
  by_cases ht : g.g_zoneSides &&& pt.kTopMask ≠ 0 <;>
  by_cases hb : g.g_zoneSides &&& pt.kBottomMask ≠ 0 <;>
  by_cases h1 : x < wrapS32 (g.g_xScreen + g.g_zoneSize) <;>
  by_cases h2 : x ≥ wrapS32 (wrapS32 (g.g_xScreen + g.g_wScreen) - g.g_zoneSize) <;>
  by_cases h3 : y < wrapS32 (g.g_yScreen + g.g_zoneSize) <;>
  by_cases h4 : y ≥ wrapS32 (wrapS32 (g.g_yScreen + g.g_hScreen) - g.g_zoneSize) <;>
  simp [hl, hr, ht, hb, h1, h2, h3, h4]

/-- C1. In `kHOOK_WATCH_JUMP_ZONE` mode, with the sides set by `setSides`
and the geometry set by `setZone`, `mouseHookHandler` eats a move event at
`(x, y)` exactly when one of the four edge tests of an edge in the mask
holds.  The first part states it with the 32-bit sums the code computes, the
second part with the plain sums, which are the same whenever the sums fit an
`SInt32`.  The last three parts are the 1920x1080 scenario. -/
theorem mouseHookHandler_jump_zone_consume (pt : DirectionMasks) (os : Win32 σ)
    (w : World σ) (sides : Nat) (ox oy wd ht t : Int) (wParam : Nat) (x y data : Int)
    (hmove : wParam = WM_NCMOUSEMOVE ∨ wParam = WM_MOUSEMOVE)
    (hmode : w.g.g_mode = EHookMode.kHOOK_WATCH_JUMP_ZONE) :
    ((mouseHookHandler pt os (setZone (setSides w sides) ox oy wd ht t) wParam x y data).1
        = true ↔
      ((sides &&& pt.kLeftMask ≠ 0 ∧ x < wrapS32 (ox + t)) ∨
       (sides &&& pt.kRightMask ≠ 0 ∧ x ≥ wrapS32 (wrapS32 (ox + wd) - t)) ∨
       (sides &&& pt.kTopMask ≠ 0 ∧ y < wrapS32 (oy + t)) ∨
       (sides &&& pt.kBottomMask ≠ 0 ∧ y ≥ wrapS32 (wrapS32 (oy + ht) - t)))) ∧
    (inS32 (ox + t) ∧ inS32 (ox + wd) ∧ inS32 (ox + wd - t) ∧
      inS32 (oy + t) ∧ inS32 (oy + ht) ∧ inS32 (oy + ht - t) →
      ((mouseHookHandler pt os (setZone (setSides w sides) ox oy wd ht t) wParam x y data).1
          = true ↔
        ((sides &&& pt.kLeftMask ≠ 0 ∧ x < ox + t) ∨
         (sides &&& pt.kRightMask ≠ 0 ∧ x ≥ ox + wd - t) ∨
         (sides &&& pt.kTopMask ≠ 0 ∧ y < oy + t) ∨
         (sides &&& pt.kBottomMask ≠ 0 ∧ y ≥ oy + ht - t)))) ∧
    (mouseHookHandler demoMasks demoWin32
        (setZone (setSides (setMode demoWorld EHookMode.kHOOK_WATCH_JUMP_ZONE) 6)
          0 0 1920 1080 2) WM_MOUSEMOVE 1 500 0).1 = true ∧
    (mouseHookHandler demoMasks demoWin32
        (setZone (setSides (setMode demoWorld EHookMode.kHOOK_WATCH_JUMP_ZONE) 6)
          0 0 1920 1080 2) WM_MOUSEMOVE 3 500 0).1 = false ∧
    (mouseHookHandler demoMasks demoWin32
        (setZone (setSides (setMode demoWorld EHookMode.kHOOK_WATCH_JUMP_ZONE) 6)
          0 0 1920 1080 2) WM_MOUSEMOVE 1919 500 0).1 = true := by
  have hnb : wParam ∉ buttonEvents := by
    rcases hmove with h | h <;> subst h <;> decide
  have hnw : wParam ≠ WM_MOUSEWHEEL := by
    rcases hmove with h | h <;> subst h <;> decide
  have key : (mouseHookHandler pt os (setZone (setSides w sides) ox oy wd ht t)
      wParam x y data).1 =
      jumpZoneInside pt (setZone (setSides w sides) ox oy wd ht t).g x y := by
    have hg := attachThreadToForeground_frame os (setZone (setSides w sides) ox oy wd ht t)
    have hm : (attachThreadToForeground os
        (setZone (setSides w sides) ox oy wd ht t)).g.g_mode =
          EHookMode.kHOOK_WATCH_JUMP_ZONE := by
      rw [hg]; exact hmode
    unfold mouseHookHandler
    simp only [hnb, hnw, hmove, hm, if_true, if_false]
    rw [hg]
    simp [jumpZoneInside, setZone, setSides]
  refine ⟨?_, ?_, by decide, by decide, by decide⟩
  · rw [key, jumpZoneInside_iff]
    simp [setZone, setSides]
  · rintro ⟨h1, h2, h3, h4, h5, h6⟩
    rw [key, jumpZoneInside_iff]
    simp only [setZone, setSides]
    rw [wrapS32_of_inS32 h1, wrapS32_of_inS32 h2, wrapS32_of_inS32 h3, wrapS32_of_inS32 h4,
      wrapS32_of_inS32 h5, wrapS32_of_inS32 h6]

/-- Witness of C1: the theorem at the 1920x1080 scenario, point `(1919, 500)`. -/
theorem mouseHookHandler_jump_zone_consume_witness :
    (WM_MOUSEMOVE = WM_NCMOUSEMOVE ∨ WM_MOUSEMOVE = WM_MOUSEMOVE) ∧
    (setMode demoWorld EHookMode.kHOOK_WATCH_JUMP_ZONE).g.g_mode =
      EHookMode.kHOOK_WATCH_JUMP_ZONE ∧
    (mouseHookHandler demoMasks demoWin32
        (setZone (setSides (setMode demoWorld EHookMode.kHOOK_WATCH_JUMP_ZONE) 6)
          0 0 1920 1080 2) WM_MOUSEMOVE 1919 500 0).1 = true :=
  ⟨Or.inr rfl, rfl,
    ((mouseHookHandler_jump_zone_consume demoMasks demoWin32
        (setMode demoWorld EHookMode.kHOOK_WATCH_JUMP_ZONE) 6 0 0 1920 1080 2
        WM_MOUSEMOVE 1919 500 0 (Or.inr rfl) rfl).2.1 (by decide)).mpr
      (Or.inr (Or.inl ⟨by decide, by decide⟩))⟩

theorem attachThreadToForeground_g_mode (os : Win32 σ) (w : World σ) :
    (attachThreadToForeground os w).g.g_mode = w.g.g_mode := by
  rw [attachThreadToForeground_frame]

theorem attachThreadToForeground_g_threadID (os : Win32 σ) (w : World σ) :
    (attachThreadToForeground os w).g.g_threadID = w.g.g_threadID := by
  rw [attachThreadToForeground_frame]

theorem jumpZoneInside_attach (pt : DirectionMasks) (os : Win32 σ) (w : World σ) (x y : Int) :
    jumpZoneInside pt (attachThreadToForeground os w).g x y = jumpZoneInside pt w.g x y := by
  rw [attachThreadToForeground_frame]
  rfl

theorem move_not_button {wParam : Nat} (hmove : wParam = WM_NCMOUSEMOVE ∨ wParam = WM_MOUSEMOVE) :
    wParam ∉ buttonEvents ∧ wParam ≠ WM_MOUSEWHEEL := by
  rcases hmove with h | h <;> subst h <;> decide

theorem jumpZoneInside_iff_tests (pt : DirectionMasks) (g : Globals) (x y : Int) :
    jumpZoneInside pt g x y = true ↔
      (leftTest pt g x ∨ rightTest pt g x ∨ topTest pt g y ∨ bottomTest pt g y) :=
  jumpZoneInside_iff pt g x y

/-- In watch mode the flag returned for a move event is the jump zone test. -/
theorem mouseHookHandler_watch_fst (pt : DirectionMasks) (os : Win32 σ) (w : World σ)
    (wParam : Nat) (x y data : Int)
    (hmove : wParam = WM_NCMOUSEMOVE ∨ wParam = WM_MOUSEMOVE)
    (hmode : w.g.g_mode = EHookMode.kHOOK_WATCH_JUMP_ZONE) :
    (mouseHookHandler pt os w wParam x y data).1 = jumpZoneInside pt w.g x y := by
  have hm := attachThreadToForeground_g_mode os w
  rw [hmode] at hm
  unfold mouseHookHandler
  simp only [(move_not_button hmove).1, (move_not_button hmove).2, hmove, hm, if_true, if_false]
  simp [jumpZoneInside_attach]

/-- C2, as stated, fails: with the left and right edges active on a
1920x1080 screen with a zone of 2, the point `(1919, 500)` is inside (right
band), the left edge is active, and the point moved to the smaller
`x = 1000` is outside. -/
theorem jump_zone_outward_move_leaves_zone :
    (mouseHookHandler demoMasks demoWin32
        (setZone (setSides (setMode demoWorld EHookMode.kHOOK_WATCH_JUMP_ZONE) 6)
          0 0 1920 1080 2) WM_MOUSEMOVE 1919 500 0).1 = true ∧
    (6 &&& demoMasks.kLeftMask ≠ 0) ∧
    ((1000 : Int) < 1919) ∧
    (mouseHookHandler demoMasks demoWin32
        (setZone (setSides (setMode demoWorld EHookMode.kHOOK_WATCH_JUMP_ZONE) 6)
          0 0 1920 1080 2) WM_MOUSEMOVE 1000 500 0).1 = false := by
  decide

/-- C2, amended. In watch mode, a point that passes the test of an active
edge other than the edge opposite to the motion stays inside when it is
moved further outward along the axis of an active edge: to a smaller `x` for
the left edge, a larger `x` for the right edge, a smaller `y` for the top
edge, a larger `y` for the bottom edge. -/
theorem jump_zone_monotone_outward (pt : DirectionMasks) (os : Win32 σ) (w : World σ)
    (wParam : Nat) (x y x' y' data : Int)
    (hmove : wParam = WM_NCMOUSEMOVE ∨ wParam = WM_MOUSEMOVE)
    (hmode : w.g.g_mode = EHookMode.kHOOK_WATCH_JUMP_ZONE) :
    (w.g.g_zoneSides &&& pt.kLeftMask ≠ 0 → x' ≤ x →
      (leftTest pt w.g x ∨ topTest pt w.g y ∨ bottomTest pt w.g y) →
      (mouseHookHandler pt os w wParam x' y data).1 = true) ∧
    (w.g.g_zoneSides &&& pt.kRightMask ≠ 0 → x ≤ x' →
      (rightTest pt w.g x ∨ topTest pt w.g y ∨ bottomTest pt w.g y) →
      (mouseHookHandler pt os w wParam x' y data).1 = true) ∧
    (w.g.g_zoneSides &&& pt.kTopMask ≠ 0 → y' ≤ y →
      (topTest pt w.g y ∨ leftTest pt w.g x ∨ rightTest pt w.g x) →
      (mouseHookHandler pt os w wParam x y' data).1 = true) ∧
    (w.g.g_zoneSides &&& pt.kBottomMask ≠ 0 → y ≤ y' →
      (bottomTest pt w.g y ∨ leftTest pt w.g x ∨ rightTest pt w.g x) →
      (mouseHookHandler pt os w wParam x y' data).1 = true) := by
  simp only [mouseHookHandler_watch_fst pt os w wParam _ _ data hmove hmode,
    jumpZoneInside_iff_tests]
  unfold leftTest rightTest topTest bottomTest
  refine ⟨?_, ?_, ?_, ?_⟩
  · rintro _ hx (⟨ha, h⟩ | h | h)
    · exact Or.inl ⟨ha, by omega⟩
    · exact Or.inr (Or.inr (Or.inl h))
    · exact Or.inr (Or.inr (Or.inr h))
  · rintro _ hx (⟨ha, h⟩ | h | h)
    · exact Or.inr (Or.inl ⟨ha, by omega⟩)
    · exact Or.inr (Or.inr (Or.inl h))
    · exact Or.inr (Or.inr (Or.inr h))
  · rintro _ hy (⟨ha, h⟩ | h | h)
    · exact Or.inr (Or.inr (Or.inl ⟨ha, by omega⟩))
    · exact Or.inl h
    · exact Or.inr (Or.inl h)
  · rintro _ hy (⟨ha, h⟩ | h | h)
    · exact Or.inr (Or.inr (Or.inr ⟨ha, by omega⟩))
    · exact Or.inl h
    · exact Or.inr (Or.inl h)

/-- Witness of amended C2: the scenario of C1, the point `(1, 500)` in the
left band moved to `(0, 500)`. -/
theorem jump_zone_monotone_outward_witness :
    (WM_MOUSEMOVE = WM_NCMOUSEMOVE ∨ WM_MOUSEMOVE = WM_MOUSEMOVE) ∧
    (setZone (setSides (setMode demoWorld EHookMode.kHOOK_WATCH_JUMP_ZONE) 6)
      0 0 1920 1080 2).g.g_mode = EHookMode.kHOOK_WATCH_JUMP_ZONE ∧
    (mouseHookHandler demoMasks demoWin32
        (setZone (setSides (setMode demoWorld EHookMode.kHOOK_WATCH_JUMP_ZONE) 6)
          0 0 1920 1080 2) WM_MOUSEMOVE 0 500 0).1 = true :=
  ⟨Or.inr rfl, rfl,
    (jump_zone_monotone_outward demoMasks demoWin32
      (setZone (setSides (setMode demoWorld EHookMode.kHOOK_WATCH_JUMP_ZONE) 6)
        0 0 1920 1080 2) WM_MOUSEMOVE 1 500 0 500 0 (Or.inr rfl) rfl).1
      (by decide) (by decide) (Or.inl (by decide))⟩

theorem wrapS32_toU32 {i : Int} (h : inS32 i) : wrapS32 (toU32 i) = i := by
  unfold inS32 at h
  unfold wrapS32 toU32
  omega

/-- C3. A mouse move event (client or non-client) at `(x, y)`: in relay mode
exactly one move message with `(x, y)` is posted to `g_threadID` and the
event is eaten; in watch mode exactly one move message with `(x, y)` is
posted, whatever the jump zone test says, and the event is eaten exactly
when one of the four edge tests holds; in disabled mode nothing is posted
and the event is passed.  The posted 32-bit patterns read back as `x` and
`y`. -/
theorem mouseHookHandler_move (pt : DirectionMasks) (os : Win32 σ) (w : World σ)
    (wParam : Nat) (x y data : Int)
    (hmove : wParam = WM_NCMOUSEMOVE ∨ wParam = WM_MOUSEMOVE) :
    (w.g.g_mode = EHookMode.kHOOK_RELAY_EVENTS →
      (mouseHookHandler pt os w wParam x y data).1 = true ∧
      (mouseHookHandler pt os w wParam x y data).2.posted =
        w.posted ++ [⟨w.g.g_threadID, SynergyMsg.SYNERGY_MSG_MOUSE_MOVE, toU32 x, toU32 y⟩]) ∧
    (w.g.g_mode = EHookMode.kHOOK_WATCH_JUMP_ZONE →
      (mouseHookHandler pt os w wParam x y data).2.posted =
        w.posted ++ [⟨w.g.g_threadID, SynergyMsg.SYNERGY_MSG_MOUSE_MOVE, toU32 x, toU32 y⟩] ∧
      ((mouseHookHandler pt os w wParam x y data).1 = true ↔
        (leftTest pt w.g x ∨ rightTest pt w.g x ∨ topTest pt w.g y ∨ bottomTest pt w.g y))) ∧
    (w.g.g_mode = EHookMode.kHOOK_DISABLE →
      (mouseHookHandler pt os w wParam x y data).1 = false ∧
      (mouseHookHandler pt os w wParam x y data).2.posted = w.posted) ∧
    (inS32 x → wrapS32 (toU32 x) = x) ∧ (inS32 y → wrapS32 (toU32 y) = y) := by
  have hm := attachThreadToForeground_g_mode os w
  have ht := attachThreadToForeground_g_threadID os w
  have hp := attachThreadToForeground_posted os w
  refine ⟨?_, ?_, ?_, wrapS32_toU32, wrapS32_toU32⟩
  · intro hmode
    rw [hmode] at hm
    unfold mouseHookHandler
    simp only [(move_not_button hmove).1, (move_not_button hmove).2, hmove, hm, if_true,
      if_false]
    simp [PostThreadMessage, ht, hp]
  · intro hmode
    refine ⟨?_, ?_⟩
    · rw [hmode] at hm
      unfold mouseHookHandler
      simp only [(move_not_button hmove).1, (move_not_button hmove).2, hmove, hm, if_true,
        if_false]
      simp [PostThreadMessage, ht, hp]
    · rw [mouseHookHandler_watch_fst pt os w wParam x y data hmove hmode,
        jumpZoneInside_iff_tests]
  · intro hmode
    rw [hmode] at hm
    unfold mouseHookHandler
    simp only [(move_not_button hmove).1, (move_not_button hmove).2, hmove, hm, if_true,
      if_false]
    simp [hp]

/-- Witness of C3: a client move at `(3, 500)` in relay mode. -/
theorem mouseHookHandler_move_witness :
    (WM_MOUSEMOVE = WM_NCMOUSEMOVE ∨ WM_MOUSEMOVE = WM_MOUSEMOVE) ∧
    (setMode demoWorld EHookMode.kHOOK_RELAY_EVENTS).g.g_mode =
      EHookMode.kHOOK_RELAY_EVENTS ∧
    (mouseHookHandler demoMasks demoWin32 (setMode demoWorld EHookMode.kHOOK_RELAY_EVENTS)
      WM_MOUSEMOVE 3 500 0).1 = true :=
  ⟨Or.inr rfl, rfl,
    ((mouseHookHandler_move demoMasks demoWin32
      (setMode demoWorld EHookMode.kHOOK_RELAY_EVENTS) WM_MOUSEMOVE 3 500 0 (Or.inr rfl)).1
      rfl).1⟩

theorem mem_buttonEvents (n : Nat) :
    n ∈ buttonEvents ↔
      ((0x0201 ≤ n ∧ n ≤ 0x0209) ∨ (0x020B ≤ n ∧ n ≤ 0x020D) ∨
       (0x00A1 ≤ n ∧ n ≤ 0x00A9) ∨ (0x00AB ≤ n ∧ n ≤ 0x00AD)) := by
  simp only [buttonEvents, WM_LBUTTONDOWN, WM_MBUTTONDOWN, WM_RBUTTONDOWN, WM_XBUTTONDOWN,
    WM_LBUTTONDBLCLK, WM_MBUTTONDBLCLK, WM_RBUTTONDBLCLK, WM_XBUTTONDBLCLK,
    WM_LBUTTONUP, WM_MBUTTONUP, WM_RBUTTONUP, WM_XBUTTONUP,
    WM_NCLBUTTONDOWN, WM_NCMBUTTONDOWN, WM_NCRBUTTONDOWN, WM_NCXBUTTONDOWN,
    WM_NCLBUTTONDBLCLK, WM_NCMBUTTONDBLCLK, WM_NCRBUTTONDBLCLK, WM_NCXBUTTONDBLCLK,
    WM_NCLBUTTONUP, WM_NCMBUTTONUP, WM_NCRBUTTONUP, WM_NCXBUTTONUP,
    List.mem_cons, List.mem_singleton, List.not_mem_nil, or_false]
  omega

/-- C4. A button event (down, up or double click of the left, middle, right
or X button, client or non-client: the 24 codes `0x201-0x209`,
`0x20B-0x20D`, `0xA1-0xA9`, `0xAB-0xAD`) posts exactly one button message
with the event code and the extra data in every mode and is eaten exactly
in relay mode.  A wheel event posts exactly one wheel message with the
delta in relay mode and nothing in the other modes, and is eaten exactly in
relay mode. -/
theorem mouseHookHandler_button_wheel (pt : DirectionMasks) (os : Win32 σ) (w : World σ)
    (wParam : Nat) (x y data : Int) :
    (((0x0201 ≤ wParam ∧ wParam ≤ 0x0209) ∨ (0x020B ≤ wParam ∧ wParam ≤ 0x020D) ∨
      (0x00A1 ≤ wParam ∧ wParam ≤ 0x00A9) ∨ (0x00AB ≤ wParam ∧ wParam ≤ 0x00AD)) →
      (mouseHookHandler pt os w wParam x y data).2.posted =
        w.posted ++
          [⟨w.g.g_threadID, SynergyMsg.SYNERGY_MSG_MOUSE_BUTTON, wParam, toU32 data⟩] ∧
      ((mouseHookHandler pt os w wParam x y data).1 = true ↔
        w.g.g_mode = EHookMode.kHOOK_RELAY_EVENTS)) ∧
    (wParam = WM_MOUSEWHEEL →
      (w.g.g_mode = EHookMode.kHOOK_RELAY_EVENTS →
        (mouseHookHandler pt os w wParam x y data).2.posted =
          w.posted ++
            [⟨w.g.g_threadID, SynergyMsg.SYNERGY_MSG_MOUSE_WHEEL, toU32 data, 0⟩]) ∧
      (w.g.g_mode ≠ EHookMode.kHOOK_RELAY_EVENTS →
        (mouseHookHandler pt os w wParam x y data).2.posted = w.posted) ∧
      ((mouseHookHandler pt os w wParam x y data).1 = true ↔
        w.g.g_mode = EHookMode.kHOOK_RELAY_EVENTS)) := by
  have hm := attachThreadToForeground_g_mode os w
  have ht := attachThreadToForeground_g_threadID os w
  have hp := attachThreadToForeground_posted os w
  refine ⟨?_, ?_⟩
  · intro hb
    have hb' : wParam ∈ buttonEvents := (mem_buttonEvents wParam).2 hb
    unfold mouseHookHandler
    simp only [hb', if_true]
    simp [PostThreadMessage, ht, hp, hm]
  · intro hw
    subst hw
    have hnb : WM_MOUSEWHEEL ∉ buttonEvents := by decide
    unfold mouseHookHandler
    simp only [hnb, if_true, if_false, hm]
    by_cases hmode : w.g.g_mode = EHookMode.kHOOK_RELAY_EVENTS
    · simp [hmode, PostThreadMessage, ht, hp]
    · simp [hmode, hp]

/-- Witness of C4: a left button press in disabled mode posts its message
and is passed on. -/
theorem mouseHookHandler_button_wheel_witness :
    ((0x0201 ≤ WM_LBUTTONDOWN ∧ WM_LBUTTONDOWN ≤ 0x0209) ∨
      (0x020B ≤ WM_LBUTTONDOWN ∧ WM_LBUTTONDOWN ≤ 0x020D) ∨
      (0x00A1 ≤ WM_LBUTTONDOWN ∧ WM_LBUTTONDOWN ≤ 0x00A9) ∨
      (0x00AB ≤ WM_LBUTTONDOWN ∧ WM_LBUTTONDOWN ≤ 0x00AD)) ∧
    (mouseHookHandler demoMasks demoWin32 demoWorld WM_LBUTTONDOWN 10 20 0).2.posted =
      demoWorld.posted ++
        [⟨demoWorld.g.g_threadID, SynergyMsg.SYNERGY_MSG_MOUSE_BUTTON, WM_LBUTTONDOWN,
          toU32 0⟩] :=
  ⟨by decide,
    ((mouseHookHandler_button_wheel demoMasks demoWin32 demoWorld WM_LBUTTONDOWN 10 20 0).1
      (by decide)).1⟩

/-! ## The keyboard -/

theorem keyboardToChar_g (os : Win32 σ) (w : World σ) (wParam lParam : Nat) :
    (keyboardToChar os w wParam lParam).2.g =
      { w.g with g_deadVirtKey := 0, g_deadLParam := 0 } := by
  unfold keyboardToChar PostThreadMessage
  dsimp only
  split_ifs <;> rfl

theorem keyboardToChar_calls (os : Win32 σ) (w : World σ) (wParam lParam : Nat) :
    (keyboardToChar os w wParam lParam).2.calls = w.calls := by
  unfold keyboardToChar PostThreadMessage
  dsimp only
  split_ifs <;> rfl

theorem keyboardToChar_posted (os : Win32 σ) (w : World σ) (wParam lParam : Nat) :
    (keyboardToChar os w wParam lParam).2.posted =
      w.posted ++
        (if (keyboardMapKey os w wParam lParam).1.n = 2 then
          [⟨w.g.g_threadID, SynergyMsg.SYNERGY_MSG_KEY,
              makeKeyMsg w.g.g_deadVirtKey (LOBYTE (keyboardMapKey os w wParam lParam).1.c),
              w.g.g_deadLParam &&& 0x7fffffff⟩,
           ⟨w.g.g_threadID, SynergyMsg.SYNERGY_MSG_KEY,
              makeKeyMsg w.g.g_deadVirtKey (LOBYTE (keyboardMapKey os w wParam lParam).1.c),
              w.g.g_deadLParam ||| 0x80000000⟩]
        else []) := by
  unfold keyboardToChar PostThreadMessage
  dsimp only
  split_ifs <;> simp_all

theorem keyboardToChar_fst (os : Win32 σ) (w : World σ) (wParam lParam : Nat) :
    (keyboardToChar os w wParam lParam).1 =
      if (keyboardMapKey os w wParam lParam).1.n = 1 then
        makeKeyMsg wParam (LOBYTE (keyboardMapKey os w wParam lParam).1.c)
      else if (keyboardMapKey os w wParam lParam).1.n = 2 then
        makeKeyMsg wParam (HIBYTE (keyboardMapKey os w wParam lParam).1.c)
      else wParam &&& 0xff := by
  unfold keyboardToChar PostThreadMessage
  dsimp only
  split_ifs <;> simp_all

theorem keyboardForward_fst (os : Win32 σ) (w : World σ) (wParam lParam c : Nat) :
    ((keyboardForward os w wParam lParam c).1 = true ↔
      (w.g.g_mode = EHookMode.kHOOK_RELAY_EVENTS ∧ wParam ∉ lockKeys ∧ wParam ∉ shiftKeys)) := by
  have hg : (if c ≠ 0 then keyboardToChar os w wParam lParam
      else (wParam &&& 0xff, w)).2.g.g_mode = w.g.g_mode := by
    split_ifs
    · rw [keyboardToChar_g]
    · rfl
  unfold keyboardForward PostThreadMessage
  dsimp only
  split_ifs <;> simp_all

theorem keyboardForward_posted (os : Win32 σ) (w : World σ) (wParam lParam c : Nat) :
    (keyboardForward os w wParam lParam c).2.posted =
      (if c ≠ 0 then keyboardToChar os w wParam lParam else (wParam &&& 0xff, w)).2.posted ++
        (⟨w.g.g_threadID, SynergyMsg.SYNERGY_MSG_KEY,
            (if c ≠ 0 then keyboardToChar os w wParam lParam else (wParam &&& 0xff, w)).1,
            lParam⟩ ::
          (if c &&& 0x80000000 ≠ 0 then
            [⟨w.g.g_threadID, SynergyMsg.SYNERGY_MSG_KEY,
              (if c ≠ 0 then keyboardToChar os w wParam lParam else (wParam &&& 0xff, w)).1,
              lParam ||| 0x80000000⟩]
          else [])) := by
  have hg : (if c ≠ 0 then keyboardToChar os w wParam lParam
      else (wParam &&& 0xff, w)).2.g.g_threadID = w.g.g_threadID := by
    split_ifs
    · rw [keyboardToChar_g]
    · rfl
  unfold keyboardForward PostThreadMessage
  dsimp only
  split_ifs <;> simp_all

theorem keyboardForward_g (os : Win32 σ) (w : World σ) (wParam lParam c : Nat) :
    (keyboardForward os w wParam lParam c).2.g =
      if c ≠ 0 then { w.g with g_deadVirtKey := 0, g_deadLParam := 0 } else w.g := by
  unfold keyboardForward PostThreadMessage
  dsimp only
  split_ifs <;> simp_all [keyboardToChar_g]

theorem attachThreadToForeground_g_deadVirtKey (os : Win32 σ) (w : World σ) :
    (attachThreadToForeground os w).g.g_deadVirtKey = w.g.g_deadVirtKey := by
  rw [attachThreadToForeground_frame]

theorem attachThreadToForeground_g_deadLParam (os : Win32 σ) (w : World σ) :
    (attachThreadToForeground os w).g.g_deadLParam = w.g.g_deadLParam := by
  rw [attachThreadToForeground_frame]

/-- A forwarded key event runs the forwarding code on the world left by the
foreground attachment. -/
theorem keyboardHookHandler_of_forwarded (os : Win32 σ) (w : World σ) (wParam lParam : Nat)
    (h : keyForwarded os w wParam lParam) :
    keyboardHookHandler os w wParam lParam =
      keyboardForward os (attachThreadToForeground os w) wParam lParam
        (os.MapVirtualKey (attachThreadToForeground os w).sys wParam 2) := by
  unfold keyForwarded keyIsDead at h
  have hd := attachThreadToForeground_g_deadVirtKey os w
  unfold keyboardHookHandler
  dsimp only
  split_ifs with h1 h2 h3
  · exact absurd ⟨h1, Or.inr (hd ▸ h3)⟩ h
  · rfl
  · exact absurd ⟨h1, Or.inl h2⟩ h
  · rfl

/-- A key event that is not forwarded posts nothing and is passed on. -/
theorem keyboardHookHandler_of_not_forwarded (os : Win32 σ) (w : World σ)
    (wParam lParam : Nat) (h : ¬ keyForwarded os w wParam lParam) :
    (keyboardHookHandler os w wParam lParam).1 = false ∧
    (keyboardHookHandler os w wParam lParam).2.posted = w.posted ∧
    (keyboardHookHandler os w wParam lParam).2.calls = (attachThreadToForeground os w).calls ∧
    (keyboardHookHandler os w wParam lParam).2.sys = (attachThreadToForeground os w).sys := by
  unfold keyForwarded keyIsDead at h
  have hd := attachThreadToForeground_g_deadVirtKey os w
  have hp := attachThreadToForeground_posted os w
  simp only [not_not] at h
  obtain ⟨h1, h2⟩ := h
  unfold keyboardHookHandler
  dsimp only
  split_ifs with h3 h4
  · exact ⟨rfl, hp, rfl, rfl⟩
  · rcases h2 with h2 | h2
    · exact absurd h3 h2
    · exact absurd (hd ▸ h2) h4
  · exact ⟨rfl, hp, rfl, rfl⟩

theorem keyboardHookHandler_fst (os : Win32 σ) (w : World σ) (wParam lParam : Nat) :
    ((keyboardHookHandler os w wParam lParam).1 = true ↔
      (keyForwarded os w wParam lParam ∧ w.g.g_mode = EHookMode.kHOOK_RELAY_EVENTS ∧
        wParam ∉ lockKeys ∧ wParam ∉ shiftKeys)) := by
  by_cases h : keyForwarded os w wParam lParam
  · rw [keyboardHookHandler_of_forwarded os w wParam lParam h, keyboardForward_fst,
      attachThreadToForeground_g_mode]
    simp [h]
  · simp [(keyboardHookHandler_of_not_forwarded os w wParam lParam h).1, h]

/-- The messages a forwarded key event posts: possibly the press and
release pair of the buffered dead key, then the key message that carries the
event parameter, then the fake release for a dead key. -/
theorem keyboardHookHandler_posted_of_forwarded (os : Win32 σ) (w : World σ)
    (wParam lParam : Nat) (h : keyForwarded os w wParam lParam) :
    ∃ (cv : Nat) (pre : List PostedMsg),
      (keyboardHookHandler os w wParam lParam).2.posted =
        w.posted ++ pre ++
          (⟨w.g.g_threadID, SynergyMsg.SYNERGY_MSG_KEY, cv, lParam⟩ ::
            (if keyIsDead os w wParam then
              [⟨w.g.g_threadID, SynergyMsg.SYNERGY_MSG_KEY, cv, lParam ||| 0x80000000⟩]
            else [])) ∧
      (pre = [] ∨ ∃ dc : Nat, pre =
        [⟨w.g.g_threadID, SynergyMsg.SYNERGY_MSG_KEY, dc, w.g.g_deadLParam &&& 0x7fffffff⟩,
         ⟨w.g.g_threadID, SynergyMsg.SYNERGY_MSG_KEY, dc, w.g.g_deadLParam ||| 0x80000000⟩]) := by
  rw [keyboardHookHandler_of_forwarded os w wParam lParam h, keyboardForward_posted,
    attachThreadToForeground_g_threadID]
  by_cases hc : os.MapVirtualKey (attachThreadToForeground os w).sys wParam 2 ≠ 0
  · rw [if_pos hc, keyboardToChar_posted, attachThreadToForeground_posted,
      attachThreadToForeground_g_threadID, attachThreadToForeground_g_deadLParam]
    refine ⟨_, _, rfl, ?_⟩
    split_ifs
    · exact Or.inr ⟨_, rfl⟩
    · exact Or.inl rfl
  · rw [if_neg hc, attachThreadToForeground_posted]
    exact ⟨wParam &&& 0xff, [], by simp [keyIsDead], Or.inl rfl⟩

/-- C5. A key event that `keyboardHookHandler` forwards is discarded
(the handler returns `true`) exactly when the mode is relay and the virtual
key is none of caps lock, num lock, scroll lock, the shift, control and alt
keys (generic, left and right) and the language toggle key.  A shift key
event is never discarded.  In relay mode the press of a letter key that is
not a dead key is discarded and its key message, carrying the event
parameter, is the last message posted.  Outside relay mode no key event is
discarded. -/
theorem keyboardHookHandler_consume (os : Win32 σ) (w : World σ) (wParam lParam : Nat) :
    (keyForwarded os w wParam lParam →
      ((keyboardHookHandler os w wParam lParam).1 = true ↔
        (w.g.g_mode = EHookMode.kHOOK_RELAY_EVENTS ∧
          wParam ∉ [VK_CAPITAL, VK_NUMLOCK, VK_SCROLL, VK_SHIFT, VK_LSHIFT, VK_RSHIFT,
            VK_CONTROL, VK_LCONTROL, VK_RCONTROL, VK_MENU, VK_LMENU, VK_RMENU,
            VK_HANGUL]))) ∧
    (keyboardHookHandler os w VK_SHIFT lParam).1 = false ∧
    (w.g.g_mode = EHookMode.kHOOK_RELAY_EVENTS → 0x41 ≤ wParam ∧ wParam ≤ 0x5A →
      ¬ keyIsDead os w wParam → lParam &&& 0x80000000 = 0 →
      (keyboardHookHandler os w wParam lParam).1 = true ∧
      ∃ (cv : Nat) (pre : List PostedMsg),
        (keyboardHookHandler os w wParam lParam).2.posted =
          w.posted ++ pre ++ [⟨w.g.g_threadID, SynergyMsg.SYNERGY_MSG_KEY, cv, lParam⟩]) ∧
    (w.g.g_mode ≠ EHookMode.kHOOK_RELAY_EVENTS →
      (keyboardHookHandler os w wParam lParam).1 = false) := by
  refine ⟨?_, ?_, ?_, ?_⟩
  · intro h
    rw [keyboardHookHandler_fst]
    simp only [h, true_and, lockKeys, shiftKeys, List.mem_cons, List.mem_singleton,
      List.not_mem_nil, or_false, not_or]
    tauto
  · have h := keyboardHookHandler_fst os w VK_SHIFT lParam
    have hs : VK_SHIFT ∈ shiftKeys := by decide
    cases hr : (keyboardHookHandler os w VK_SHIFT lParam).1
    · rfl
    · exact absurd hs (h.1 hr).2.2.2
  · intro hmode hrange hnd _
    have hf : keyForwarded os w wParam lParam := fun hx => hnd hx.1
    refine ⟨?_, ?_⟩
    · rw [keyboardHookHandler_fst]
      refine ⟨hf, hmode, ?_, ?_⟩
      · simp only [lockKeys, VK_CAPITAL, VK_NUMLOCK, VK_SCROLL, List.mem_cons,
          List.mem_singleton, List.not_mem_nil, or_false]
        omega
      · simp only [shiftKeys, VK_SHIFT, VK_LSHIFT, VK_RSHIFT, VK_CONTROL, VK_LCONTROL,
          VK_RCONTROL, VK_MENU, VK_LMENU, VK_RMENU, VK_HANGUL, List.mem_cons,
          List.mem_singleton, List.not_mem_nil, or_false]
        omega
    · obtain ⟨cv, pre, hp, _⟩ := keyboardHookHandler_posted_of_forwarded os w wParam lParam hf
      refine ⟨cv, pre, ?_⟩
      rw [hp]
      simp [hnd]
  · intro hmode
    have h := keyboardHookHandler_fst os w wParam lParam
    cases hr : (keyboardHookHandler os w wParam lParam).1
    · rfl
    · exact absurd (h.1 hr).2.1 hmode

theorem land_7fffffff_land_80000000 (x : Nat) : (x &&& 0x7fffffff) &&& 0x80000000 = 0 := by
  have h : (0x7fffffff : Nat) &&& 0x80000000 = 0 := by decide
  rw [Nat.land_assoc, h, Nat.and_zero]

theorem lor_80000000_land_80000000 (x : Nat) :
    (x ||| 0x80000000) &&& 0x80000000 = 0x80000000 := by
  apply Nat.eq_of_testBit_eq
  intro i
  simp only [Nat.testBit_and, Nat.testBit_or]
  cases Nat.testBit x i <;> cases Nat.testBit 0x80000000 i <;> rfl

/-- The press of a dead key that finds the buffer empty. -/
theorem keyboardHookHandler_dead_press (os : Win32 σ) (w : World σ) (wParam lParam : Nat)
    (hempty : w.g.g_deadVirtKey = 0) (hdead : keyIsDead os w wParam)
    (hpress : lParam &&& 0x80000000 = 0) :
    keyboardHookHandler os w wParam lParam =
      (false, { attachThreadToForeground os w with
        g := { (attachThreadToForeground os w).g with
          g_deadVirtKey := wParam
          g_deadLParam := lParam
          g_deadKeyState := keyboardGetState os (attachThreadToForeground os w) } }) := by
  unfold keyIsDead at hdead
  have hd := attachThreadToForeground_g_deadVirtKey os w
  rw [hempty] at hd
  unfold keyboardHookHandler
  dsimp only
  rw [if_pos hdead, if_pos hpress, if_pos hd]

/-- The release of a dead key. -/
theorem keyboardHookHandler_dead_release (os : Win32 σ) (w : World σ) (wParam lParam : Nat)
    (hdead : keyIsDead os w wParam) (hrelease : lParam &&& 0x80000000 ≠ 0) :
    keyboardHookHandler os w wParam lParam = (false, attachThreadToForeground os w) := by
  unfold keyIsDead at hdead
  unfold keyboardHookHandler
  dsimp only
  rw [if_pos hdead, if_neg hrelease]

theorem attachThreadToForeground_of_hookThread_eq_zero (os : Win32 σ) (w : World σ)
    (h : w.g.g_hookThread = 0) : attachThreadToForeground os w = w := by
  unfold attachThreadToForeground
  simp [h]

/-- C6. Starting from an empty dead key buffer, the press of a dead key
followed by its release posts no message, in every mode: after the press
the globals are those before it with the buffer holding the key code, the
event parameter and the key state table (and the foreground attachment
refreshed); the release leaves the globals as the press left them, up to the
refresh of the foreground attachment, and leaves the whole world unchanged
when no low-level hook is in use. -/
theorem keyboardHookHandler_dead_press_release (os : Win32 σ) (w : World σ)
    (wParam lParam lParam' : Nat)
    (hempty : w.g.g_deadVirtKey = 0)
    (hdead : keyIsDead os w wParam)
    (hpress : lParam &&& 0x80000000 = 0)
    (hdead' : keyIsDead os (keyboardHookHandler os w wParam lParam).2 wParam)
    (hrelease : lParam' &&& 0x80000000 ≠ 0) :
    (keyboardHookHandler os w wParam lParam).2.posted = w.posted ∧
    (keyboardHookHandler os (keyboardHookHandler os w wParam lParam).2 wParam lParam').2.posted
      = w.posted ∧
    (keyboardHookHandler os w wParam lParam).2.g =
      { w.g with
        g_deadVirtKey := wParam
        g_deadLParam := lParam
        g_deadKeyState := keyboardGetState os (attachThreadToForeground os w)
        g_attachedThread := (attachThreadToForeground os w).g.g_attachedThread } ∧
    (keyboardHookHandler os (keyboardHookHandler os w wParam lParam).2 wParam lParam').2.g =
      { (keyboardHookHandler os w wParam lParam).2.g with
        g_attachedThread :=
          (keyboardHookHandler os (keyboardHookHandler os w wParam lParam).2
            wParam lParam').2.g.g_attachedThread } ∧
    (w.g.g_hookThread = 0 →
      keyboardHookHandler os (keyboardHookHandler os w wParam lParam).2 wParam lParam' =
        (false, (keyboardHookHandler os w wParam lParam).2)) := by
  have hr := keyboardHookHandler_dead_release os _ wParam lParam' hdead' hrelease
  have hp := keyboardHookHandler_dead_press os w wParam lParam hempty hdead hpress
  have hpp : (keyboardHookHandler os w wParam lParam).2.posted = w.posted := by
    rw [hp]; exact attachThreadToForeground_posted os w
  refine ⟨hpp, ?_, ?_, ?_, ?_⟩
  · rw [hr, attachThreadToForeground_posted, hpp]
  · rw [hp]
    dsimp only
    rw [attachThreadToForeground_frame]
  · rw [hr]
    exact attachThreadToForeground_frame os _
  · intro hh
    rw [hr, attachThreadToForeground_of_hookThread_eq_zero]
    rw [hp]
    dsimp only
    rw [attachThreadToForeground_frame]
    exact hh

/-- Witness of C6: the dead key `0xDE` pressed and released in
`demoDeadWorld 2`. -/
theorem keyboardHookHandler_dead_press_release_witness :
    (keyboardHookHandler demoWin32 (demoDeadWorld 2) 0xDE 0x00280001).2.posted = [] ∧
    (keyboardHookHandler demoWin32
      (keyboardHookHandler demoWin32 (demoDeadWorld 2) 0xDE 0x00280001).2
      0xDE 0x80280001).2.posted = [] :=
  ⟨(keyboardHookHandler_dead_press_release demoWin32 (demoDeadWorld 2) 0xDE 0x00280001
      0x80280001 rfl (by decide) (by decide) (by decide) (by decide)).1,
   (keyboardHookHandler_dead_press_release demoWin32 (demoDeadWorld 2) 0xDE 0x00280001
      0x80280001 rfl (by decide) (by decide) (by decide) (by decide)).2.1⟩

/-- C7, as stated, fails: in relay mode the press of the dead key `0xDE`
with an empty buffer, and its release, make `keyboardHookHandler` return
`false`, so `keyboardHook` does not return `1` but hands the event to
`CallNextHookEx`: the event is passed on to the local system. -/
theorem dead_key_event_is_passed_on :
    (demoDeadWorld 2).g.g_mode = EHookMode.kHOOK_RELAY_EVENTS ∧
    (demoDeadWorld 2).g.g_deadVirtKey = 0 ∧
    keyIsDead demoWin32 (demoDeadWorld 2) 0xDE ∧
    (keyboardHookHandler demoWin32 (demoDeadWorld 2) 0xDE 0x00280001).1 = false ∧
    (keyboardHook demoWin32 (demoDeadWorld 2) 0 0xDE 0x00280001).1 =
      HookReturn.CallNextHookEx 0 0 0xDE 0x00280001 ∧
    (keyboardHookHandler demoWin32 (demoDeadWorld 2) 0xDE 0x80280001).1 = false ∧
    (keyboardHook demoWin32 (demoDeadWorld 2) 0 0xDE 0x80280001).1 =
      HookReturn.CallNextHookEx 0 0 0xDE 0x80280001 := by
  decide

/-- C7, amended. For a dead key press that finds the buffer empty and for a
dead key release, in every mode, `keyboardHookHandler` returns `false`
(pass the event) and posts nothing to the owning thread; `keyboardHook`
then returns the result of `CallNextHookEx` on the event. -/
theorem keyboardHookHandler_dead_key_passed (os : Win32 σ) (w : World σ)
    (wParam lParam : Nat) (code : Int)
    (hdead : keyIsDead os w wParam)
    (hcase : lParam &&& 0x80000000 ≠ 0 ∨ (lParam &&& 0x80000000 = 0 ∧ w.g.g_deadVirtKey = 0)) :
    (keyboardHookHandler os w wParam lParam).1 = false ∧
    (keyboardHookHandler os w wParam lParam).2.posted = w.posted ∧
    (0 ≤ code →
      (keyboardHook os w code wParam lParam).1 =
        HookReturn.CallNextHookEx w.g.g_keyboard code wParam lParam ∧
      (keyboardHook os w code wParam lParam).2.posted = w.posted) := by
  have key : (keyboardHookHandler os w wParam lParam).1 = false ∧
      (keyboardHookHandler os w wParam lParam).2.posted = w.posted ∧
      (keyboardHookHandler os w wParam lParam).2.g.g_keyboard = w.g.g_keyboard := by
    rcases hcase with h | ⟨h, he⟩
    · rw [keyboardHookHandler_dead_release os w wParam lParam hdead h]
      refine ⟨rfl, attachThreadToForeground_posted os w, ?_⟩
      dsimp only
      rw [attachThreadToForeground_frame]
    · rw [keyboardHookHandler_dead_press os w wParam lParam he hdead h]
      refine ⟨rfl, attachThreadToForeground_posted os w, ?_⟩
      dsimp only
      rw [attachThreadToForeground_frame]
  refine ⟨key.1, key.2.1, ?_⟩
  intro hc
  unfold keyboardHook
  rw [if_pos hc]
  simp [key.1, key.2.1, key.2.2]

/-- Witness of amended C7: the release of the dead key `0xDE` in relay
mode. -/
theorem keyboardHookHandler_dead_key_passed_witness :
    keyIsDead demoWin32 (demoDeadWorld 2) 0xDE ∧
    (0x80280001 &&& 0x80000000 ≠ 0 ∨
      (0x80280001 &&& 0x80000000 = 0 ∧ (demoDeadWorld 2).g.g_deadVirtKey = 0)) ∧
    (keyboardHookHandler demoWin32 (demoDeadWorld 2) 0xDE 0x80280001).1 = false :=
  ⟨by decide, by decide,
    (keyboardHookHandler_dead_key_passed demoWin32 (demoDeadWorld 2) 0xDE 0x80280001 0
      (by decide) (by decide)).1⟩

theorem makeKeyMsg_eq (virtKey c : Nat) :
    makeKeyMsg virtKey c = virtKey % 256 + 256 * (c % 256) := by
  have h1 : virtKey &&& 0xff = virtKey % 256 := Nat.and_pow_two_sub_one_eq_mod virtKey 8
  have h2 : (virtKey % 256) ||| ((c % 256) <<< 8) = 256 * (c % 256) + virtKey % 256 := by
    rw [Nat.or_comm, Nat.shiftLeft_eq, Nat.mul_comm]
    exact (Nat.mul_add_lt_is_or (i := 8) (by omega) _).symm
  unfold makeKeyMsg MAKEWPARAM MAKEWORD
  rw [h1]
  simp only [Nat.mod_mod, Nat.zero_mod, Nat.zero_shiftLeft, Nat.or_zero]
  rw [h2]
  omega

/-- C8, as stated, fails: the buffer holds the dead key `0xDE`, the dead key
`0xDD` is pressed and `ToAscii` reports a dead key again (`-1`); the handler
posts the message of `0xDD` and its fake release only, and nothing for
`0xDE`. -/
theorem second_dead_key_without_pair :
    (keyboardHookHandler demoWin32 (demoDeadWorld (-1)) 0xDE 0x00280001).2.g.g_deadVirtKey
      = 0xDE ∧
    keyIsDead demoWin32
      (keyboardHookHandler demoWin32 (demoDeadWorld (-1)) 0xDE 0x00280001).2 0xDD ∧
    (keyboardHookHandler demoWin32
      (keyboardHookHandler demoWin32 (demoDeadWorld (-1)) 0xDE 0x00280001).2
      0xDD 0x001B0001).2.posted =
      [⟨42, SynergyMsg.SYNERGY_MSG_KEY, 0xDD, 0x001B0001⟩,
       ⟨42, SynergyMsg.SYNERGY_MSG_KEY, 0xDD, 0x801B0001⟩] := by
  decide

/-- C8, amended. The buffer holds a dead key, a dead key is pressed, and the
character mapping of that press gives two characters (`ToAscii` returns
`2`).  Then the handler posts, in this order: a press (transition bit
clear) and a release (transition bit set) of the buffered dead key, with its
virtual key code in the low byte and the low character in the second byte;
the message of the pressed key with the high character and the event
parameter; and the fake release of the pressed key.  The buffer is empty
afterwards. -/
theorem keyboardHookHandler_two_dead_keys (os : Win32 σ) (w : World σ)
    (wParam lParam : Nat)
    (hbuf : w.g.g_deadVirtKey ≠ 0)
    (hdead : keyIsDead os w wParam)
    (hpress : lParam &&& 0x80000000 = 0)
    (hn : (keyboardMapKey os (attachThreadToForeground os w) wParam lParam).1.n = 2) :
    (keyboardHookHandler os w wParam lParam).2.posted =
      w.posted ++
        [⟨w.g.g_threadID, SynergyMsg.SYNERGY_MSG_KEY,
            makeKeyMsg w.g.g_deadVirtKey
              (LOBYTE (keyboardMapKey os (attachThreadToForeground os w) wParam lParam).1.c),
            w.g.g_deadLParam &&& 0x7fffffff⟩,
         ⟨w.g.g_threadID, SynergyMsg.SYNERGY_MSG_KEY,
            makeKeyMsg w.g.g_deadVirtKey
              (LOBYTE (keyboardMapKey os (attachThreadToForeground os w) wParam lParam).1.c),
            w.g.g_deadLParam ||| 0x80000000⟩,
         ⟨w.g.g_threadID, SynergyMsg.SYNERGY_MSG_KEY,
            makeKeyMsg wParam
              (HIBYTE (keyboardMapKey os (attachThreadToForeground os w) wParam lParam).1.c),
            lParam⟩,
         ⟨w.g.g_threadID, SynergyMsg.SYNERGY_MSG_KEY,
            makeKeyMsg wParam
              (HIBYTE (keyboardMapKey os (attachThreadToForeground os w) wParam lParam).1.c),
            lParam ||| 0x80000000⟩] ∧
    (keyboardHookHandler os w wParam lParam).2.g.g_deadVirtKey = 0 ∧
    (keyboardHookHandler os w wParam lParam).2.g.g_deadLParam = 0 ∧
    (w.g.g_deadLParam &&& 0x7fffffff) &&& 0x80000000 = 0 ∧
    (w.g.g_deadLParam ||| 0x80000000) &&& 0x80000000 ≠ 0 ∧
    (∀ v c : Nat, makeKeyMsg v c % 256 = v % 256 ∧ makeKeyMsg v c / 256 = c % 256) := by
  have hf : keyForwarded os w wParam lParam := by
    rintro ⟨_, h | h⟩
    · exact h hpress
    · exact hbuf h
  have hc : os.MapVirtualKey (attachThreadToForeground os w).sys wParam 2 ≠ 0 := by
    intro h0
    unfold keyIsDead at hdead
    rw [h0, Nat.zero_and] at hdead
    exact hdead rfl
  unfold keyIsDead at hdead
  have h12 : ¬ ((2 : Int) = 1) := by decide
  refine ⟨?_, ?_, ?_, land_7fffffff_land_80000000 _, ?_, ?_⟩
  · rw [keyboardHookHandler_of_forwarded os w wParam lParam hf, keyboardForward_posted,
      if_pos hc, if_pos hdead, keyboardToChar_posted, keyboardToChar_fst, hn,
      attachThreadToForeground_posted, attachThreadToForeground_g_threadID,
      attachThreadToForeground_g_deadVirtKey, attachThreadToForeground_g_deadLParam]
    simp
  · rw [keyboardHookHandler_of_forwarded os w wParam lParam hf, keyboardForward_g, if_pos hc]
  · rw [keyboardHookHandler_of_forwarded os w wParam lParam hf, keyboardForward_g, if_pos hc]
  · rw [lor_80000000_land_80000000]
    decide
  · intro v c
    rw [makeKeyMsg_eq]
    omega

/-- Witness of amended C8: the dead key `0xDD` pressed while the buffer
holds `0xDE`, with `ToAscii` returning two characters. -/
theorem keyboardHookHandler_two_dead_keys_witness :
    (keyboardHookHandler demoWin32 (demoDeadWorld 2) 0xDE 0x00280001).2.g.g_deadVirtKey ≠ 0 ∧
    (keyboardHookHandler demoWin32
      (keyboardHookHandler demoWin32 (demoDeadWorld 2) 0xDE 0x00280001).2
      0xDD 0x001B0001).2.g.g_deadVirtKey = 0 :=
  ⟨by decide,
    (keyboardHookHandler_two_dead_keys demoWin32
      (keyboardHookHandler demoWin32 (demoDeadWorld 2) 0xDE 0x00280001).2
      0xDD 0x001B0001 (by decide) (by decide) (by decide) (by decide)).2.1⟩

theorem setMode_eq_withMode (w : World σ) (m : EHookMode) : setMode w m = withMode w m := by
  unfold setMode withMode
  split_ifs with h
  · subst h; rfl
  · rfl

theorem attachThreadToForeground_withMode (os : Win32 σ) (w : World σ) (m : EHookMode) :
    attachThreadToForeground os (withMode w m) = withMode (attachThreadToForeground os w) m := by
  unfold attachThreadToForeground AttachThreadInput withMode
  dsimp only
  split_ifs <;> rfl

theorem keyboardGetState_withMode (os : Win32 σ) (w : World σ) (m : EHookMode) :
    keyboardGetState os (withMode w m) = keyboardGetState os w := rfl

theorem keyboardMapKey_withMode (os : Win32 σ) (w : World σ) (m : EHookMode)
    (wParam lParam : Nat) :
    keyboardMapKey os (withMode w m) wParam lParam = keyboardMapKey os w wParam lParam := rfl

theorem keyboardToChar_withMode (os : Win32 σ) (w : World σ) (m : EHookMode)
    (wParam lParam : Nat) :
    keyboardToChar os (withMode w m) wParam lParam =
      ((keyboardToChar os w wParam lParam).1, withMode (keyboardToChar os w wParam lParam).2 m) := by
  unfold keyboardToChar
  simp only [keyboardMapKey_withMode]
  unfold PostThreadMessage withMode
  dsimp only
  split_ifs <;> rfl

theorem keyboardForward_withMode (os : Win32 σ) (w : World σ) (m : EHookMode)
    (wParam lParam c : Nat) :
    (keyboardForward os (withMode w m) wParam lParam c).2 =
      withMode (keyboardForward os w wParam lParam c).2 m := by
  unfold keyboardForward
  simp only [keyboardToChar_withMode]
  unfold PostThreadMessage withMode
  dsimp only
  split_ifs <;> rfl

theorem keyboardHookHandler_withMode (os : Win32 σ) (w : World σ) (m : EHookMode)
    (wParam lParam : Nat) :
    (keyboardHookHandler os (withMode w m) wParam lParam).2 =
      withMode (keyboardHookHandler os w wParam lParam).2 m := by
  unfold keyboardHookHandler
  simp only [attachThreadToForeground_withMode, keyboardGetState_withMode]
  have hs : ∀ v : World σ, (withMode v m).sys = v.sys := fun _ => rfl
  have hd : ∀ v : World σ, (withMode v m).g.g_deadVirtKey = v.g.g_deadVirtKey := fun _ => rfl
  simp only [hs, hd]
  split_ifs
  · rfl
  · exact keyboardForward_withMode os _ m wParam lParam _
  · rfl
  · exact keyboardForward_withMode os _ m wParam lParam _

/-- C9. Key forwarding does not depend on the mode: run from the same world
with the mode set to any two modes, `keyboardHookHandler` posts the same
messages, leaves the same dead key buffer (key, event parameter and key
state table), the same system state and the same system calls; the two
resulting worlds differ in `g_mode` only.  Every key event that is not a
dead key release and not a dead key press buffered at the top of the
handler posts a key message that carries the event parameter; the only
messages posted before it are the press and release pair of a buffered dead
key, and the only one after it is the fake release of a dead key. -/
theorem keyboardHookHandler_mode_independent (os : Win32 σ) (w : World σ)
    (wParam lParam : Nat) (m1 m2 : EHookMode) :
    (keyboardHookHandler os (setMode w m1) wParam lParam).2.posted =
      (keyboardHookHandler os (setMode w m2) wParam lParam).2.posted ∧
    (keyboardHookHandler os (setMode w m1) wParam lParam).2.g.g_deadVirtKey =
      (keyboardHookHandler os (setMode w m2) wParam lParam).2.g.g_deadVirtKey ∧
    (keyboardHookHandler os (setMode w m1) wParam lParam).2.g.g_deadLParam =
      (keyboardHookHandler os (setMode w m2) wParam lParam).2.g.g_deadLParam ∧
    (keyboardHookHandler os (setMode w m1) wParam lParam).2.g.g_deadKeyState =
      (keyboardHookHandler os (setMode w m2) wParam lParam).2.g.g_deadKeyState ∧
    (keyboardHookHandler os (setMode w m1) wParam lParam).2.sys =
      (keyboardHookHandler os (setMode w m2) wParam lParam).2.sys ∧
    (keyboardHookHandler os (setMode w m1) wParam lParam).2.calls =
      (keyboardHookHandler os (setMode w m2) wParam lParam).2.calls ∧
    (keyboardHookHandler os (setMode w m1) wParam lParam).2 =
      setMode (keyboardHookHandler os (setMode w m2) wParam lParam).2 m1 ∧
    (keyForwarded os w wParam lParam →
      ∃ (cv : Nat) (pre : List PostedMsg),
        (keyboardHookHandler os w wParam lParam).2.posted =
          w.posted ++ pre ++
            (⟨w.g.g_threadID, SynergyMsg.SYNERGY_MSG_KEY, cv, lParam⟩ ::
              (if keyIsDead os w wParam then
                [⟨w.g.g_threadID, SynergyMsg.SYNERGY_MSG_KEY, cv, lParam ||| 0x80000000⟩]
              else [])) ∧
        (pre = [] ∨ ∃ dc : Nat, pre =
          [⟨w.g.g_threadID, SynergyMsg.SYNERGY_MSG_KEY, dc,
              w.g.g_deadLParam &&& 0x7fffffff⟩,
           ⟨w.g.g_threadID, SynergyMsg.SYNERGY_MSG_KEY, dc,
              w.g.g_deadLParam ||| 0x80000000⟩])) := by
  have e1 := keyboardHookHandler_withMode os w m1 wParam lParam
  have e2 := keyboardHookHandler_withMode os w m2 wParam lParam
  simp only [setMode_eq_withMode]
  rw [e1, e2]
  exact ⟨rfl, rfl, rfl, rfl, rfl, rfl, rfl,
    keyboardHookHandler_posted_of_forwarded os w wParam lParam⟩

/-- Witness of C9: the press of the letter `A` in `demoWorld` is forwarded
with its event parameter. -/
theorem keyboardHookHandler_mode_independent_witness :
    keyForwarded demoWin32 demoWorld 0x41 0x001E0001 ∧
    ∃ (cv : Nat) (pre : List PostedMsg),
      (keyboardHookHandler demoWin32 demoWorld 0x41 0x001E0001).2.posted =
        demoWorld.posted ++ pre ++
          (⟨demoWorld.g.g_threadID, SynergyMsg.SYNERGY_MSG_KEY, cv, 0x001E0001⟩ ::
            (if keyIsDead demoWin32 demoWorld 0x41 then
              [⟨demoWorld.g.g_threadID, SynergyMsg.SYNERGY_MSG_KEY, cv,
                0x001E0001 ||| 0x80000000⟩]
            else [])) ∧
        (pre = [] ∨ ∃ dc : Nat, pre =
          [⟨demoWorld.g.g_threadID, SynergyMsg.SYNERGY_MSG_KEY, dc,
              demoWorld.g.g_deadLParam &&& 0x7fffffff⟩,
           ⟨demoWorld.g.g_threadID, SynergyMsg.SYNERGY_MSG_KEY, dc,
              demoWorld.g.g_deadLParam ||| 0x80000000⟩]) :=
  ⟨by decide,
    (keyboardHookHandler_mode_independent demoWin32 demoWorld 0x41 0x001E0001
      EHookMode.kHOOK_DISABLE EHookMode.kHOOK_RELAY_EVENTS).2.2.2.2.2.2.2 (by decide)⟩

/-- Witness of C5: the press of the letter `A` in relay mode is discarded. -/
theorem keyboardHookHandler_consume_witness :
    (setMode demoWorld EHookMode.kHOOK_RELAY_EVENTS).g.g_mode =
      EHookMode.kHOOK_RELAY_EVENTS ∧
    (0x41 ≤ 0x41 ∧ 0x41 ≤ 0x5A) ∧
    ¬ keyIsDead demoWin32 (setMode demoWorld EHookMode.kHOOK_RELAY_EVENTS) 0x41 ∧
    0x001E0001 &&& 0x80000000 = 0 ∧
    (keyboardHookHandler demoWin32 (setMode demoWorld EHookMode.kHOOK_RELAY_EVENTS)
      0x41 0x001E0001).1 = true :=
  ⟨rfl, by decide, by decide, by decide,
    ((keyboardHookHandler_consume demoWin32 (setMode demoWorld EHookMode.kHOOK_RELAY_EVENTS)
      0x41 0x001E0001).2.2.1 rfl (by decide) (by decide) (by decide)).1⟩

/-! ## Installing and removing the hooks -/

theorem detachThread_g (os : Win32 σ) (w : World σ) :
    (detachThread os w).g = { w.g with g_attachedThread := 0 } := by
  unfold detachThread AttachThreadInput
  split_ifs with h
  · rfl
  · have h0 : w.g.g_attachedThread = 0 := not_not.1 h
    rw [← h0]

theorem unhookKeyboardLL_g (os : Win32 σ) (w : World σ) :
    (unhookKeyboardLL os w).g = { w.g with g_keyboardLL := 0 } := by
  unfold unhookKeyboardLL UnhookWindowsHookEx
  split_ifs with h
  · rfl
  · have h0 : w.g.g_keyboardLL = 0 := not_not.1 h
    rw [← h0]

theorem unhookMouseLL_g (os : Win32 σ) (w : World σ) :
    (unhookMouseLL os w).g = { w.g with g_mouseLL := 0 } := by
  unfold unhookMouseLL UnhookWindowsHookEx
  split_ifs with h
  · rfl
  · have h0 : w.g.g_mouseLL = 0 := not_not.1 h
    rw [← h0]

theorem unhookKeyboard_g (os : Win32 σ) (w : World σ) :
    (unhookKeyboard os w).g = { w.g with g_keyboard := 0 } := by
  unfold unhookKeyboard UnhookWindowsHookEx
  split_ifs with h
  · rfl
  · have h0 : w.g.g_keyboard = 0 := not_not.1 h
    rw [← h0]

theorem unhookMouse_g (os : Win32 σ) (w : World σ) :
    (unhookMouse os w).g = { w.g with g_mouse := 0 } := by
  unfold unhookMouse UnhookWindowsHookEx
  split_ifs with h
  · rfl
  · have h0 : w.g.g_mouse = 0 := not_not.1 h
    rw [← h0]

theorem unhookGetMessage_g (os : Win32 σ) (w : World σ) :
    (unhookGetMessage os w).g =
      { w.g with g_getMessage :=
          if w.g.g_getMessage ≠ 0 ∧ ¬ (w.g.g_screenSaver = true) then 0
          else w.g.g_getMessage } := by
  unfold unhookGetMessage UnhookWindowsHookEx
  split_ifs with h <;> rfl

/-- The globals after `uninstall`. -/
theorem uninstall_g (os : Win32 σ) (w : World σ) :
    (uninstall os w).2.g =
      { w.g with
        g_deadVirtKey := 0
        g_deadLParam := 0
        g_attachedThread := 0
        g_keyboardLL := 0
        g_mouseLL := 0
        g_keyboard := 0
        g_mouse := 0
        g_getMessage :=
          if w.g.g_getMessage ≠ 0 ∧ ¬ (w.g.g_screenSaver = true) then 0
          else w.g.g_getMessage
        g_wheelSupport := EWheelSupport.kWheelNone } := by
  unfold uninstall
  dsimp only
  rw [unhookGetMessage_g, unhookMouse_g, unhookKeyboard_g, unhookMouseLL_g,
    unhookKeyboardLL_g, detachThread_g]

theorem getWheelSupport_g (os : Win32 σ) (w : World σ) :
    (getWheelSupport os w).2.g =
      { w.g with g_wmMouseWheel := (getWheelSupport os w).2.g.g_wmMouseWheel } := by
  unfold getWheelSupport
  split
  · rfl
  · dsimp only
    split_ifs <;> rfl

theorem installGetMessage_g_lowlevel (os : Win32 σ) (w : World σ) :
    (installGetMessage os w).g.g_mouseLL = w.g.g_mouseLL ∧
    (installGetMessage os w).g.g_keyboardLL = w.g.g_keyboardLL := by
  unfold installGetMessage SetWindowsHookEx
  split_ifs <;> exact ⟨rfl, rfl⟩

theorem installRegular_g_lowlevel (os : Win32 σ) (w : World σ) :
    (installRegular os w).g.g_mouseLL = w.g.g_mouseLL ∧
    (installRegular os w).g.g_keyboardLL = w.g.g_keyboardLL := by
  unfold installRegular SetWindowsHookEx
  dsimp only
  split_ifs <;> exact ⟨rfl, rfl⟩

/-- The low-level block leaves both low-level hooks or none. -/
theorem installLowLevel_pair (WIN32_WINNT : Nat) (os : Win32 σ) (w : World σ)
    (h : 0x0400 ≤ WIN32_WINNT) :
    ((installLowLevel WIN32_WINNT os w).g.g_mouseLL ≠ 0 ↔
      (installLowLevel WIN32_WINNT os w).g.g_keyboardLL ≠ 0) := by
  unfold installLowLevel
  rw [if_pos h]
  dsimp only
  split_ifs with h1
  · rw [unhookMouseLL_g, unhookKeyboardLL_g]
  · simp only [not_or] at h1
    exact ⟨fun _ => h1.2, fun _ => h1.1⟩

theorem installLowLevel_of_lt (WIN32_WINNT : Nat) (os : Win32 σ) (w : World σ)
    (h : WIN32_WINNT < 0x0400) : installLowLevel WIN32_WINNT os w = w := by
  unfold installLowLevel
  rw [if_neg (by omega)]

/-- When `install` returns, the handles `g_mouseLL` and `g_keyboardLL` are
both set or both `NULL`: with the low-level hooks compiled in
(`_WIN32_WINNT >= 0x0400`) and a message thread recorded, from every state
and for every result of the `SetWindowsHookEx` calls; in every build and
also with no message thread recorded, from every state in which the two are
both set or both `NULL`. -/
theorem install_lowlevel_handles (WIN32_WINNT : Nat) (os : Win32 σ) (w : World σ) :
    (0x0400 ≤ WIN32_WINNT → w.g.g_threadID ≠ 0 →
      ((install WIN32_WINNT os w).2.g.g_mouseLL ≠ 0 ↔
        (install WIN32_WINNT os w).2.g.g_keyboardLL ≠ 0)) ∧
    ((w.g.g_mouseLL ≠ 0 ↔ w.g.g_keyboardLL ≠ 0) →
      ((install WIN32_WINNT os w).2.g.g_mouseLL ≠ 0 ↔
        (install WIN32_WINNT os w).2.g.g_keyboardLL ≠ 0)) := by
  have main : ∀ v : World σ,
      ((installRegular os (installLowLevel WIN32_WINNT os (installGetMessage os v))).g.g_mouseLL
          ≠ 0 ↔
        (installRegular os (installLowLevel WIN32_WINNT os (installGetMessage os v))).g.g_keyboardLL
          ≠ 0) →
      w.g.g_threadID ≠ 0 →
      v = { (getWheelSupport os
              { w with g := { w.g with g_deadVirtKey := 0, g_deadLParam := 0 } }).2 with
            g := { (getWheelSupport os
              { w with g := { w.g with g_deadVirtKey := 0, g_deadLParam := 0 } }).2.g with
              g_wheelSupport := (getWheelSupport os
                { w with g := { w.g with g_deadVirtKey := 0, g_deadLParam := 0 } }).1 } } →
      ((install WIN32_WINNT os w).2.g.g_mouseLL ≠ 0 ↔
        (install WIN32_WINNT os w).2.g.g_keyboardLL ≠ 0) := by
    intro v hv ht hveq
    unfold install
    rw [if_neg ht]
    dsimp only
    rw [← hveq]
    split_ifs
    · rw [uninstall_g]
    · exact hv
    · exact hv
  refine ⟨?_, ?_⟩
  · intro hW ht
    refine main _ ?_ ht rfl
    rw [(installRegular_g_lowlevel os _).1, (installRegular_g_lowlevel os _).2]
    exact installLowLevel_pair WIN32_WINNT os _ hW
  · intro hw
    by_cases ht : w.g.g_threadID = 0
    · unfold install
      rw [if_pos ht]
      exact hw
    · refine main _ ?_ ht rfl
      rw [(installRegular_g_lowlevel os _).1, (installRegular_g_lowlevel os _).2]
      by_cases hW : 0x0400 ≤ WIN32_WINNT
      · exact installLowLevel_pair WIN32_WINNT os _ hW
      · rw [installLowLevel_of_lt WIN32_WINNT os _ (by omega),
          (installGetMessage_g_lowlevel os _).1, (installGetMessage_g_lowlevel os _).2]
        dsimp only
        rw [getWheelSupport_g]
        exact hw

/-! ## The control calls -/

/-- C12. With no message thread recorded (`g_threadID` is `0`), `install`
returns `kHOOK_FAILED` and `installScreenSaver` returns `0`, and each
returns the world it was given: globals, system state, posted messages and
the list of system calls (so no `SetWindowsHookEx` is attempted) are as
they were. -/
theorem install_not_ready (WIN32_WINNT : Nat) (os : Win32 σ) (w : World σ)
    (h : w.g.g_threadID = 0) :
    install WIN32_WINNT os w = (EHookResult.kHOOK_FAILED, w) ∧
    installScreenSaver os w = (0, w) := by
  unfold install installScreenSaver
  rw [if_pos h, if_pos h]
  exact ⟨rfl, rfl⟩

/-- Witness of C12: `demoWorld` has no message thread. -/
theorem install_not_ready_witness :
    demoWorld.g.g_threadID = 0 ∧
    install 0x0500 demoWin32 demoWorld = (EHookResult.kHOOK_FAILED, demoWorld) ∧
    installScreenSaver demoWin32 demoWorld = (0, demoWorld) :=
  ⟨rfl, install_not_ready 0x0500 demoWin32 demoWorld rfl⟩

/-- C16. `init` called by the process recorded in `g_processID` returns `1`
whatever the state: it sets the mode to disabled, the sides, the zone size
and the screen rectangle to `0` and `g_threadID` to its argument, and
changes nothing else.  `OpenProcess` has no part in it: the result is the
same whatever `OpenProcess` answers.  A second call by the same process
returns `1` again and gives the world of a single call with the second
thread. -/
theorem init_by_owner (os : Win32 σ) (w : World σ) (threadID threadID' : Nat)
    (f : σ → Nat → Nat → Nat)
    (h : w.g.g_processID = os.GetCurrentProcessId w.sys) :
    init os w threadID =
      (1, { w with g := { w.g with
        g_threadID := threadID
        g_mode := EHookMode.kHOOK_DISABLE
        g_zoneSides := 0
        g_zoneSize := 0
        g_xScreen := 0
        g_yScreen := 0
        g_wScreen := 0
        g_hScreen := 0 } }) ∧
    init { os with OpenProcess := f } w threadID = init os w threadID ∧
    init os (init os w threadID).2 threadID' = init os w threadID' := by
  have key : ∀ (o : Win32 σ) (v : World σ) (t : Nat),
      v.g.g_processID = o.GetCurrentProcessId v.sys →
      init o v t =
        (1, { v with g := { v.g with
          g_threadID := t
          g_mode := EHookMode.kHOOK_DISABLE
          g_zoneSides := 0
          g_zoneSize := 0
          g_xScreen := 0
          g_yScreen := 0
          g_wScreen := 0
          g_hScreen := 0 } }) := by
    intro o v t hv
    unfold init
    dsimp only
    rw [if_neg (fun hc => hc.2 hv)]
  refine ⟨key os w threadID h, ?_, ?_⟩
  · rw [key os w threadID h, key { os with OpenProcess := f } w threadID h]
  · have e := key os w threadID h
    have h2 : (init os w threadID).2.g.g_processID =
        os.GetCurrentProcessId (init os w threadID).2.sys := by
      rw [e]; exact h
    rw [key os (init os w threadID).2 threadID' h2, key os w threadID' h, e]

/-- Witness of C16: process `7` owns `budgetWorld` and calls `init`. -/
theorem init_by_owner_witness :
    budgetWorld.g.g_processID = budgetWin32.GetCurrentProcessId budgetWorld.sys ∧
    (init budgetWin32 budgetWorld 43).1 = 1 ∧
    (init budgetWin32 budgetWorld 43).2.g.g_threadID = 43 :=
  ⟨rfl,
    congrArg Prod.fst (init_by_owner budgetWin32 budgetWorld 43 44 (fun _ _ _ => 0) rfl).1,
    congrArg (fun r => r.2.g.g_threadID)
      (init_by_owner budgetWin32 budgetWorld 43 44 (fun _ _ _ => 0) rfl).1⟩

/-- C17. `init` called by a process other than the recorded one
(`g_processID` is neither `0` nor the caller).  If `OpenProcess` opens the
recorded process, the call returns `0`, closes the handle and leaves every
global and the posted messages as they were.  If `OpenProcess` fails, the
call returns `1`: the caller is recorded in `g_processID`, the five hook
handles are `NULL`, the wheel support is none, the screen saver flag is
off, the mode is disabled, the sides, zone size and screen rectangle are
`0` and `g_threadID` is the argument. -/
theorem init_by_other_process (os : Win32 σ) (w : World σ) (threadID : Nat)
    (h0 : w.g.g_processID ≠ 0)
    (h1 : w.g.g_processID ≠ os.GetCurrentProcessId w.sys) :
    (os.OpenProcess w.sys STANDARD_RIGHTS_REQUIRED w.g.g_processID ≠ 0 →
      (init os w threadID).1 = 0 ∧
      (init os w threadID).2.g = w.g ∧
      (init os w threadID).2.posted = w.posted ∧
      (init os w threadID).2.calls = w.calls ++
        [SysCall.CloseHandle (os.OpenProcess w.sys STANDARD_RIGHTS_REQUIRED w.g.g_processID)]) ∧
    (os.OpenProcess w.sys STANDARD_RIGHTS_REQUIRED w.g.g_processID = 0 →
      init os w threadID =
        (1, { w with g := { w.g with
          g_hinstance := os.GetModuleHandle w.sys "synrgyhk"
          g_processID := os.GetCurrentProcessId w.sys
          g_wheelSupport := EWheelSupport.kWheelNone
          g_keyboard := 0
          g_mouse := 0
          g_getMessage := 0
          g_keyboardLL := 0
          g_mouseLL := 0
          g_screenSaver := false
          g_threadID := threadID
          g_mode := EHookMode.kHOOK_DISABLE
          g_zoneSides := 0
          g_zoneSize := 0
          g_xScreen := 0
          g_yScreen := 0
          g_wScreen := 0
          g_hScreen := 0 } })) := by
  refine ⟨?_, ?_⟩
  · intro ho
    unfold init
    dsimp only
    rw [if_pos ⟨h0, h1⟩, if_pos ho]
    exact ⟨rfl, rfl, rfl, rfl⟩
  · intro ho
    unfold init
    dsimp only
    rw [if_pos ⟨h0, h1⟩, if_neg (not_not.2 ho)]

/-- Witness of C17: process `8` calls `init` on `budgetWorld`, owned by the
live process `7`, and is refused. -/
theorem init_by_other_process_witness :
    budgetWorld.g.g_processID ≠ 0 ∧
    budgetWorld.g.g_processID ≠
      budgetWin32.GetCurrentProcessId
        ({ budgetWorld with sys := { budgetWorld.sys with currentProcess := 8 } } :
          World BudgetSys).sys ∧
    (init budgetWin32
      { budgetWorld with sys := { budgetWorld.sys with currentProcess := 8 } } 43).1 = 0 :=
  ⟨by decide, by decide,
    ((init_by_other_process budgetWin32
      { budgetWorld with sys := { budgetWorld.sys with currentProcess := 8 } } 43
      (by decide) (by decide)).1 (by decide)).1⟩

/-- C18. `cleanup` always returns `1`.  Called by the process recorded in
`g_processID` it sets `g_threadID` to `0` and changes nothing else; called
by any other process it changes nothing; a second call gives what the
first call gave. -/
theorem cleanup_frame (os : Win32 σ) (w : World σ) :
    (cleanup os w).1 = 1 ∧
    (w.g.g_processID = os.GetCurrentProcessId w.sys →
      (cleanup os w).2 = { w with g := { w.g with g_threadID := 0 } }) ∧
    (w.g.g_processID ≠ os.GetCurrentProcessId w.sys → (cleanup os w).2 = w) ∧
    cleanup os (cleanup os w).2 = cleanup os w := by
  by_cases h : w.g.g_processID = os.GetCurrentProcessId w.sys
  · have e : cleanup os w = (1, { w with g := { w.g with g_threadID := 0 } }) := by
      unfold cleanup
      rw [if_pos h]
    refine ⟨by rw [e], fun _ => by rw [e], fun hc => absurd h hc, ?_⟩
    rw [e]
    unfold cleanup
    dsimp only
    rw [if_pos h]
  · have e : cleanup os w = (1, w) := by
      unfold cleanup
      rw [if_neg h]
    refine ⟨by rw [e], fun hc => absurd hc h, fun _ => by rw [e], ?_⟩
    rw [e]
    exact e

/-- Witness of C18: the owner of `budgetWorld` calls `cleanup`. -/
theorem cleanup_frame_witness :
    budgetWorld.g.g_processID = budgetWin32.GetCurrentProcessId budgetWorld.sys ∧
    (cleanup budgetWin32 budgetWorld).2 =
      { budgetWorld with g := { budgetWorld.g with g_threadID := 0 } } :=
  ⟨rfl, (cleanup_frame budgetWin32 budgetWorld).2.1 rfl⟩

/-- C20, as stated, fails: on a system whose version query fails,
`getWheelSupport` returns `kWheelNone`. -/
theorem getWheelSupport_none_without_version :
    budgetWin32.GetVersionEx
      ({ budgetWorld with sys := { budgetWorld.sys with version := none } } :
        World BudgetSys).sys = none ∧
    (getWheelSupport budgetWin32
      { budgetWorld with sys := { budgetWorld.sys with version := none } }).1 =
        EWheelSupport.kWheelNone := by
  decide

/-- C20, amended. When the version query fails `getWheelSupport` returns
`kWheelNone` and changes nothing.  When it succeeds the result is never
`kWheelNone`: it is `kWheelWin2000` when the wheel metric is set and the
system is NT 5.0; `kWheelModern` when the metric is set on any other
system; `kWheelOld` when the metric is unset, the support message
registers, the helper window is found, it answers the support message with
non-zero and the wheel message registers, and then `g_wmMouseWheel` holds
the wheel message; and `kWheelModern` in every remaining case. -/
theorem getWheelSupport_cases (os : Win32 σ) (w : World σ) :
    (os.GetVersionEx w.sys = none →
      getWheelSupport os w = (EWheelSupport.kWheelNone, w)) ∧
    (∀ info : OSVERSIONINFO, os.GetVersionEx w.sys = some info →
      (getWheelSupport os w).1 ≠ EWheelSupport.kWheelNone ∧
      (os.GetSystemMetrics w.sys SM_MOUSEWHEELPRESENT ≠ 0 →
        (info.dwPlatformId = VER_PLATFORM_WIN32_NT ∧ info.dwMajorVersion = 5 ∧
          info.dwMinorVersion = 0) →
        (getWheelSupport os w).1 = EWheelSupport.kWheelWin2000) ∧
      (os.GetSystemMetrics w.sys SM_MOUSEWHEELPRESENT ≠ 0 →
        ¬ (info.dwPlatformId = VER_PLATFORM_WIN32_NT ∧ info.dwMajorVersion = 5 ∧
          info.dwMinorVersion = 0) →
        (getWheelSupport os w).1 = EWheelSupport.kWheelModern) ∧
      (os.GetSystemMetrics w.sys SM_MOUSEWHEELPRESENT = 0 →
        (os.FindWindow w.sys MSH_WHEELMODULE_CLASS MSH_WHEELMODULE_TITLE ≠ 0 ∧
          os.RegisterWindowMessage w.sys MSH_WHEELSUPPORT ≠ 0 ∧
          os.SendMessage w.sys (os.FindWindow w.sys MSH_WHEELMODULE_CLASS MSH_WHEELMODULE_TITLE)
            (os.RegisterWindowMessage w.sys MSH_WHEELSUPPORT) 0 0 ≠ 0 ∧
          os.RegisterWindowMessage w.sys MSH_MOUSEWHEEL ≠ 0) →
        (getWheelSupport os w).1 = EWheelSupport.kWheelOld ∧
        (getWheelSupport os w).2.g.g_wmMouseWheel =
          os.RegisterWindowMessage w.sys MSH_MOUSEWHEEL) ∧
      (os.GetSystemMetrics w.sys SM_MOUSEWHEELPRESENT = 0 →
        ¬ (os.FindWindow w.sys MSH_WHEELMODULE_CLASS MSH_WHEELMODULE_TITLE ≠ 0 ∧
          os.RegisterWindowMessage w.sys MSH_WHEELSUPPORT ≠ 0 ∧
          os.SendMessage w.sys (os.FindWindow w.sys MSH_WHEELMODULE_CLASS MSH_WHEELMODULE_TITLE)
            (os.RegisterWindowMessage w.sys MSH_WHEELSUPPORT) 0 0 ≠ 0 ∧
          os.RegisterWindowMessage w.sys MSH_MOUSEWHEEL ≠ 0) →
        (getWheelSupport os w).1 = EWheelSupport.kWheelModern)) := by
  refine ⟨?_, ?_⟩
  · intro hv
    unfold getWheelSupport
    rw [hv]
  · intro info hv
    unfold getWheelSupport
    rw [hv]
    dsimp only
    refine ⟨?_, ?_, ?_, ?_, ?_⟩
    · split_ifs <;> simp
    · intro hf hnt
      rw [if_pos hf, if_pos hnt]
    · intro hf hnt
      rw [if_pos hf, if_neg hnt]
    · rintro hf ⟨h1, h2, h3, h4⟩
      rw [if_neg (not_not.2 hf), if_pos ⟨h1, h2⟩, if_pos h3, if_pos h4]
      exact ⟨rfl, rfl⟩
    · intro hf hn
      rw [if_neg (not_not.2 hf)]
      split_ifs with h1 h2 h3
      · exact absurd ⟨h1.1, h1.2, h2, h3⟩ hn
      · rfl
      · rfl
      · rfl

/-- Witness of amended C20: `budgetWorld` runs NT 5.1 with the wheel metric
set. -/
theorem getWheelSupport_cases_witness :
    budgetWin32.GetVersionEx budgetWorld.sys = some ⟨VER_PLATFORM_WIN32_NT, 5, 1⟩ ∧
    budgetWin32.GetSystemMetrics budgetWorld.sys SM_MOUSEWHEELPRESENT ≠ 0 ∧
    (getWheelSupport budgetWin32 budgetWorld).1 = EWheelSupport.kWheelModern :=
  ⟨rfl, by decide,
    ((getWheelSupport_cases budgetWin32 budgetWorld).2 ⟨VER_PLATFORM_WIN32_NT, 5, 1⟩ rfl).2.2.1
      (by decide) (by decide)⟩

/-! ## Frames of the stages of `install` and `uninstall` -/

theorem installGetMessage_frame (os : Win32 σ) (w : World σ) :
    (installGetMessage os w).g =
      { w.g with g_getMessage := (installGetMessage os w).g.g_getMessage } := by
  unfold installGetMessage SetWindowsHookEx
  split_ifs <;> rfl

theorem installLowLevel_frame (WIN32_WINNT : Nat) (os : Win32 σ) (w : World σ) :
    (installLowLevel WIN32_WINNT os w).g =
      { w.g with
        g_mouseLL := (installLowLevel WIN32_WINNT os w).g.g_mouseLL
        g_keyboardLL := (installLowLevel WIN32_WINNT os w).g.g_keyboardLL } := by
  unfold installLowLevel
  split_ifs with h
  · dsimp only
    split_ifs
    · rw [unhookMouseLL_g, unhookKeyboardLL_g]
      rfl
    · rfl
  · rfl

theorem installRegular_frame (os : Win32 σ) (w : World σ) :
    (installRegular os w).g =
      { w.g with
        g_mouse := (installRegular os w).g.g_mouse
        g_keyboard := (installRegular os w).g.g_keyboard } := by
  unfold installRegular SetWindowsHookEx
  dsimp only
  split_ifs <;> rfl

theorem install_eq (WIN32_WINNT : Nat) (os : Win32 σ) (w : World σ) :
    install WIN32_WINNT os w =
      if w.g.g_threadID = 0 then (EHookResult.kHOOK_FAILED, w)
      else if ((installAttempts WIN32_WINNT os w).g.g_getMessage = 0 ∧
            (installAttempts WIN32_WINNT os w).g.g_wheelSupport = EWheelSupport.kWheelOld) ∨
          ((installAttempts WIN32_WINNT os w).g.g_keyboardLL = 0 ∧
            (installAttempts WIN32_WINNT os w).g.g_keyboard = 0) ∨
          ((installAttempts WIN32_WINNT os w).g.g_mouseLL = 0 ∧
            (installAttempts WIN32_WINNT os w).g.g_mouse = 0) then
        (EHookResult.kHOOK_FAILED, (uninstall os (installAttempts WIN32_WINNT os w)).2)
      else if (installAttempts WIN32_WINNT os w).g.g_keyboardLL ≠ 0 ∨
          (installAttempts WIN32_WINNT os w).g.g_mouseLL ≠ 0 then
        (EHookResult.kHOOK_OKAY_LL,
          { installAttempts WIN32_WINNT os w with
            g := { (installAttempts WIN32_WINNT os w).g with
              g_hookThread :=
                os.GetCurrentThreadId (installAttempts WIN32_WINNT os w).sys } })
      else (EHookResult.kHOOK_OKAY, installAttempts WIN32_WINNT os w) := rfl

/-- The globals at the check of `install`, against those at its entry. -/
theorem installAttempts_frame (WIN32_WINNT : Nat) (os : Win32 σ) (w : World σ) :
    (installAttempts WIN32_WINNT os w).g =
      { w.g with
        g_deadVirtKey := 0
        g_deadLParam := 0
        g_wmMouseWheel := (installAttempts WIN32_WINNT os w).g.g_wmMouseWheel
        g_wheelSupport := (installAttempts WIN32_WINNT os w).g.g_wheelSupport
        g_getMessage := (installAttempts WIN32_WINNT os w).g.g_getMessage
        g_mouseLL := (installAttempts WIN32_WINNT os w).g.g_mouseLL
        g_keyboardLL := (installAttempts WIN32_WINNT os w).g.g_keyboardLL
        g_mouse := (installAttempts WIN32_WINNT os w).g.g_mouse
        g_keyboard := (installAttempts WIN32_WINNT os w).g.g_keyboard } := by
  unfold installAttempts
  dsimp only
  rw [installRegular_frame, installLowLevel_frame, installGetMessage_frame]
  dsimp only
  rw [getWheelSupport_g]

theorem detachThread_calls (os : Win32 σ) (w : World σ) :
    (detachThread os w).calls =
      w.calls ++
        (if w.g.g_attachedThread ≠ 0 then
          [SysCall.AttachThreadInput w.g.g_hookThread w.g.g_attachedThread false]
        else []) := by
  unfold detachThread AttachThreadInput
  split_ifs <;> simp

theorem unhookKeyboardLL_calls (os : Win32 σ) (w : World σ) :
    (unhookKeyboardLL os w).calls =
      w.calls ++
        (if w.g.g_keyboardLL ≠ 0 then [SysCall.UnhookWindowsHookEx w.g.g_keyboardLL]
        else []) := by
  unfold unhookKeyboardLL UnhookWindowsHookEx
  split_ifs <;> simp

theorem unhookMouseLL_calls (os : Win32 σ) (w : World σ) :
    (unhookMouseLL os w).calls =
      w.calls ++
        (if w.g.g_mouseLL ≠ 0 then [SysCall.UnhookWindowsHookEx w.g.g_mouseLL] else []) := by
  unfold unhookMouseLL UnhookWindowsHookEx
  split_ifs <;> simp

theorem unhookKeyboard_calls (os : Win32 σ) (w : World σ) :
    (unhookKeyboard os w).calls =
      w.calls ++
        (if w.g.g_keyboard ≠ 0 then [SysCall.UnhookWindowsHookEx w.g.g_keyboard] else []) := by
  unfold unhookKeyboard UnhookWindowsHookEx
  split_ifs <;> simp

theorem unhookMouse_calls (os : Win32 σ) (w : World σ) :
    (unhookMouse os w).calls =
      w.calls ++
        (if w.g.g_mouse ≠ 0 then [SysCall.UnhookWindowsHookEx w.g.g_mouse] else []) := by
  unfold unhookMouse UnhookWindowsHookEx
  split_ifs <;> simp

theorem unhookGetMessage_calls (os : Win32 σ) (w : World σ) :
    (unhookGetMessage os w).calls =
      w.calls ++
        (if w.g.g_getMessage ≠ 0 ∧ ¬ (w.g.g_screenSaver = true) then
          [SysCall.UnhookWindowsHookEx w.g.g_getMessage]
        else []) := by
  unfold unhookGetMessage UnhookWindowsHookEx
  split_ifs <;> simp

/-- The system calls `uninstall` makes, in order. -/
theorem uninstall_calls (os : Win32 σ) (w : World σ) :
    (uninstall os w).2.calls =
      w.calls ++
        ((if w.g.g_attachedThread ≠ 0 then
            [SysCall.AttachThreadInput w.g.g_hookThread w.g.g_attachedThread false]
          else []) ++
         (if w.g.g_keyboardLL ≠ 0 then [SysCall.UnhookWindowsHookEx w.g.g_keyboardLL]
          else []) ++
         (if w.g.g_mouseLL ≠ 0 then [SysCall.UnhookWindowsHookEx w.g.g_mouseLL] else []) ++
         (if w.g.g_keyboard ≠ 0 then [SysCall.UnhookWindowsHookEx w.g.g_keyboard] else []) ++
         (if w.g.g_mouse ≠ 0 then [SysCall.UnhookWindowsHookEx w.g.g_mouse] else []) ++
         (if w.g.g_getMessage ≠ 0 ∧ ¬ (w.g.g_screenSaver = true) then
            [SysCall.UnhookWindowsHookEx w.g.g_getMessage]
          else [])) := by
  unfold uninstall
  dsimp only
  rw [unhookGetMessage_calls, unhookMouse_calls, unhookKeyboard_calls, unhookMouseLL_calls,
    unhookKeyboardLL_calls, detachThread_calls, unhookMouse_g, unhookKeyboard_g,
    unhookMouseLL_g, unhookKeyboardLL_g, detachThread_g]
  simp only [List.append_assoc]

theorem uninstall_posted (os : Win32 σ) (w : World σ) :
    (uninstall os w).2.posted = w.posted := by
  have hd : ∀ v : World σ, (detachThread os v).posted = v.posted := by
    intro v; unfold detachThread AttachThreadInput; split_ifs <;> rfl
  have h1 : ∀ v : World σ, (unhookKeyboardLL os v).posted = v.posted := by
    intro v; unfold unhookKeyboardLL UnhookWindowsHookEx; split_ifs <;> rfl
  have h2 : ∀ v : World σ, (unhookMouseLL os v).posted = v.posted := by
    intro v; unfold unhookMouseLL UnhookWindowsHookEx; split_ifs <;> rfl
  have h3 : ∀ v : World σ, (unhookKeyboard os v).posted = v.posted := by
    intro v; unfold unhookKeyboard UnhookWindowsHookEx; split_ifs <;> rfl
  have h4 : ∀ v : World σ, (unhookMouse os v).posted = v.posted := by
    intro v; unfold unhookMouse UnhookWindowsHookEx; split_ifs <;> rfl
  have h5 : ∀ v : World σ, (unhookGetMessage os v).posted = v.posted := by
    intro v; unfold unhookGetMessage UnhookWindowsHookEx; split_ifs <;> rfl
  unfold uninstall
  dsimp only
  rw [h5, h4, h3, h2, h1, hd]

/-- On a world with nothing to release, `uninstall` changes nothing. -/
theorem uninstall_of_clean (os : Win32 σ) (w : World σ)
    (hd : w.g.g_deadVirtKey = 0) (hl : w.g.g_deadLParam = 0)
    (ha : w.g.g_attachedThread = 0)
    (h1 : w.g.g_keyboardLL = 0) (h2 : w.g.g_mouseLL = 0)
    (h3 : w.g.g_keyboard = 0) (h4 : w.g.g_mouse = 0)
    (h5 : w.g.g_getMessage = 0 ∨ w.g.g_screenSaver = true)
    (h6 : w.g.g_wheelSupport = EWheelSupport.kWheelNone) :
    uninstall os w = (1, w) := by
  have e1 : ({ w with g := { w.g with g_deadVirtKey := 0, g_deadLParam := 0 } } : World σ)
      = w := by
    nth_rewrite 1 [← hd]
    rw [← hl]
  have e2 : detachThread os w = w := by
    unfold detachThread; rw [if_neg (not_not.2 ha)]
  have e3 : unhookKeyboardLL os w = w := by
    unfold unhookKeyboardLL; rw [if_neg (not_not.2 h1)]
  have e4 : unhookMouseLL os w = w := by
    unfold unhookMouseLL; rw [if_neg (not_not.2 h2)]
  have e5 : unhookKeyboard os w = w := by
    unfold unhookKeyboard; rw [if_neg (not_not.2 h3)]
  have e6 : unhookMouse os w = w := by
    unfold unhookMouse; rw [if_neg (not_not.2 h4)]
  have e7 : unhookGetMessage os w = w := by
    unfold unhookGetMessage
    rw [if_neg]
    rintro ⟨hn, hs⟩
    rcases h5 with h | h
    · exact hn h
    · exact hs h
  have e8 : ({ w with g := { w.g with g_wheelSupport := EWheelSupport.kWheelNone } } : World σ)
      = w := by
    rw [← h6]
  unfold uninstall
  dsimp only
  rw [e1, e2, e3, e4, e5, e6, e7, e8]

/-- The GetMessage hook after `uninstall`: kept exactly for the screen
saver. -/
theorem uninstall_g_getMessage (os : Win32 σ) (w : World σ) :
    ((uninstall os w).2.g.g_getMessage ≠ 0 ↔
      (w.g.g_getMessage ≠ 0 ∧ w.g.g_screenSaver = true)) ∧
    ((uninstall os w).2.g.g_getMessage ≠ 0 →
      (uninstall os w).2.g.g_getMessage = w.g.g_getMessage) ∧
    (uninstall os w).2.g.g_screenSaver = w.g.g_screenSaver := by
  rw [uninstall_g]
  dsimp only
  by_cases hx : w.g.g_getMessage ≠ 0 ∧ ¬ (w.g.g_screenSaver = true)
  · rw [if_pos hx]
    exact ⟨⟨fun h => absurd rfl h, fun h => absurd h.2 hx.2⟩, fun h => absurd rfl h, rfl⟩
  · rw [if_neg hx]
    refine ⟨⟨fun h => ⟨h, ?_⟩, fun h => h.1⟩, fun _ => rfl, rfl⟩
    by_cases hs : w.g.g_screenSaver = true
    · exact hs
    · exact absurd ⟨h, hs⟩ hx

/-- The probe of the wheel support does not depend on the dead key buffer:
on the world with the buffer cleared it gives the same result and the same
world, with the buffer cleared. -/
theorem getWheelSupport_clear (os : Win32 σ) (w : World σ) :
    getWheelSupport os { w with g := { w.g with g_deadVirtKey := 0, g_deadLParam := 0 } } =
      ((getWheelSupport os w).1,
        { (getWheelSupport os w).2 with
          g := { (getWheelSupport os w).2.g with g_deadVirtKey := 0, g_deadLParam := 0 } }) := by
  unfold getWheelSupport
  dsimp only
  split
  · rfl
  · split_ifs <;> rfl

/-- The probe of the wheel support makes no recorded system call and leaves
the system state and the posted messages as they were. -/
theorem getWheelSupport_sys (os : Win32 σ) (w : World σ) :
    (getWheelSupport os w).2.sys = w.sys ∧ (getWheelSupport os w).2.calls = w.calls ∧
    (getWheelSupport os w).2.posted = w.posted := by
  unfold getWheelSupport
  dsimp only
  split
  · exact ⟨rfl, rfl, rfl⟩
  · split_ifs <;> exact ⟨rfl, rfl, rfl⟩

/-- Lines 749-755, exactly: the GetMessage hook is requested when the wheel
support is the old one and no GetMessage hook is set; the handle the system
returns is stored in `g_getMessage` and the call is recorded. -/
theorem installGetMessage_exact (os : Win32 σ) (v : World σ) :
    (installGetMessage os v).g =
      { v.g with
        g_getMessage :=
          if v.g.g_wheelSupport = EWheelSupport.kWheelOld ∧ v.g.g_getMessage = 0 then
            (os.SetWindowsHookEx v.sys WH_GETMESSAGE v.g.g_hinstance).1
          else v.g.g_getMessage } ∧
    (installGetMessage os v).sys =
      (if v.g.g_wheelSupport = EWheelSupport.kWheelOld ∧ v.g.g_getMessage = 0 then
        (os.SetWindowsHookEx v.sys WH_GETMESSAGE v.g.g_hinstance).2
      else v.sys) ∧
    (installGetMessage os v).calls =
      v.calls ++
        (if v.g.g_wheelSupport = EWheelSupport.kWheelOld ∧ v.g.g_getMessage = 0 then
          [SysCall.SetWindowsHookEx WH_GETMESSAGE v.g.g_hinstance
            (os.SetWindowsHookEx v.sys WH_GETMESSAGE v.g.g_hinstance).1]
        else []) ∧
    (installGetMessage os v).posted = v.posted := by
  unfold installGetMessage SetWindowsHookEx
  dsimp only
  by_cases h : v.g.g_wheelSupport = EWheelSupport.kWheelOld ∧ v.g.g_getMessage = 0
  · simp only [if_pos h]
    exact ⟨trivial, trivial, trivial, trivial⟩
  · simp only [if_neg h, List.append_nil]
    exact ⟨trivial, trivial, trivial, trivial⟩

/-- Lines 757-779 in a build with the low-level hooks, exactly: the
low-level mouse hook is requested, then the low-level keyboard hook; when
both are granted their handles are stored; when not, the one that was
granted is released with `UnhookWindowsHookEx` and both handles are
`NULL`. -/
theorem installLowLevel_exact (WIN32_WINNT : Nat) (os : Win32 σ) (v : World σ)
    (hW : 0x0400 ≤ WIN32_WINNT) :
    (installLowLevel WIN32_WINNT os v).g =
      { v.g with
        g_mouseLL :=
          if (os.SetWindowsHookEx v.sys WH_MOUSE_LL v.g.g_hinstance).1 ≠ 0 ∧
              (os.SetWindowsHookEx (os.SetWindowsHookEx v.sys WH_MOUSE_LL v.g.g_hinstance).2
                WH_KEYBOARD_LL v.g.g_hinstance).1 ≠ 0 then
            (os.SetWindowsHookEx v.sys WH_MOUSE_LL v.g.g_hinstance).1
          else 0
        g_keyboardLL :=
          if (os.SetWindowsHookEx v.sys WH_MOUSE_LL v.g.g_hinstance).1 ≠ 0 ∧
              (os.SetWindowsHookEx (os.SetWindowsHookEx v.sys WH_MOUSE_LL v.g.g_hinstance).2
                WH_KEYBOARD_LL v.g.g_hinstance).1 ≠ 0 then
            (os.SetWindowsHookEx (os.SetWindowsHookEx v.sys WH_MOUSE_LL v.g.g_hinstance).2
                WH_KEYBOARD_LL v.g.g_hinstance).1
          else 0 } ∧
    (installLowLevel WIN32_WINNT os v).sys =
      (if (os.SetWindowsHookEx v.sys WH_MOUSE_LL v.g.g_hinstance).1 ≠ 0 ∧
          (os.SetWindowsHookEx (os.SetWindowsHookEx v.sys WH_MOUSE_LL v.g.g_hinstance).2
            WH_KEYBOARD_LL v.g.g_hinstance).1 ≠ 0 then
        (os.SetWindowsHookEx (os.SetWindowsHookEx v.sys WH_MOUSE_LL v.g.g_hinstance).2
            WH_KEYBOARD_LL v.g.g_hinstance).2
      else
        if (os.SetWindowsHookEx v.sys WH_MOUSE_LL v.g.g_hinstance).1 ≠ 0 then
          os.UnhookWindowsHookEx
            (if (os.SetWindowsHookEx (os.SetWindowsHookEx v.sys WH_MOUSE_LL v.g.g_hinstance).2
                WH_KEYBOARD_LL v.g.g_hinstance).1 ≠ 0 then
              os.UnhookWindowsHookEx
                (os.SetWindowsHookEx (os.SetWindowsHookEx v.sys WH_MOUSE_LL v.g.g_hinstance).2
                  WH_KEYBOARD_LL v.g.g_hinstance).2
                (os.SetWindowsHookEx (os.SetWindowsHookEx v.sys WH_MOUSE_LL v.g.g_hinstance).2
                  WH_KEYBOARD_LL v.g.g_hinstance).1
            else
              (os.SetWindowsHookEx (os.SetWindowsHookEx v.sys WH_MOUSE_LL v.g.g_hinstance).2
                WH_KEYBOARD_LL v.g.g_hinstance).2)
            (os.SetWindowsHookEx v.sys WH_MOUSE_LL v.g.g_hinstance).1
        else
          if (os.SetWindowsHookEx (os.SetWindowsHookEx v.sys WH_MOUSE_LL v.g.g_hinstance).2
              WH_KEYBOARD_LL v.g.g_hinstance).1 ≠ 0 then
            os.UnhookWindowsHookEx
              (os.SetWindowsHookEx (os.SetWindowsHookEx v.sys WH_MOUSE_LL v.g.g_hinstance).2
                WH_KEYBOARD_LL v.g.g_hinstance).2
              (os.SetWindowsHookEx (os.SetWindowsHookEx v.sys WH_MOUSE_LL v.g.g_hinstance).2
                WH_KEYBOARD_LL v.g.g_hinstance).1
          else
            (os.SetWindowsHookEx (os.SetWindowsHookEx v.sys WH_MOUSE_LL v.g.g_hinstance).2
              WH_KEYBOARD_LL v.g.g_hinstance).2) ∧
    (installLowLevel WIN32_WINNT os v).calls =
      v.calls ++
        ([SysCall.SetWindowsHookEx WH_MOUSE_LL v.g.g_hinstance
            (os.SetWindowsHookEx v.sys WH_MOUSE_LL v.g.g_hinstance).1,
          SysCall.SetWindowsHookEx WH_KEYBOARD_LL v.g.g_hinstance
            (os.SetWindowsHookEx (os.SetWindowsHookEx v.sys WH_MOUSE_LL v.g.g_hinstance).2
              WH_KEYBOARD_LL v.g.g_hinstance).1] ++
         (if (os.SetWindowsHookEx v.sys WH_MOUSE_LL v.g.g_hinstance).1 ≠ 0 ∧
              (os.SetWindowsHookEx (os.SetWindowsHookEx v.sys WH_MOUSE_LL v.g.g_hinstance).2
                WH_KEYBOARD_LL v.g.g_hinstance).1 ≠ 0 then []
          else
            (if (os.SetWindowsHookEx (os.SetWindowsHookEx v.sys WH_MOUSE_LL v.g.g_hinstance).2
                WH_KEYBOARD_LL v.g.g_hinstance).1 ≠ 0 then
              [SysCall.UnhookWindowsHookEx
                (os.SetWindowsHookEx (os.SetWindowsHookEx v.sys WH_MOUSE_LL v.g.g_hinstance).2
                  WH_KEYBOARD_LL v.g.g_hinstance).1]
            else []) ++
            (if (os.SetWindowsHookEx v.sys WH_MOUSE_LL v.g.g_hinstance).1 ≠ 0 then
              [SysCall.UnhookWindowsHookEx
                (os.SetWindowsHookEx v.sys WH_MOUSE_LL v.g.g_hinstance).1]
            else []))) ∧
    (installLowLevel WIN32_WINNT os v).posted = v.posted := by
  unfold installLowLevel
  rw [if_pos hW]
  unfold unhookMouseLL unhookKeyboardLL SetWindowsHookEx UnhookWindowsHookEx
  dsimp only
  generalize os.SetWindowsHookEx v.sys WH_MOUSE_LL v.g.g_hinstance = rm
  obtain ⟨m, sm⟩ := rm
  dsimp only
  generalize os.SetWindowsHookEx sm WH_KEYBOARD_LL v.g.g_hinstance = rk
  obtain ⟨k, sk⟩ := rk
  dsimp only
  by_cases hm : m = 0 <;> by_cases hk : k = 0 <;>
    simp [hm, hk]

/-- Lines 781-793, exactly: the regular mouse hook is requested when no
low-level mouse hook is set, then the regular keyboard hook when no
low-level keyboard hook is set; each handle the system returns is stored
and each call is recorded. -/
theorem installRegular_exact (os : Win32 σ) (v : World σ) :
    (installRegular os v).g =
      { v.g with
        g_mouse :=
          if v.g.g_mouseLL = 0 then (os.SetWindowsHookEx v.sys WH_MOUSE v.g.g_hinstance).1
          else v.g.g_mouse
        g_keyboard :=
          if v.g.g_keyboardLL = 0 then
            (os.SetWindowsHookEx
              (if v.g.g_mouseLL = 0 then (os.SetWindowsHookEx v.sys WH_MOUSE v.g.g_hinstance).2
                else v.sys)
              WH_KEYBOARD v.g.g_hinstance).1
          else v.g.g_keyboard } ∧
    (installRegular os v).sys =
      (if v.g.g_keyboardLL = 0 then
        (os.SetWindowsHookEx
          (if v.g.g_mouseLL = 0 then (os.SetWindowsHookEx v.sys WH_MOUSE v.g.g_hinstance).2
            else v.sys)
          WH_KEYBOARD v.g.g_hinstance).2
      else
        if v.g.g_mouseLL = 0 then (os.SetWindowsHookEx v.sys WH_MOUSE v.g.g_hinstance).2
        else v.sys) ∧
    (installRegular os v).calls =
      v.calls ++
        ((if v.g.g_mouseLL = 0 then
            [SysCall.SetWindowsHookEx WH_MOUSE v.g.g_hinstance
              (os.SetWindowsHookEx v.sys WH_MOUSE v.g.g_hinstance).1]
          else []) ++
         (if v.g.g_keyboardLL = 0 then
            [SysCall.SetWindowsHookEx WH_KEYBOARD v.g.g_hinstance
              (os.SetWindowsHookEx
                (if v.g.g_mouseLL = 0 then
                  (os.SetWindowsHookEx v.sys WH_MOUSE v.g.g_hinstance).2
                else v.sys)
                WH_KEYBOARD v.g.g_hinstance).1]
          else [])) ∧
    (installRegular os v).posted = v.posted := by
  unfold installRegular SetWindowsHookEx
  dsimp only
  by_cases hm : v.g.g_mouseLL = 0 <;> by_cases hk : v.g.g_keyboardLL = 0 <;>
    simp [hm, hk]

/-- The world at the check of line 796, exactly, in terms of the answers of
the system: the handles stored are the ones the system returned to the
requests, the system state is the one left by the last call, and the calls
recorded are the requests of lines 749-793 with the release of a lone
low-level hook. -/
theorem installAttempts_exact (WIN32_WINNT : Nat) (os : Win32 σ) (w : World σ) :
    (installAttempts WIN32_WINNT os w).g =
      { w.g with
        g_deadVirtKey := 0
        g_deadLParam := 0
        g_wmMouseWheel := (getWheelSupport os w).2.g.g_wmMouseWheel
        g_wheelSupport := (getWheelSupport os w).1
        g_getMessage := (grantGetMessage os w).1
        g_mouseLL := lowLevelMouse WIN32_WINNT os w
        g_keyboardLL := lowLevelKeyboard WIN32_WINNT os w
        g_mouse := (grantMouse WIN32_WINNT os w).1
        g_keyboard := (grantKeyboard WIN32_WINNT os w).1 } ∧
    (installAttempts WIN32_WINNT os w).sys = (grantKeyboard WIN32_WINNT os w).2 ∧
    (installAttempts WIN32_WINNT os w).calls =
      w.calls ++ (getMessageCalls os w ++ lowLevelCalls WIN32_WINNT os w ++
        regularCalls WIN32_WINNT os w) ∧
    (installAttempts WIN32_WINNT os w).posted = w.posted := by
  unfold installAttempts
  dsimp only
  rw [getWheelSupport_clear]
  dsimp only
  obtain ⟨hws, hwc, hwp⟩ := getWheelSupport_sys os w
  have hwg := getWheelSupport_g os w
  generalize hv : ({ (getWheelSupport os w).2 with
      g := { (getWheelSupport os w).2.g with
        g_deadVirtKey := 0, g_deadLParam := 0,
        g_wheelSupport := (getWheelSupport os w).1 } } : World σ) = v
  have hs : v.sys = w.sys := by rw [← hv]; exact hws
  have hc : v.calls = w.calls := by rw [← hv]; exact hwc
  have hp : v.posted = w.posted := by rw [← hv]; exact hwp
  have hg : v.g = { w.g with
      g_deadVirtKey := 0, g_deadLParam := 0,
      g_wmMouseWheel := (getWheelSupport os w).2.g.g_wmMouseWheel,
      g_wheelSupport := (getWheelSupport os w).1 } := by
    rw [← hv]
    dsimp only
    rw [hwg]
  clear hv hws hwc hwp hwg
  -- the GetMessage hook
  obtain ⟨hAg, hAs, hAc, hAp⟩ := installGetMessage_exact os v
  rw [hg, hs] at hAs
  rw [hg, hs, hc] at hAc
  rw [hp] at hAp
  rw [hg, hs] at hAg
  dsimp only at hAg hAs hAc
  have hAs2 : (installGetMessage os v).sys = (grantGetMessage os w).2 := by
    rw [hAs]
    unfold grantGetMessage getMessageRequested
    split_ifs <;> rfl
  have hAc2 : (installGetMessage os v).calls = w.calls ++ getMessageCalls os w := by
    rw [hAc]
    unfold getMessageCalls grantGetMessage getMessageRequested
    split_ifs <;> rfl
  have hAg2 : (installGetMessage os v).g =
      { w.g with
        g_deadVirtKey := 0, g_deadLParam := 0,
        g_wmMouseWheel := (getWheelSupport os w).2.g.g_wmMouseWheel,
        g_wheelSupport := (getWheelSupport os w).1,
        g_getMessage := (grantGetMessage os w).1 } := by
    rw [hAg]
    unfold grantGetMessage getMessageRequested
    split_ifs <;> rfl
  clear hAg hAs hAc
  generalize installGetMessage os v = vA at hAs2 hAc2 hAg2 hAp ⊢
  -- the low-level hooks
  have hB : (installLowLevel WIN32_WINNT os vA).g =
        { vA.g with
          g_mouseLL := lowLevelMouse WIN32_WINNT os w
          g_keyboardLL := lowLevelKeyboard WIN32_WINNT os w } ∧
      (installLowLevel WIN32_WINNT os vA).sys = lowLevelSys WIN32_WINNT os w ∧
      (installLowLevel WIN32_WINNT os vA).calls =
        w.calls ++ (getMessageCalls os w ++ lowLevelCalls WIN32_WINNT os w) ∧
      (installLowLevel WIN32_WINNT os vA).posted = w.posted := by
    have hh : vA.g.g_hinstance = w.g.g_hinstance := by rw [hAg2]
    by_cases hW : 0x0400 ≤ WIN32_WINNT
    · obtain ⟨h1, h2, h3, h4⟩ := installLowLevel_exact WIN32_WINNT os vA hW
      rw [hAs2, hh] at h1 h2 h3
      rw [hAc2] at h3
      rw [hAp] at h4
      unfold lowLevelMouse lowLevelKeyboard lowLevelSys lowLevelCalls
      rw [if_pos hW, if_pos hW, if_pos hW, if_pos hW]
      refine ⟨h1, ?_, ?_, h4⟩
      · rw [h2]
        unfold grantKeyboardLL grantMouseLL
        split_ifs <;> rfl
      · rw [h3, List.append_assoc]
        rfl
    · rw [installLowLevel_of_lt WIN32_WINNT os vA (by omega)]
      unfold lowLevelMouse lowLevelKeyboard lowLevelSys lowLevelCalls
      rw [if_neg hW, if_neg hW, if_neg hW, if_neg hW, List.append_nil]
      refine ⟨?_, hAs2, hAc2, hAp⟩
      rw [hAg2]
  obtain ⟨hBg, hBs, hBc, hBp⟩ := hB
  rw [hAg2] at hBg
  clear hAs2 hAc2 hAg2 hAp
  generalize installLowLevel WIN32_WINNT os vA = vB at hBg hBs hBc hBp ⊢
  -- the regular hooks
  obtain ⟨hCg, hCs, hCc, hCp⟩ := installRegular_exact os vB
  have hh : vB.g.g_hinstance = w.g.g_hinstance := by rw [hBg]
  have hml : vB.g.g_mouseLL = lowLevelMouse WIN32_WINNT os w := by rw [hBg]
  have hkl : vB.g.g_keyboardLL = lowLevelKeyboard WIN32_WINNT os w := by rw [hBg]
  have hm : vB.g.g_mouse = w.g.g_mouse := by rw [hBg]
  have hk : vB.g.g_keyboard = w.g.g_keyboard := by rw [hBg]
  rw [hh, hml, hkl, hm, hk, hBs] at hCg
  rw [hh, hml, hkl, hBs] at hCs hCc
  rw [hBc] at hCc
  rw [hBp] at hCp
  refine ⟨?_, ?_, ?_, hCp⟩
  · rw [hCg, hBg]
    unfold grantKeyboard grantMouse
    split_ifs <;> rfl
  · rw [hCs]
    unfold grantKeyboard grantMouse
    split_ifs <;> rfl
  · rw [hCc]
    unfold regularCalls grantKeyboard grantMouse
    simp only [List.append_assoc]
    split_ifs <;> rfl

/-- With a message thread recorded, `install` exactly, in terms of the
answers of the system: its result, every system call it makes, and the
globals it leaves. -/
theorem install_exact (WIN32_WINNT : Nat) (os : Win32 σ) (w : World σ)
    (ht : w.g.g_threadID ≠ 0) :
    (install WIN32_WINNT os w).1 =
      (if installFails WIN32_WINNT os w then EHookResult.kHOOK_FAILED
       else if lowLevelKeyboard WIN32_WINNT os w ≠ 0 ∨ lowLevelMouse WIN32_WINNT os w ≠ 0 then
        EHookResult.kHOOK_OKAY_LL
       else EHookResult.kHOOK_OKAY) ∧
    (install WIN32_WINNT os w).2.calls = w.calls ++ installCalls WIN32_WINNT os w ∧
    (install WIN32_WINNT os w).2.g =
      (if installFails WIN32_WINNT os w then
        { w.g with
          g_deadVirtKey := 0
          g_deadLParam := 0
          g_attachedThread := 0
          g_wmMouseWheel := (getWheelSupport os w).2.g.g_wmMouseWheel
          g_wheelSupport := EWheelSupport.kWheelNone
          g_getMessage :=
            if (grantGetMessage os w).1 ≠ 0 ∧ ¬ (w.g.g_screenSaver = true) then 0
            else (grantGetMessage os w).1
          g_mouseLL := 0
          g_keyboardLL := 0
          g_mouse := 0
          g_keyboard := 0 }
      else
        { w.g with
          g_deadVirtKey := 0
          g_deadLParam := 0
          g_wmMouseWheel := (getWheelSupport os w).2.g.g_wmMouseWheel
          g_wheelSupport := (getWheelSupport os w).1
          g_getMessage := (grantGetMessage os w).1
          g_mouseLL := lowLevelMouse WIN32_WINNT os w
          g_keyboardLL := lowLevelKeyboard WIN32_WINNT os w
          g_mouse := (grantMouse WIN32_WINNT os w).1
          g_keyboard := (grantKeyboard WIN32_WINNT os w).1
          g_hookThread :=
            if lowLevelKeyboard WIN32_WINNT os w ≠ 0 ∨ lowLevelMouse WIN32_WINNT os w ≠ 0 then
              os.GetCurrentThreadId (grantKeyboard WIN32_WINNT os w).2
            else w.g.g_hookThread }) := by
  obtain ⟨hg, hs, hc, _⟩ := installAttempts_exact WIN32_WINNT os w
  rw [install_eq, if_neg ht]
  have hug := uninstall_g os (installAttempts WIN32_WINNT os w)
  have huc := uninstall_calls os (installAttempts WIN32_WINNT os w)
  rw [hg] at hug huc
  rw [hc] at huc
  rw [hg, hs]
  dsimp only at hug huc ⊢
  by_cases hf : installFails WIN32_WINNT os w
  · have hf2 := hf
    unfold installFails at hf2
    rw [if_pos hf2, if_pos hf, if_pos hf]
    dsimp only
    refine ⟨rfl, ?_, ?_⟩
    · rw [huc]
      unfold installCalls rollbackCalls
      rw [if_pos hf]
      simp only [List.append_assoc]
    · rw [hug]
  · have hf2 := hf
    unfold installFails at hf2
    rw [if_neg hf2, if_neg hf, if_neg hf]
    have hic : installCalls WIN32_WINNT os w =
        getMessageCalls os w ++ lowLevelCalls WIN32_WINNT os w ++
          regularCalls WIN32_WINNT os w := by
      unfold installCalls
      rw [if_neg hf, List.append_nil]
    by_cases hl : lowLevelKeyboard WIN32_WINNT os w ≠ 0 ∨ lowLevelMouse WIN32_WINNT os w ≠ 0
    · rw [if_pos hl, if_pos hl, if_pos hl]
      dsimp only
      exact ⟨rfl, by rw [hc, hic], rfl⟩
    · rw [if_neg hl, if_neg hl, if_neg hl]
      refine ⟨rfl, by rw [hc, hic], ?_⟩
      dsimp only
      rw [hg]

/-- The calls of lines 757-779 leave both low-level hooks installed, or
none. -/
theorem hookBalance_lowLevelCalls (h : Nat) (hh : h ≠ 0) (WIN32_WINNT : Nat) (os : Win32 σ)
    (w : World σ) :
    hookBalance h (lowLevelCalls WIN32_WINNT os w) =
      if 0x0400 ≤ WIN32_WINNT ∧ (grantMouseLL os w).1 ≠ 0 ∧ (grantKeyboardLL os w).1 ≠ 0 then
        (if (grantMouseLL os w).1 = h then 1 else 0) +
          (if (grantKeyboardLL os w).1 = h then 1 else 0)
      else 0 := by
  unfold lowLevelCalls
  by_cases hW : 0x0400 ≤ WIN32_WINNT
  · rw [if_pos hW]
    have hh2 : ¬ (0 = h) := fun e => hh e.symm
    by_cases hm : (grantMouseLL os w).1 = 0 <;> by_cases hk : (grantKeyboardLL os w).1 = 0 <;>
      simp [hW, hm, hk, hookBalance, hh2] <;> split_ifs <;> rfl
  · simp [hW, hookBalance]

/-- The handles after lines 757-779 in a build with the low-level hooks. -/
theorem lowLevel_cases (WIN32_WINNT : Nat) (os : Win32 σ) (w : World σ)
    (hW : 0x0400 ≤ WIN32_WINNT) :
    ((grantMouseLL os w).1 ≠ 0 ∧ (grantKeyboardLL os w).1 ≠ 0 →
      lowLevelMouse WIN32_WINNT os w = (grantMouseLL os w).1 ∧
      lowLevelKeyboard WIN32_WINNT os w = (grantKeyboardLL os w).1) ∧
    (¬ ((grantMouseLL os w).1 ≠ 0 ∧ (grantKeyboardLL os w).1 ≠ 0) →
      lowLevelMouse WIN32_WINNT os w = 0 ∧ lowLevelKeyboard WIN32_WINNT os w = 0) := by
  unfold lowLevelMouse lowLevelKeyboard
  rw [if_pos hW, if_pos hW]
  refine ⟨fun hp => ?_, fun hp => ?_⟩
  · rw [if_pos hp, if_pos hp]
    exact ⟨rfl, rfl⟩
  · rw [if_neg hp, if_neg hp]
    exact ⟨rfl, rfl⟩

/-- In a build without the low-level hooks no call of lines 757-779 is
made. -/
theorem lowLevelCalls_of_lt (WIN32_WINNT : Nat) (os : Win32 σ) (w : World σ)
    (hW : ¬ 0x0400 ≤ WIN32_WINNT) : lowLevelCalls WIN32_WINNT os w = [] := by
  unfold lowLevelCalls
  rw [if_neg hW]

/-- C10. With the low-level hooks compiled in (`_WIN32_WINNT >= 0x0400`)
and a message thread recorded, for every answer of the system to the hook
requests, `install` requests the low-level mouse hook and then the
low-level keyboard hook, once each.  When the system grants both, their
handles are kept in `g_mouseLL` and `g_keyboardLL` and no regular hook is
requested; if `install` then fails, `uninstall` releases both with
`UnhookWindowsHookEx`.  When the system does not grant both, the one that
was granted is released with `UnhookWindowsHookEx` right after the two
requests, before the regular hooks are requested, and no other call
releases a low-level hook.  So the calls of lines 757-779 leave both
low-level hooks installed in the system or none, and when `install`
returns `g_mouseLL` and `g_keyboardLL` are both set, to the two handles the
system granted, or both `NULL`.  In every build, and also with no message
thread recorded, the two are both set or both `NULL` when `install` returns
if they were so at the entry; in a build without the low-level hooks
`install` requests no low-level hook and leaves the two handles as they
were, or `NULL` when it fails. -/
theorem install_lowlevel_pair (WIN32_WINNT : Nat) (os : Win32 σ) (w : World σ) :
    (0x0400 ≤ WIN32_WINNT → w.g.g_threadID ≠ 0 →
      (((install WIN32_WINNT os w).2.g.g_mouseLL ≠ 0 ↔
          (install WIN32_WINNT os w).2.g.g_keyboardLL ≠ 0) ∧
        (install WIN32_WINNT os w).2.calls =
          w.calls ++ (getMessageCalls os w ++ lowLevelCalls WIN32_WINNT os w ++
            regularCalls WIN32_WINNT os w ++
            (if installFails WIN32_WINNT os w then rollbackCalls WIN32_WINNT os w else [])) ∧
        lowLevelCalls WIN32_WINNT os w =
          [SysCall.SetWindowsHookEx WH_MOUSE_LL w.g.g_hinstance (grantMouseLL os w).1,
           SysCall.SetWindowsHookEx WH_KEYBOARD_LL w.g.g_hinstance (grantKeyboardLL os w).1] ++
          (if (grantMouseLL os w).1 ≠ 0 ∧ (grantKeyboardLL os w).1 ≠ 0 then []
           else
            (if (grantKeyboardLL os w).1 ≠ 0 then
              [SysCall.UnhookWindowsHookEx (grantKeyboardLL os w).1] else []) ++
            (if (grantMouseLL os w).1 ≠ 0 then
              [SysCall.UnhookWindowsHookEx (grantMouseLL os w).1] else [])) ∧
        (∀ h : Nat, h ≠ 0 →
          hookBalance h (lowLevelCalls WIN32_WINNT os w) =
            if (grantMouseLL os w).1 ≠ 0 ∧ (grantKeyboardLL os w).1 ≠ 0 then
              (if (grantMouseLL os w).1 = h then 1 else 0) +
                (if (grantKeyboardLL os w).1 = h then 1 else 0)
            else 0) ∧
        (install WIN32_WINNT os w).2.g.g_mouseLL =
          (if ((grantMouseLL os w).1 ≠ 0 ∧ (grantKeyboardLL os w).1 ≠ 0) ∧
              ¬ installFails WIN32_WINNT os w then (grantMouseLL os w).1
           else 0) ∧
        (install WIN32_WINNT os w).2.g.g_keyboardLL =
          (if ((grantMouseLL os w).1 ≠ 0 ∧ (grantKeyboardLL os w).1 ≠ 0) ∧
              ¬ installFails WIN32_WINNT os w then (grantKeyboardLL os w).1
           else 0) ∧
        ((grantMouseLL os w).1 ≠ 0 ∧ (grantKeyboardLL os w).1 ≠ 0 →
          regularCalls WIN32_WINNT os w = [] ∧
          rollbackCalls WIN32_WINNT os w =
            (if w.g.g_attachedThread ≠ 0 then
              [SysCall.AttachThreadInput w.g.g_hookThread w.g.g_attachedThread false]
             else []) ++
            [SysCall.UnhookWindowsHookEx (grantKeyboardLL os w).1,
             SysCall.UnhookWindowsHookEx (grantMouseLL os w).1] ++
            (if w.g.g_keyboard ≠ 0 then [SysCall.UnhookWindowsHookEx w.g.g_keyboard]
             else []) ++
            (if w.g.g_mouse ≠ 0 then [SysCall.UnhookWindowsHookEx w.g.g_mouse] else []) ++
            (if (grantGetMessage os w).1 ≠ 0 ∧ ¬ (w.g.g_screenSaver = true) then
              [SysCall.UnhookWindowsHookEx (grantGetMessage os w).1]
             else [])) ∧
        (¬ ((grantMouseLL os w).1 ≠ 0 ∧ (grantKeyboardLL os w).1 ≠ 0) →
          regularCalls WIN32_WINNT os w =
            [SysCall.SetWindowsHookEx WH_MOUSE w.g.g_hinstance
              (grantMouse WIN32_WINNT os w).1,
             SysCall.SetWindowsHookEx WH_KEYBOARD w.g.g_hinstance
              (grantKeyboard WIN32_WINNT os w).1] ∧
          rollbackCalls WIN32_WINNT os w =
            (if w.g.g_attachedThread ≠ 0 then
              [SysCall.AttachThreadInput w.g.g_hookThread w.g.g_attachedThread false]
             else []) ++
            (if (grantKeyboard WIN32_WINNT os w).1 ≠ 0 then
              [SysCall.UnhookWindowsHookEx (grantKeyboard WIN32_WINNT os w).1] else []) ++
            (if (grantMouse WIN32_WINNT os w).1 ≠ 0 then
              [SysCall.UnhookWindowsHookEx (grantMouse WIN32_WINNT os w).1] else []) ++
            (if (grantGetMessage os w).1 ≠ 0 ∧ ¬ (w.g.g_screenSaver = true) then
              [SysCall.UnhookWindowsHookEx (grantGetMessage os w).1]
             else [])))) ∧
    ((w.g.g_mouseLL ≠ 0 ↔ w.g.g_keyboardLL ≠ 0) →
      ((install WIN32_WINNT os w).2.g.g_mouseLL ≠ 0 ↔
        (install WIN32_WINNT os w).2.g.g_keyboardLL ≠ 0)) ∧
    (¬ 0x0400 ≤ WIN32_WINNT → w.g.g_threadID ≠ 0 →
      (install WIN32_WINNT os w).2.calls =
        w.calls ++ (getMessageCalls os w ++ regularCalls WIN32_WINNT os w ++
          (if installFails WIN32_WINNT os w then rollbackCalls WIN32_WINNT os w else [])) ∧
      (install WIN32_WINNT os w).2.g.g_mouseLL =
        (if installFails WIN32_WINNT os w then 0 else w.g.g_mouseLL) ∧
      (install WIN32_WINNT os w).2.g.g_keyboardLL =
        (if installFails WIN32_WINNT os w then 0 else w.g.g_keyboardLL)) := by
  refine ⟨?_, ?_, ?_⟩
  · intro hW ht
    obtain ⟨_, h2, h3⟩ := install_exact WIN32_WINNT os w ht
    obtain ⟨hyes, hno⟩ := lowLevel_cases WIN32_WINNT os w hW
    have hml : (install WIN32_WINNT os w).2.g.g_mouseLL =
          (if ((grantMouseLL os w).1 ≠ 0 ∧ (grantKeyboardLL os w).1 ≠ 0) ∧
              ¬ installFails WIN32_WINNT os w then (grantMouseLL os w).1
           else 0) := by
      by_cases hf : installFails WIN32_WINNT os w
      · rw [h3, if_pos hf]
        exact (if_neg (fun h => h.2 hf)).symm
      · rw [h3, if_neg hf]
        by_cases hp : (grantMouseLL os w).1 ≠ 0 ∧ (grantKeyboardLL os w).1 ≠ 0
        · exact ((hyes hp).1).trans (if_pos ⟨hp, hf⟩).symm
        · exact ((hno hp).1).trans (if_neg (fun h => hp h.1)).symm
    have hkl : (install WIN32_WINNT os w).2.g.g_keyboardLL =
          (if ((grantMouseLL os w).1 ≠ 0 ∧ (grantKeyboardLL os w).1 ≠ 0) ∧
              ¬ installFails WIN32_WINNT os w then (grantKeyboardLL os w).1
           else 0) := by
      by_cases hf : installFails WIN32_WINNT os w
      · rw [h3, if_pos hf]
        exact (if_neg (fun h => h.2 hf)).symm
      · rw [h3, if_neg hf]
        by_cases hp : (grantMouseLL os w).1 ≠ 0 ∧ (grantKeyboardLL os w).1 ≠ 0
        · exact ((hyes hp).2).trans (if_pos ⟨hp, hf⟩).symm
        · exact ((hno hp).2).trans (if_neg (fun h => hp h.1)).symm
    refine ⟨?_, h2, ?_, ?_, hml, hkl, ?_, ?_⟩
    · rw [hml, hkl]
      by_cases hc : ((grantMouseLL os w).1 ≠ 0 ∧ (grantKeyboardLL os w).1 ≠ 0) ∧
          ¬ installFails WIN32_WINNT os w
      · rw [if_pos hc, if_pos hc]
        exact ⟨fun _ => hc.1.2, fun _ => hc.1.1⟩
      · rw [if_neg hc, if_neg hc]
    · unfold lowLevelCalls
      rw [if_pos hW]
    · intro h hh
      rw [hookBalance_lowLevelCalls h hh]
      by_cases hp : (grantMouseLL os w).1 ≠ 0 ∧ (grantKeyboardLL os w).1 ≠ 0
      · rw [if_pos ⟨hW, hp⟩, if_pos hp]
      · rw [if_neg (fun h => hp h.2), if_neg hp]
    · intro hp
      obtain ⟨e1, e2⟩ := hyes hp
      have e3 : (grantMouse WIN32_WINNT os w).1 = w.g.g_mouse := by
        unfold grantMouse
        rw [e1, if_neg hp.1]
      have e4 : (grantKeyboard WIN32_WINNT os w).1 = w.g.g_keyboard := by
        unfold grantKeyboard
        rw [e2, if_neg hp.2]
      unfold regularCalls rollbackCalls
      rw [e3, e4, e1, e2, if_neg hp.1, if_neg hp.2, if_pos hp.1, if_pos hp.2]
      refine ⟨rfl, ?_⟩
      simp only [List.append_assoc, List.cons_append, List.nil_append]
    · intro hp
      obtain ⟨e1, e2⟩ := hno hp
      have n0 : ¬ ((0 : Nat) ≠ 0) := fun h => h rfl
      unfold regularCalls rollbackCalls
      rw [e1, e2]
      simp only [if_true, if_neg n0, List.append_assoc, List.cons_append, List.nil_append,
        List.append_nil, and_self]
  · exact (install_lowlevel_handles WIN32_WINNT os w).2
  · intro hW ht
    obtain ⟨_, h2, h3⟩ := install_exact WIN32_WINNT os w ht
    have e1 : lowLevelMouse WIN32_WINNT os w = w.g.g_mouseLL := by
      unfold lowLevelMouse
      rw [if_neg hW]
    have e2 : lowLevelKeyboard WIN32_WINNT os w = w.g.g_keyboardLL := by
      unfold lowLevelKeyboard
      rw [if_neg hW]
    refine ⟨?_, ?_, ?_⟩
    · rw [h2]
      unfold installCalls
      rw [lowLevelCalls_of_lt WIN32_WINNT os w hW, List.append_nil]
    · rw [h3, ← e1]
      split_ifs <;> rfl
    · rw [h3, ← e2]
      split_ifs <;> rfl

/-- Witness of C10: on a system that grants the low-level mouse hook `114`
and no low-level keyboard hook, `install` releases `114` right after the
two requests, requests the regular hooks and leaves no low-level hook. -/
theorem install_lowlevel_pair_witness :
    0x0400 ≤ 0x0500 ∧ demoPartialWorld.g.g_threadID ≠ 0 ∧
    ((install 0x0500 demoWin32 demoPartialWorld).2.g.g_mouseLL ≠ 0 ↔
      (install 0x0500 demoWin32 demoPartialWorld).2.g.g_keyboardLL ≠ 0) ∧
    (install 0x0500 demoWin32 demoPartialWorld).2.calls =
      [SysCall.SetWindowsHookEx WH_MOUSE_LL 1 114,
       SysCall.SetWindowsHookEx WH_KEYBOARD_LL 1 0,
       SysCall.UnhookWindowsHookEx 114,
       SysCall.SetWindowsHookEx WH_MOUSE 1 107,
       SysCall.SetWindowsHookEx WH_KEYBOARD 1 102] ∧
    (install 0x0500 demoWin32 demoPartialWorld).2.g.g_mouseLL = 0 :=
  ⟨by decide, by decide,
    ((install_lowlevel_pair 0x0500 demoWin32 demoPartialWorld).1 (by decide) (by decide)).1,
    ((install_lowlevel_pair 0x0500 demoWin32 demoPartialWorld).1 (by decide)
      (by decide)).2.1.trans (by decide),
    ((install_lowlevel_pair 0x0500 demoWin32 demoPartialWorld).1 (by decide)
      (by decide)).2.2.2.2.1.trans (by decide)⟩

/-- C14, as stated, fails: with the screen saver observer installed on
`budgetWorld` the GetMessage hook `103` is set, and after `uninstall` it is
still set and no `UnhookWindowsHookEx` released it. -/
theorem uninstall_keeps_observer_hook :
    (installScreenSaver budgetWin32 budgetWorld).2.g.g_getMessage = 103 ∧
    (uninstall budgetWin32 (installScreenSaver budgetWin32 budgetWorld).2).2.g.g_getMessage
      = 103 ∧
    SysCall.UnhookWindowsHookEx 103 ∉
      (uninstall budgetWin32 (installScreenSaver budgetWin32 budgetWorld).2).2.calls := by
  decide

/-- C14, amended. From any state `uninstall` returns `1` and leaves the
dead key buffer empty, no thread attached, the two low-level and the two
regular hooks `NULL` and the wheel support none; the GetMessage hook is
`NULL` unless the screen saver flag is on, in which case it is kept.  The
system calls it makes are the detach of the attached thread and one
`UnhookWindowsHookEx` for every hook it drops.  A second `uninstall`
returns `1` and gives back the world of the first, with no further system
call. -/
theorem uninstall_idempotent (os : Win32 σ) (w : World σ) :
    (uninstall os w).1 = 1 ∧
    (uninstall os w).2.g =
      { w.g with
        g_deadVirtKey := 0
        g_deadLParam := 0
        g_attachedThread := 0
        g_keyboardLL := 0
        g_mouseLL := 0
        g_keyboard := 0
        g_mouse := 0
        g_getMessage :=
          if w.g.g_getMessage ≠ 0 ∧ ¬ (w.g.g_screenSaver = true) then 0
          else w.g.g_getMessage
        g_wheelSupport := EWheelSupport.kWheelNone } ∧
    (uninstall os w).2.calls =
      w.calls ++
        ((if w.g.g_attachedThread ≠ 0 then
            [SysCall.AttachThreadInput w.g.g_hookThread w.g.g_attachedThread false]
          else []) ++
         (if w.g.g_keyboardLL ≠ 0 then [SysCall.UnhookWindowsHookEx w.g.g_keyboardLL]
          else []) ++
         (if w.g.g_mouseLL ≠ 0 then [SysCall.UnhookWindowsHookEx w.g.g_mouseLL] else []) ++
         (if w.g.g_keyboard ≠ 0 then [SysCall.UnhookWindowsHookEx w.g.g_keyboard] else []) ++
         (if w.g.g_mouse ≠ 0 then [SysCall.UnhookWindowsHookEx w.g.g_mouse] else []) ++
         (if w.g.g_getMessage ≠ 0 ∧ ¬ (w.g.g_screenSaver = true) then
            [SysCall.UnhookWindowsHookEx w.g.g_getMessage]
          else [])) ∧
    uninstall os (uninstall os w).2 = (1, (uninstall os w).2) := by
  refine ⟨rfl, uninstall_g os w, uninstall_calls os w, ?_⟩
  have hg := uninstall_g os w
  have hk := uninstall_g_getMessage os w
  refine uninstall_of_clean os _ (by rw [hg]) (by rw [hg]) (by rw [hg]) (by rw [hg])
    (by rw [hg]) (by rw [hg]) (by rw [hg]) ?_ (by rw [hg])
  by_cases h : (uninstall os w).2.g.g_getMessage = 0
  · exact Or.inl h
  · refine Or.inr ?_
    rw [hk.2.2]
    exact (hk.1.1 h).2

/-- Witness of amended C14: `uninstall` after a low-level `install` on
`budgetWorld`, and again. -/
theorem uninstall_idempotent_witness :
    (uninstall budgetWin32 (install 0x0500 budgetWin32 budgetWorld).2).2.g.g_mouseLL = 0 ∧
    uninstall budgetWin32
        (uninstall budgetWin32 (install 0x0500 budgetWin32 budgetWorld).2).2 =
      (1, (uninstall budgetWin32 (install 0x0500 budgetWin32 budgetWorld).2).2) :=
  ⟨congrArg Globals.g_mouseLL
      (uninstall_idempotent budgetWin32 (install 0x0500 budgetWin32 budgetWorld).2).2.1,
    (uninstall_idempotent budgetWin32 (install 0x0500 budgetWin32 budgetWorld).2).2.2.2⟩

/-! ## The shared GetMessage hook -/

theorem uninstallScreenSaver_g (os : Win32 σ) (w : World σ) :
    (uninstallScreenSaver os w).2.g =
      { w.g with
        g_getMessage :=
          if w.g.g_getMessage ≠ 0 ∧ w.g.g_wheelSupport ≠ EWheelSupport.kWheelOld then 0
          else w.g.g_getMessage
        g_screenSaver := false } := by
  unfold uninstallScreenSaver UnhookWindowsHookEx
  dsimp only
  split_ifs <;> rfl

/-- The GetMessage hook after `uninstallScreenSaver`: kept exactly for the
old wheel support. -/
theorem uninstallScreenSaver_g_getMessage (os : Win32 σ) (w : World σ) :
    ((uninstallScreenSaver os w).2.g.g_getMessage ≠ 0 ↔
      (w.g.g_getMessage ≠ 0 ∧ w.g.g_wheelSupport = EWheelSupport.kWheelOld)) ∧
    ((uninstallScreenSaver os w).2.g.g_getMessage ≠ 0 →
      (uninstallScreenSaver os w).2.g.g_getMessage = w.g.g_getMessage) ∧
    (uninstallScreenSaver os w).2.g.g_wheelSupport = w.g.g_wheelSupport := by
  rw [uninstallScreenSaver_g]
  dsimp only
  by_cases hx : w.g.g_getMessage ≠ 0 ∧ w.g.g_wheelSupport ≠ EWheelSupport.kWheelOld
  · rw [if_pos hx]
    exact ⟨⟨fun h => absurd rfl h, fun h => absurd h.2 hx.2⟩, fun h => absurd rfl h, rfl⟩
  · rw [if_neg hx]
    refine ⟨⟨fun h => ⟨h, ?_⟩, fun h => h.1⟩, fun _ => rfl, rfl⟩
    by_cases hs : w.g.g_wheelSupport = EWheelSupport.kWheelOld
    · exact hs
    · exact absurd ⟨h, hs⟩ hx

theorem installScreenSaver_g_screenSaver (os : Win32 σ) (w : World σ)
    (h : w.g.g_threadID ≠ 0) : (installScreenSaver os w).2.g.g_screenSaver = true := by
  unfold installScreenSaver SetWindowsHookEx
  rw [if_neg h]
  dsimp only
  split_ifs <;> rfl

/-- The GetMessage hook at the check of `install`: the one at entry, or one
set for the old wheel support. -/
theorem installAttempts_g_getMessage (WIN32_WINNT : Nat) (os : Win32 σ) (w : World σ) :
    (installAttempts WIN32_WINNT os w).g.g_getMessage = w.g.g_getMessage ∨
    (installAttempts WIN32_WINNT os w).g.g_wheelSupport = EWheelSupport.kWheelOld := by
  unfold installAttempts
  dsimp only
  rw [installRegular_frame, installLowLevel_frame]
  dsimp only
  unfold installGetMessage SetWindowsHookEx
  dsimp only
  split_ifs with h
  · exact Or.inr h.1
  · refine Or.inl ?_
    dsimp only
    rw [getWheelSupport_g]

theorem install_observerHasConsumer (WIN32_WINNT : Nat) (os : Win32 σ) (w : World σ)
    (he : w.g.g_getMessage = 0 ∨ w.g.g_screenSaver = true) :
    observerHasConsumer (install WIN32_WINNT os w).2 := by
  have hfr := installAttempts_frame WIN32_WINNT os w
  have hss : (installAttempts WIN32_WINNT os w).g.g_screenSaver = w.g.g_screenSaver := by
    rw [hfr]
  have hat : observerHasConsumer (installAttempts WIN32_WINNT os w) := by
    intro hn
    rcases installAttempts_g_getMessage WIN32_WINNT os w with h | h
    · rw [h] at hn
      rcases he with he | he
      · exact absurd he hn
      · exact Or.inl (hss.trans he)
    · exact Or.inr h
  rw [install_eq]
  by_cases ht : w.g.g_threadID = 0
  · rw [if_pos ht]
    intro hn
    rcases he with he | he
    · exact absurd he hn
    · exact Or.inl he
  · rw [if_neg ht]
    split_ifs
    · intro hn
      have hk := uninstall_g_getMessage os (installAttempts WIN32_WINNT os w)
      refine Or.inl ?_
      rw [hk.2.2]
      exact (hk.1.1 hn).2
    · exact hat
    · exact hat

theorem runCall_observerHasConsumer (WIN32_WINNT : Nat) (os : Win32 σ) (w : World σ)
    (c : ControlCall) (hi : observerHasConsumer w) (he : callEntry w c) :
    observerHasConsumer (runCall WIN32_WINNT os w c) := by
  cases c with
  | callInstall => exact install_observerHasConsumer WIN32_WINNT os w he
  | callUninstall =>
    intro hn
    have hk := uninstall_g_getMessage os w
    refine Or.inl ?_
    show (uninstall os w).2.g.g_screenSaver = true
    rw [hk.2.2]
    exact (hk.1.1 hn).2
  | callInstallScreenSaver =>
    by_cases ht : w.g.g_threadID = 0
    · have e : installScreenSaver os w = (0, w) := by
        unfold installScreenSaver
        rw [if_pos ht]
      show observerHasConsumer (installScreenSaver os w).2
      rw [e]
      exact hi
    · intro _
      exact Or.inl (installScreenSaver_g_screenSaver os w ht)
  | callUninstallScreenSaver =>
    intro hn
    have hk := uninstallScreenSaver_g_getMessage os w
    refine Or.inr ?_
    show (uninstallScreenSaver os w).2.g.g_wheelSupport = EWheelSupport.kWheelOld
    rw [hk.2.2]
    exact (hk.1.1 hn).2

theorem runCalls_observerHasConsumer (WIN32_WINNT : Nat) (os : Win32 σ)
    (cs : List ControlCall) :
    ∀ w : World σ, observerHasConsumer w → entriesHold WIN32_WINNT os cs w →
      observerHasConsumer (runCalls WIN32_WINNT os cs w) := by
  induction cs with
  | nil => intro w hi _; exact hi
  | cons c cs ih =>
    intro w hi he
    exact ih _ (runCall_observerHasConsumer WIN32_WINNT os w c hi he.1) he.2

/-- The system calls of `uninstallScreenSaver`: the GetMessage hook is
released, once, exactly when it is set and the wheel support is not the old
one. -/
theorem uninstallScreenSaver_calls (os : Win32 σ) (w : World σ) :
    (uninstallScreenSaver os w).2.calls =
      w.calls ++
        (if w.g.g_getMessage ≠ 0 ∧ w.g.g_wheelSupport ≠ EWheelSupport.kWheelOld then
          [SysCall.UnhookWindowsHookEx w.g.g_getMessage]
        else []) := by
  unfold uninstallScreenSaver UnhookWindowsHookEx
  dsimp only
  by_cases h : w.g.g_getMessage ≠ 0 ∧ w.g.g_wheelSupport ≠ EWheelSupport.kWheelOld
  · rw [if_pos h, if_pos h]
  · rw [if_neg h, if_neg h, List.append_nil]

/-- C15. `uninstall` keeps a set GetMessage hook exactly when the screen
saver flag is on, `uninstallScreenSaver` keeps it exactly when the wheel
support is the old one, and a kept hook is the same handle.  Over every
sequence of `install`, `uninstall`, `installScreenSaver` and
`uninstallScreenSaver` calls that starts with no GetMessage hook and enters
each `install` with `g_getMessage == NULL || g_screenSaver`, a set
GetMessage hook implies that the screen saver flag is on or the wheel
support is the old one.  In the system the hook is released exactly when
it is dropped: `uninstallScreenSaver` calls `UnhookWindowsHookEx` on it,
once, exactly when it is set and the wheel support is not the old one, and
makes no other call; `uninstall` calls `UnhookWindowsHookEx` on it, once
and after the hooks of the mouse and the keyboard, exactly when it is set
and the screen saver flag is off. -/
theorem getMessage_hook_shared (WIN32_WINNT : Nat) (os : Win32 σ) (w : World σ)
    (cs : List ControlCall) :
    (((uninstall os w).2.g.g_getMessage ≠ 0 ↔
        (w.g.g_getMessage ≠ 0 ∧ w.g.g_screenSaver = true)) ∧
      ((uninstall os w).2.g.g_getMessage ≠ 0 →
        (uninstall os w).2.g.g_getMessage = w.g.g_getMessage)) ∧
    (((uninstallScreenSaver os w).2.g.g_getMessage ≠ 0 ↔
        (w.g.g_getMessage ≠ 0 ∧ w.g.g_wheelSupport = EWheelSupport.kWheelOld)) ∧
      ((uninstallScreenSaver os w).2.g.g_getMessage ≠ 0 →
        (uninstallScreenSaver os w).2.g.g_getMessage = w.g.g_getMessage)) ∧
    (w.g.g_getMessage = 0 → entriesHold WIN32_WINNT os cs w →
      ((runCalls WIN32_WINNT os cs w).g.g_getMessage ≠ 0 →
        (runCalls WIN32_WINNT os cs w).g.g_screenSaver = true ∨
        (runCalls WIN32_WINNT os cs w).g.g_wheelSupport = EWheelSupport.kWheelOld)) ∧
    (uninstallScreenSaver os w).2.calls =
      w.calls ++
        (if w.g.g_getMessage ≠ 0 ∧ w.g.g_wheelSupport ≠ EWheelSupport.kWheelOld then
          [SysCall.UnhookWindowsHookEx w.g.g_getMessage]
        else []) ∧
    (uninstall os w).2.calls =
      w.calls ++
        ((if w.g.g_attachedThread ≠ 0 then
            [SysCall.AttachThreadInput w.g.g_hookThread w.g.g_attachedThread false]
          else []) ++
         (if w.g.g_keyboardLL ≠ 0 then [SysCall.UnhookWindowsHookEx w.g.g_keyboardLL]
          else []) ++
         (if w.g.g_mouseLL ≠ 0 then [SysCall.UnhookWindowsHookEx w.g.g_mouseLL] else []) ++
         (if w.g.g_keyboard ≠ 0 then [SysCall.UnhookWindowsHookEx w.g.g_keyboard] else []) ++
         (if w.g.g_mouse ≠ 0 then [SysCall.UnhookWindowsHookEx w.g.g_mouse] else []) ++
         (if w.g.g_getMessage ≠ 0 ∧ ¬ (w.g.g_screenSaver = true) then
            [SysCall.UnhookWindowsHookEx w.g.g_getMessage]
          else [])) := by
  refine ⟨⟨(uninstall_g_getMessage os w).1, (uninstall_g_getMessage os w).2.1⟩,
    ⟨(uninstallScreenSaver_g_getMessage os w).1, (uninstallScreenSaver_g_getMessage os w).2.1⟩,
    ?_, uninstallScreenSaver_calls os w, uninstall_calls os w⟩
  intro h0 he
  exact runCalls_observerHasConsumer WIN32_WINNT os cs w (fun hn => absurd h0 hn) he

/-- Witness of C15: on `budgetWorld` the screen saver observer is installed,
then the hooks are installed and removed; the GetMessage hook is still set
and the screen saver flag is on. -/
theorem getMessage_hook_shared_witness :
    budgetWorld.g.g_getMessage = 0 ∧
    entriesHold 0x0500 budgetWin32
      [ControlCall.callInstallScreenSaver, ControlCall.callInstall,
        ControlCall.callUninstall] budgetWorld ∧
    (runCalls 0x0500 budgetWin32
      [ControlCall.callInstallScreenSaver, ControlCall.callInstall,
        ControlCall.callUninstall] budgetWorld).g.g_getMessage ≠ 0 ∧
    ((runCalls 0x0500 budgetWin32
        [ControlCall.callInstallScreenSaver, ControlCall.callInstall,
          ControlCall.callUninstall] budgetWorld).g.g_screenSaver = true ∨
      (runCalls 0x0500 budgetWin32
        [ControlCall.callInstallScreenSaver, ControlCall.callInstall,
          ControlCall.callUninstall] budgetWorld).g.g_wheelSupport =
        EWheelSupport.kWheelOld) :=
  ⟨rfl, ⟨trivial, Or.inr (by decide), trivial, trivial⟩, by decide,
    (getMessage_hook_shared 0x0500 budgetWin32 budgetWorld
      [ControlCall.callInstallScreenSaver, ControlCall.callInstall,
        ControlCall.callUninstall]).2.2.1 rfl
      ⟨trivial, Or.inr (by decide), trivial, trivial⟩ (by decide)⟩

/-! ## The foreground attachment -/

/-- C19, the code at the failing input.  On `budgetWorld` the system grants
two low-level hooks: `install` returns `kHOOK_OKAY_LL` and records the hook
thread `9`; `uninstall` leaves `g_hookThread` at `9`; the next `install`
gets no low-level hook and returns `kHOOK_OKAY` with both low-level hooks
`NULL`; and `attachThreadToForeground` then still attaches thread `9` to
the foreground thread `5`. -/
theorem attach_after_lowlevel_then_regular_install :
    (install 0x0500 budgetWin32 budgetWorld).1 = EHookResult.kHOOK_OKAY_LL ∧
    (install 0x0500 budgetWin32 budgetWorld).2.g.g_hookThread = 9 ∧
    (uninstall budgetWin32 (install 0x0500 budgetWin32 budgetWorld).2).2.g.g_hookThread = 9 ∧
    (uninstall budgetWin32 (install 0x0500 budgetWin32 budgetWorld).2).2.g.g_attachedThread
      = 0 ∧
    (install 0x0500 budgetWin32
      (uninstall budgetWin32 (install 0x0500 budgetWin32 budgetWorld).2).2).1 =
      EHookResult.kHOOK_OKAY ∧
    (install 0x0500 budgetWin32
      (uninstall budgetWin32 (install 0x0500 budgetWin32 budgetWorld).2).2).2.g.g_mouseLL
      = 0 ∧
    (install 0x0500 budgetWin32
      (uninstall budgetWin32 (install 0x0500 budgetWin32 budgetWorld).2).2).2.g.g_keyboardLL
      = 0 ∧
    (attachThreadToForeground budgetWin32
      (install 0x0500 budgetWin32
        (uninstall budgetWin32 (install 0x0500 budgetWin32 budgetWorld).2).2).2).calls =
      (install 0x0500 budgetWin32
        (uninstall budgetWin32 (install 0x0500 budgetWin32 budgetWorld).2).2).2.calls ++
        [SysCall.AttachThreadInput 9 5 true] ∧
    (attachThreadToForeground budgetWin32
      (install 0x0500 budgetWin32
        (uninstall budgetWin32
          (install 0x0500 budgetWin32 budgetWorld).2).2).2).g.g_attachedThread = 5 := by
  decide

/-! ## The key code of the forwarded message -/

theorem land_ff_eq_mod (v : Nat) : v &&& 0xff = v % 256 :=
  Nat.and_pow_two_sub_one_eq_mod v 8

theorem not_keyIsDead_of_map_eq_zero (os : Win32 σ) (w : World σ) (wParam : Nat)
    (h : os.MapVirtualKey (attachThreadToForeground os w).sys wParam 2 = 0) :
    ¬ keyIsDead os w wParam := by
  unfold keyIsDead
  rw [h, Nat.zero_and]
  exact fun hn => hn rfl

/-- C21. A key event that is not a dead key.  When the key maps to a
character (`MapVirtualKey` gives non-zero) the forwarded key code follows
the result of `ToAscii`: with no character it is the low byte of the
virtual key, with one character it is `makeKeyMsg` of the key and the
character, whose low byte is the virtual key, whose second byte is the
character and whose upper 16 bits are `0`; either way exactly one message
is posted, with the event parameter, and the dead key buffer is empty
afterwards.  When the key maps to no character, one message with the low
byte of the virtual key and the event parameter is posted and the dead key
buffer is left as it was. -/
theorem keyboardHookHandler_key_code (os : Win32 σ) (w : World σ) (wParam lParam : Nat) :
    (¬ keyIsDead os w wParam →
      os.MapVirtualKey (attachThreadToForeground os w).sys wParam 2 ≠ 0 →
      ((keyboardMapKey os (attachThreadToForeground os w) wParam lParam).1.n = 0 →
        (keyboardHookHandler os w wParam lParam).2.posted =
          w.posted ++ [⟨w.g.g_threadID, SynergyMsg.SYNERGY_MSG_KEY, wParam % 256, lParam⟩]) ∧
      ((keyboardMapKey os (attachThreadToForeground os w) wParam lParam).1.n = 1 →
        (keyboardHookHandler os w wParam lParam).2.posted =
          w.posted ++
            [⟨w.g.g_threadID, SynergyMsg.SYNERGY_MSG_KEY,
              makeKeyMsg wParam
                (LOBYTE (keyboardMapKey os (attachThreadToForeground os w) wParam lParam).1.c),
              lParam⟩]) ∧
      (keyboardHookHandler os w wParam lParam).2.g.g_deadVirtKey = 0 ∧
      (keyboardHookHandler os w wParam lParam).2.g.g_deadLParam = 0) ∧
    (os.MapVirtualKey (attachThreadToForeground os w).sys wParam 2 = 0 →
      (keyboardHookHandler os w wParam lParam).2.posted =
        w.posted ++ [⟨w.g.g_threadID, SynergyMsg.SYNERGY_MSG_KEY, wParam % 256, lParam⟩] ∧
      (keyboardHookHandler os w wParam lParam).2.g.g_deadVirtKey = w.g.g_deadVirtKey ∧
      (keyboardHookHandler os w wParam lParam).2.g.g_deadLParam = w.g.g_deadLParam ∧
      (keyboardHookHandler os w wParam lParam).2.g.g_deadKeyState = w.g.g_deadKeyState) ∧
    (∀ v c : Nat, makeKeyMsg v (LOBYTE c) % 256 = v % 256 ∧
      makeKeyMsg v (LOBYTE c) / 256 % 256 = c % 256 ∧
      makeKeyMsg v (LOBYTE c) / 65536 = 0) := by
  refine ⟨?_, ?_, ?_⟩
  · intro hnd hc
    have hf : keyForwarded os w wParam lParam := fun hx => hnd hx.1
    have hnd' : ¬ (os.MapVirtualKey (attachThreadToForeground os w).sys wParam 2
        &&& 0x80000000 ≠ 0) := hnd
    have h01 : ¬ ((0 : Int) = 1) := by decide
    have h02 : ¬ ((0 : Int) = 2) := by decide
    have h12 : ¬ ((1 : Int) = 2) := by decide
    rw [keyboardHookHandler_of_forwarded os w wParam lParam hf, keyboardForward_posted,
      keyboardForward_g]
    simp only [if_pos hc, if_neg hnd']
    rw [keyboardToChar_posted, keyboardToChar_fst, attachThreadToForeground_posted,
      attachThreadToForeground_g_threadID]
    refine ⟨?_, ?_, trivial, trivial⟩
    · intro hn
      simp only [hn, if_neg h02, if_neg h01, land_ff_eq_mod, List.append_nil]
    · intro hn
      simp only [hn, if_neg h12, if_true, List.append_nil]
  · intro hc
    have hnd := not_keyIsDead_of_map_eq_zero os w wParam hc
    have hf : keyForwarded os w wParam lParam := fun hx => hnd hx.1
    have hnd' : ¬ (os.MapVirtualKey (attachThreadToForeground os w).sys wParam 2
        &&& 0x80000000 ≠ 0) := hnd
    rw [keyboardHookHandler_of_forwarded os w wParam lParam hf, keyboardForward_posted,
      keyboardForward_g]
    simp only [if_neg (not_not.2 hc), if_neg hnd']
    rw [attachThreadToForeground_posted, attachThreadToForeground_g_threadID,
      attachThreadToForeground_frame, land_ff_eq_mod]
    simp
  · intro v c
    rw [makeKeyMsg_eq]
    unfold LOBYTE
    omega

/-- Witness of C21: the press of the letter `A` in `demoWorld`, where
`ToAscii` gives the one character `0x61`. -/
theorem keyboardHookHandler_key_code_witness :
    ¬ keyIsDead demoWin32 demoWorld 0x41 ∧
    demoWin32.MapVirtualKey (attachThreadToForeground demoWin32 demoWorld).sys 0x41 2 ≠ 0 ∧
    (keyboardMapKey demoWin32 (attachThreadToForeground demoWin32 demoWorld)
      0x41 0x001E0001).1.n = 1 ∧
    (keyboardHookHandler demoWin32 demoWorld 0x41 0x001E0001).2.posted =
      demoWorld.posted ++
        [⟨demoWorld.g.g_threadID, SynergyMsg.SYNERGY_MSG_KEY,
          makeKeyMsg 0x41
            (LOBYTE (keyboardMapKey demoWin32 (attachThreadToForeground demoWin32 demoWorld)
              0x41 0x001E0001).1.c),
          0x001E0001⟩] :=
  ⟨by decide, by decide, by decide,
    ((keyboardHookHandler_key_code demoWin32 demoWorld 0x41 0x001E0001).1
      (by decide) (by decide)).2.1 (by decide)⟩

/-! ## The wheel delta of the low-level mouse hook -/

theorem HIWORD_eq (l : Nat) : HIWORD l = l / 65536 % 65536 := by
  unfold HIWORD
  rw [Nat.shiftRight_eq_div_pow]

theorem toU32_natCast (n : Nat) (h : n < 4294967296) : toU32 (n : Int) = n := by
  unfold toU32
  omega

/-- In relay mode a wheel event posts one wheel message with the delta. -/
theorem mouseHookHandler_wheel_relay (pt : DirectionMasks) (os : Win32 σ) (w : World σ)
    (x y data : Int) (hmode : w.g.g_mode = EHookMode.kHOOK_RELAY_EVENTS) :
    (mouseHookHandler pt os w WM_MOUSEWHEEL x y data).2.posted =
      w.posted ++ [⟨w.g.g_threadID, SynergyMsg.SYNERGY_MSG_MOUSE_WHEEL, toU32 data, 0⟩] := by
  have hm := attachThreadToForeground_g_mode os w
  have ht := attachThreadToForeground_g_threadID os w
  have hp := attachThreadToForeground_posted os w
  have hnb : WM_MOUSEWHEEL ∉ buttonEvents := by decide
  rw [hmode] at hm
  unfold mouseHookHandler
  simp only [hnb, if_true, if_false, hm]
  simp [PostThreadMessage, ht, hp]

/-- C22. The low-level mouse hook hands `mouseHookHandler` the wheel delta
`HIWORD(mouseData)`: the upper 16 bits of the 32-bit `mouseData`, taken as
an unsigned number, so between `0` and `65535` and never negative.  In relay
mode the wheel message carries that number.  The 16-bit pattern of the
delta `-120` is `65416`, and `mouseData = 0xFF880000` is forwarded as
`65416`. -/
theorem mouseLLHook_wheel_delta (pt : DirectionMasks) (os : Win32 σ) (w : World σ)
    (code : Int) (wParam lParam : Nat) (x y : Int) (mouseData : Nat) (hc : 0 ≤ code) :
    mouseLLHook pt os w code wParam lParam ⟨x, y, mouseData⟩ =
      (if (mouseHookHandler pt os w wParam x y ((HIWORD mouseData : Nat) : Int)).1 = true then
        (HookReturn.one,
          (mouseHookHandler pt os w wParam x y ((HIWORD mouseData : Nat) : Int)).2)
      else
        (HookReturn.CallNextHookEx
          (mouseHookHandler pt os w wParam x y
            ((HIWORD mouseData : Nat) : Int)).2.g.g_mouseLL code wParam lParam,
          (mouseHookHandler pt os w wParam x y ((HIWORD mouseData : Nat) : Int)).2)) ∧
    HIWORD mouseData = mouseData / 65536 % 65536 ∧
    (mouseData < 4294967296 → HIWORD mouseData = mouseData / 65536) ∧
    (0 ≤ ((HIWORD mouseData : Nat) : Int) ∧ ((HIWORD mouseData : Nat) : Int) ≤ 65535) ∧
    (w.g.g_mode = EHookMode.kHOOK_RELAY_EVENTS →
      (mouseLLHook pt os w code WM_MOUSEWHEEL lParam ⟨x, y, mouseData⟩).2.posted =
        w.posted ++
          [⟨w.g.g_threadID, SynergyMsg.SYNERGY_MSG_MOUSE_WHEEL, HIWORD mouseData, 0⟩]) ∧
    ((-120 : Int) % 65536).toNat = 65416 ∧
    HIWORD 0xFF880000 = 65416 := by
  have hlt : HIWORD mouseData < 65536 := by
    rw [HIWORD_eq]
    omega
  have hunf : ∀ wp : Nat, mouseLLHook pt os w code wp lParam ⟨x, y, mouseData⟩ =
      (if (mouseHookHandler pt os w wp x y ((HIWORD mouseData : Nat) : Int)).1 = true then
        (HookReturn.one,
          (mouseHookHandler pt os w wp x y ((HIWORD mouseData : Nat) : Int)).2)
      else
        (HookReturn.CallNextHookEx
          (mouseHookHandler pt os w wp x y
            ((HIWORD mouseData : Nat) : Int)).2.g.g_mouseLL code wp lParam,
          (mouseHookHandler pt os w wp x y ((HIWORD mouseData : Nat) : Int)).2)) := by
    intro wp
    unfold mouseLLHook
    rw [if_pos hc]
  refine ⟨hunf wParam, HIWORD_eq mouseData, ?_, ⟨by omega, by omega⟩, ?_, by decide, by decide⟩
  · intro h
    rw [HIWORD_eq]
    omega
  · intro hmode
    rw [hunf WM_MOUSEWHEEL]
    have hp := mouseHookHandler_wheel_relay pt os w x y ((HIWORD mouseData : Nat) : Int) hmode
    rw [toU32_natCast _ (by omega)] at hp
    split_ifs <;> exact hp

/-- Witness of C22: a backward scroll, `mouseData = 0xFF880000`, through
the low-level hook in relay mode. -/
theorem mouseLLHook_wheel_delta_witness :
    (0 : Int) ≤ 0 ∧
    (setMode demoWorld EHookMode.kHOOK_RELAY_EVENTS).g.g_mode =
      EHookMode.kHOOK_RELAY_EVENTS ∧
    (mouseLLHook demoMasks demoWin32 (setMode demoWorld EHookMode.kHOOK_RELAY_EVENTS) 0
      WM_MOUSEWHEEL 0 ⟨10, 20, 0xFF880000⟩).2.posted =
      (setMode demoWorld EHookMode.kHOOK_RELAY_EVENTS).posted ++
        [⟨(setMode demoWorld EHookMode.kHOOK_RELAY_EVENTS).g.g_threadID,
          SynergyMsg.SYNERGY_MSG_MOUSE_WHEEL, HIWORD 0xFF880000, 0⟩] :=
  ⟨by decide, rfl,
    (mouseLLHook_wheel_delta demoMasks demoWin32
      (setMode demoWorld EHookMode.kHOOK_RELAY_EVENTS) 0 WM_MOUSEWHEEL 0 10 20 0xFF880000
      (by decide)).2.2.2.2.1 rfl⟩

/-! ## The GetMessage hook procedure -/

/-- What `getMessageHook` posts for an observed message (`code >= 0`): the
screen saver notification when the screen saver flag is on and the message
is `WM_SYSCOMMAND` with `SC_SCREENSAVE`, then a wheel message when the mode
is relay and the message identifier equals `g_wmMouseWheel`. -/
theorem getMessageHook_posted (w : World σ) (code : Int) (wParam lParam : Nat) (msg : MSG)
    (hc : 0 ≤ code) :
    (getMessageHook w code wParam lParam msg).2.2.posted =
      w.posted ++
        ((if w.g.g_screenSaver = true ∧ msg.message = WM_SYSCOMMAND ∧
              msg.wParam = SC_SCREENSAVE then
            [⟨w.g.g_threadID, SynergyMsg.SYNERGY_MSG_SCREEN_SAVER, 1, 0⟩]
          else []) ++
         (if w.g.g_mode = EHookMode.kHOOK_RELAY_EVENTS ∧ msg.message = w.g.g_wmMouseWheel then
            [⟨w.g.g_threadID, SynergyMsg.SYNERGY_MSG_MOUSE_WHEEL, msg.wParam, 0⟩]
          else [])) := by
  unfold getMessageHook PostThreadMessage
  dsimp only
  rw [if_pos hc]
  split_ifs <;> simp_all

/-- The observed message after `getMessageHook`: its `wParam` is zeroed
when the mode is relay and the message identifier equals `g_wmMouseWheel`,
and nothing else is changed. -/
theorem getMessageHook_msg (w : World σ) (code : Int) (wParam lParam : Nat) (msg : MSG)
    (hc : 0 ≤ code) :
    (getMessageHook w code wParam lParam msg).2.1 =
      if w.g.g_mode = EHookMode.kHOOK_RELAY_EVENTS ∧ msg.message = w.g.g_wmMouseWheel then
        { msg with wParam := 0 }
      else msg := by
  unfold getMessageHook PostThreadMessage
  dsimp only
  rw [if_pos hc]
  split_ifs <;> simp_all

/-- C23, the code at the failing input.  On `budgetWorld` the screen saver
observer is installed, `install` finds the modern wheel support and the
mode is set to relay: the wheel support is not the old one, the GetMessage
hook `103` serves the screen saver only and `g_wmMouseWheel` is `0`.  The
observed message `WM_NULL` (identifier `0`) with `wParam = 5` then makes
`getMessageHook` post a wheel message with delta `5` and zero the `wParam`
of the observed message.  The same happens when `install` was never called
and the wheel support is none. -/
theorem getMessageHook_relays_without_old_wheel :
    (setMode (install 0x0500 budgetWin32 (installScreenSaver budgetWin32 budgetWorld).2).2
      EHookMode.kHOOK_RELAY_EVENTS).g.g_wheelSupport = EWheelSupport.kWheelModern ∧
    (setMode (install 0x0500 budgetWin32 (installScreenSaver budgetWin32 budgetWorld).2).2
      EHookMode.kHOOK_RELAY_EVENTS).g.g_getMessage = 103 ∧
    (setMode (install 0x0500 budgetWin32 (installScreenSaver budgetWin32 budgetWorld).2).2
      EHookMode.kHOOK_RELAY_EVENTS).g.g_wmMouseWheel = 0 ∧
    (getMessageHook
      (setMode (install 0x0500 budgetWin32 (installScreenSaver budgetWin32 budgetWorld).2).2
        EHookMode.kHOOK_RELAY_EVENTS) 0 1 0 ⟨0, 5⟩).2.2.posted =
      [⟨42, SynergyMsg.SYNERGY_MSG_MOUSE_WHEEL, 5, 0⟩] ∧
    (getMessageHook
      (setMode (install 0x0500 budgetWin32 (installScreenSaver budgetWin32 budgetWorld).2).2
        EHookMode.kHOOK_RELAY_EVENTS) 0 1 0 ⟨0, 5⟩).2.1 = ⟨0, 0⟩ ∧
    (setMode (installScreenSaver budgetWin32 budgetWorld).2
      EHookMode.kHOOK_RELAY_EVENTS).g.g_wheelSupport = EWheelSupport.kWheelNone ∧
    (getMessageHook
      (setMode (installScreenSaver budgetWin32 budgetWorld).2 EHookMode.kHOOK_RELAY_EVENTS)
      0 1 0 ⟨0, 5⟩).2.2.posted =
      [⟨42, SynergyMsg.SYNERGY_MSG_MOUSE_WHEEL, 5, 0⟩] ∧
    (getMessageHook
      (setMode (installScreenSaver budgetWin32 budgetWorld).2 EHookMode.kHOOK_RELAY_EVENTS)
      0 1 0 ⟨0, 5⟩).2.1 = ⟨0, 0⟩ := by
  decide

end CSynergyHook
